/-
  Verification of the gmail-cleaner batch operation engine.

  Shallow embedding of src/app/services/gmail.py and src/app/core/state.py:
  pure helpers become Lean functions; the background jobs become trace
  generators that record every write the job makes to its status slot;
  the remote Gmail transport, the DNS resolver and the auth provider are
  oracle parameters, so theorems quantify over every possible remote
  behaviour.
-/
import Mathlib

set_option maxHeartbeats 1000000

/-! ## QueryBuilder: build_gmail_query (gmail.py lines 58-106) -/

/-- The filter set accepted by build_gmail_query.  A field holds the empty
string when absent, matching filters.get(key, '') and Python truthiness. -/
structure Filters where
  older_than : String
  after_date : String
  before_date : String
  larger_than : String
  category : String
  sender : String
  label : String
deriving Repr, DecidableEq

/-- The query_parts list built by build_gmail_query, in source order:
after, before, (older_than only when both dates are absent), larger,
category, from, label. -/
def build_gmail_query_parts (f : Filters) : List String :=
  (if f.after_date ≠ "" then ["after:" ++ f.after_date] else []) ++
  (if f.before_date ≠ "" then ["before:" ++ f.before_date] else []) ++
  (if f.after_date = "" ∧ f.before_date = "" then
    (if f.older_than ≠ "" then ["older_than:" ++ f.older_than] else [])
   else []) ++
  (if f.larger_than ≠ "" then ["larger:" ++ f.larger_than] else []) ++
  (if f.category ≠ "" then ["category:" ++ f.category] else []) ++
  (if f.sender ≠ "" then ["from:" ++ f.sender] else []) ++
  (if f.label ≠ "" then ["label:" ++ f.label] else [])

/-- build_gmail_query: none models a missing/empty filters argument
(the `if not filters: return ""` guard). -/
def build_gmail_query : Option Filters → String
  | none => ""
  | some f => String.intercalate " " (build_gmail_query_parts f)

/-! ## HeaderExtractor (gmail.py lines 111-157) -/

/-- Python str.lower() for the ASCII header names compared here. -/
def lowerStr (s : String) : String := String.mk (s.data.map Char.toLower)

/-- One (name, value) header pair. -/
structure Header where
  name : String
  value : String
deriving Repr, DecidableEq

/-- Characters strictly before the first literal greater-than sign, when
one exists; models the regex character class excluding that sign followed
by the closing sign. -/
def takeUntilGt : List Char → Option (List Char)
  | [] => none
  | c :: rest => if c = '>' then some [] else (takeUntilGt rest).map (c :: ·)

/-- Try to match the body of the angle-bracketed http(s) URL pattern right
after an opening angle bracket: a literal "http://" or "https://" scheme,
then one or more characters other than the closing bracket, then the
closing bracket.  Returns the captured URL. -/
def matchHttpAt (cs : List Char) : Option (List Char) :=
  let tryScheme : List Char → Option (List Char) := fun scheme =>
    if scheme.isPrefixOf cs then
      match takeUntilGt (cs.drop scheme.length) with
      | some body => if body ≠ [] then some (scheme ++ body) else none
      | none => none
    else none
  match tryScheme ("https://".data) with
  | some r => some r
  | none => tryScheme ("http://".data)

/-- Try to match the body of the angle-bracketed mailto pattern right
after an opening angle bracket. -/
def matchMailtoAt (cs : List Char) : Option (List Char) :=
  if ("mailto:".data).isPrefixOf cs then
    match takeUntilGt (cs.drop 7) with
    | some body => if body ≠ [] then some ("mailto:".data ++ body) else none
    | none => none
  else none

/-- Leftmost match of the angle-bracketed http(s) URL pattern, as
re.findall(...)[0] computes it: scan left to right for an opening angle
bracket at which the pattern matches. -/
def findHttpAngle : List Char → Option String
  | [] => none
  | c :: rest =>
    if c = '<' then
      match matchHttpAt rest with
      | some cap => some (String.mk cap)
      | none => findHttpAngle rest
    else findHttpAngle rest

/-- Leftmost match of the angle-bracketed mailto pattern. -/
def findMailtoAngle : List Char → Option String
  | [] => none
  | c :: rest =>
    if c = '<' then
      match matchMailtoAt rest with
      | some cap => some (String.mk cap)
      | none => findMailtoAngle rest
    else findMailtoAngle rest

/-- Whether some header of the full list is List-Unsubscribe-Post
(case-insensitive name match), as the inner for-loop of
_get_unsubscribe_from_headers tests. -/
def hasListUnsubPost (headers : List Header) : Bool :=
  headers.any (fun h => lowerStr h.name = "list-unsubscribe-post")

/-- The outer loop of _get_unsubscribe_from_headers: walk the header list;
at each List-Unsubscribe header try one-click (http URL plus the Post
header), then an http URL, then a mailto URI; when none of the three
patterns matches the value, keep walking (the source loop continues). -/
def unsubLoop (full : List Header) : List Header → Option String × Option String
  | [] => (none, none)
  | h :: rest =>
    if lowerStr h.name = "list-unsubscribe" then
      let value := h.value.data
      let oneClick : Option String :=
        if hasListUnsubPost full then findHttpAngle value else none
      match oneClick with
      | some u => (some u, some "one-click")
      | none =>
        match findHttpAngle value with
        | some u => (some u, some "manual")
        | none =>
          match findMailtoAngle value with
          | some m => (some m, some "manual")
          | none => unsubLoop full rest
    else unsubLoop full rest

/-- _get_unsubscribe_from_headers (gmail.py lines 111-135). -/
def get_unsubscribe_from_headers (headers : List Header) :
    Option String × Option String :=
  unsubLoop headers headers

/-- Value of the first List-Unsubscribe header, first match wins. -/
def firstListUnsub : List Header → Option String
  | [] => none
  | h :: rest =>
    if lowerStr h.name = "list-unsubscribe" then some h.value
    else firstListUnsub rest

/-- Python str.strip(): drop whitespace at both ends. -/
def pyStrip (cs : List Char) : List Char :=
  ((cs.dropWhile Char.isWhitespace).reverse.dropWhile Char.isWhitespace).reverse

/-- Python str.strip(c): drop the given character at both ends. -/
def pyStripChar (c : Char) (cs : List Char) : List Char :=
  ((cs.dropWhile (· = c)).reverse.dropWhile (· = c)).reverse

/-- re.search of the display-name-and-angled-address pattern: the leftmost
opening angle bracket followed by one or more characters other than the
closing bracket and then the closing bracket wins; the display-name part
is the run of characters without an opening bracket right before it.
A failed opening bracket restarts the name accumulation after it, as the
regex engine advances its start position past it. -/
def findAngledAddr (pre : List Char) : List Char → Option (List Char × List Char)
  | [] => none
  | c :: rest =>
    if c = '<' then
      match takeUntilGt rest with
      | some inside =>
        if inside ≠ [] then some (pre, inside) else findAngledAddr [] rest
      | none => findAngledAddr [] rest
    else findAngledAddr (pre ++ [c]) rest

/-- Value of the first header with the given lowercase name. -/
def firstHeader (lname : String) : List Header → Option String
  | [] => none
  | h :: rest => if lowerStr h.name = lname then some h.value else firstHeader lname rest

/-- _get_sender_info (gmail.py lines 138-149). -/
def get_sender_info (headers : List Header) : String × String :=
  match firstHeader "from" headers with
  | none => ("Unknown", "unknown")
  | some v =>
    match findAngledAddr [] v.data with
    | some (pre, inside) =>
      let nm := pyStripChar '"' (pyStrip pre)
      let em := String.mk (pyStrip inside)
      ((if nm = [] then em else String.mk nm), em)
    | none => (v, v)

/-- _get_subject (gmail.py lines 152-157). -/
def get_subject (headers : List Header) : String :=
  match firstHeader "subject" headers with
  | some v => v
  | none => "(No Subject)"

/-- The first Date header value, as both scan callbacks extract it. -/
def findDateHeader (headers : List Header) : Option String :=
  firstHeader "date" headers

/-- sender_email.split to the last at-sign segment when an at-sign is
present, else the address itself (gmail.py line 230). -/
def domainOf (email : String) : String :=
  if email.data.contains '@' then
    String.mk ((email.data.reverse.takeWhile (· ≠ '@')).reverse)
  else email

/-! ## BatchAggregator inputs

One batch callback invocation: either the callback received an exception
(the item is skipped), or a decoded response carrying the message id, the
size estimate and the metadata headers. -/

inductive BatchItem where
  | failed
  | ok (id : String) (sizeEstimate : Nat) (headers : List Header)
deriving Repr, DecidableEq

/-- Ordered association-list update mirroring a Python defaultdict: the
first access of a missing key appends the freshly built default at the
end (dict insertion order), an existing key is updated in place. -/
def updateAssoc {α : Type} (k : String) (dflt : α) (f : α → α) :
    List (String × α) → List (String × α)
  | [] => [(k, f dflt)]
  | (k2, v) :: rest =>
    if k2 = k then (k2, f v) :: rest else (k2, v) :: updateAssoc k dflt f rest

/-! ## scan_emails aggregation (gmail.py lines 211-290) -/

/-- One accumulator row of the unsubscribe scan; the defaultdict literal
of gmail.py line 211: no message-id list is stored. -/
structure UnsubRow where
  link : Option String
  count : Nat
  subjects : List String
  type : Option String
  sender : String
  email : String
  first_date : Option String
  last_date : Option String
deriving Repr, DecidableEq

def unsubDefault : UnsubRow := ⟨none, 0, [], none, "", "", none, none⟩

/-- The body of scan_emails.process_message (lines 217-251) folded over
one batch item. -/
def scanEmailsStep (acc : List (String × UnsubRow)) : BatchItem → List (String × UnsubRow)
  | .failed => acc
  | .ok _ _ headers =>
    match get_unsubscribe_from_headers headers with
    | (some link, utype) =>
      let si := get_sender_info headers
      let subj := get_subject headers
      let dom := domainOf si.2
      let edate := findDateHeader headers
      updateAssoc dom unsubDefault (fun r =>
        { r with
          link := some link
          count := r.count + 1
          type := utype
          sender := si.1
          email := si.2
          subjects := if r.subjects.length < 3 then r.subjects ++ [subj] else r.subjects
          first_date := match edate with
            | some _ => if r.first_date = none then edate else r.first_date
            | none => r.first_date
          last_date := match edate with
            | some _ => edate
            | none => r.last_date }) acc
    | (none, _) => acc

/-- The keyed accumulator after processing every batch item. -/
def scanEmailsRows (items : List BatchItem) : List (String × UnsubRow) :=
  items.foldl scanEmailsStep []

/-- Stable insertion of one element: it lands before the first element it
compares le-true against, hence after every earlier tie. -/
def stableInsertBy {α : Type} (le : α → α → Bool) (a : α) : List α → List α
  | [] => [a]
  | b :: t => if le a b then a :: b :: t else b :: stableInsertBy le a t

/-- A stable sort.  Python's sorted is stable, and a stable sort by a
fixed key is unique, so this computes exactly what
sorted(..., key=count, reverse=True) returns. -/
def stableSortBy {α : Type} (le : α → α → Bool) : List α → List α
  | [] => []
  | a :: t => stableInsertBy le a (stableSortBy le t)

/-- One presented row of the unsubscribe scan results
(the dict literal of lines 280-282). -/
structure UnsubOut where
  domain : String
  link : Option String
  count : Nat
  subjects : List String
  type : Option String
  sender : String
  email : String
  first_date : Option String
  last_date : Option String
deriving Repr, DecidableEq

/-- The keys of the presented unsubscribe-scan row dict, in literal order
(lines 280-282): there is no message_ids key. -/
def unsubOutKeys : List String :=
  ["domain", "link", "count", "subjects", "type", "sender", "email",
   "first_date", "last_date"]

def unsubRowToOut (kv : String × UnsubRow) : UnsubOut :=
  ⟨kv.1, kv.2.link, kv.2.count, kv.2.subjects, kv.2.type, kv.2.sender,
   kv.2.email, kv.2.first_date, kv.2.last_date⟩

/-- sorted(..., key=count, reverse=True) over the presented rows: a stable
descending sort by count (lines 279-286). -/
def scanEmailsSorted (items : List BatchItem) : List UnsubOut :=
  stableSortBy (fun a b => decide (b.count ≤ a.count))
    ((scanEmailsRows items).map unsubRowToOut)

/-! ## scan_senders_for_delete aggregation (gmail.py lines 518-591) -/

/-- One accumulator row of the delete scan; the defaultdict literal of
line 518: this one does store message_ids and total_size. -/
structure SenderRow where
  count : Nat
  sender : String
  email : String
  subjects : List String
  first_date : Option String
  last_date : Option String
  message_ids : List String
  total_size : Nat
deriving Repr, DecidableEq

def senderDefault : SenderRow := ⟨0, "", "", [], none, none, [], 0⟩

/-- The body of scan_senders_for_delete.process_message (lines 522-555)
folded over one batch item. -/
def deleteScanStep (acc : List (String × SenderRow)) : BatchItem → List (String × SenderRow)
  | .failed => acc
  | .ok mid size headers =>
    let si := get_sender_info headers
    let subj := get_subject headers
    let edate := findDateHeader headers
    if si.2 ≠ "" then
      updateAssoc si.2 senderDefault (fun r =>
        { r with
          count := r.count + 1
          sender := si.1
          email := si.2
          message_ids := r.message_ids ++ [mid]
          total_size := r.total_size + size
          subjects := if r.subjects.length < 3 then r.subjects ++ [subj] else r.subjects
          first_date := match edate with
            | some _ => if r.first_date = none then edate else r.first_date
            | none => r.first_date
          last_date := match edate with
            | some _ => edate
            | none => r.last_date }) acc
    else acc

def deleteScanRows (items : List BatchItem) : List (String × SenderRow) :=
  items.foldl deleteScanStep []

/-- sorted_senders (lines 583-587): each presented row merges the key into
the row dict, where the email field written by every update already equals
the key; a stable descending sort by count. -/
def deleteScanSorted (items : List BatchItem) : List SenderRow :=
  stableSortBy (fun a b => decide (b.count ≤ a.count))
    ((deleteScanRows items).map Prod.snd)

/-! ## TwoPhaseMutator traces

Each background job is modelled as a generator of the exact sequence of
states its status dict passes through: the reset state first, then one
state per individual field assignment the source performs.  The remote
transport is abstracted by two oracles: fetch maps a Gmail query string
to the full paginated id list (or the exception raised while listing),
and mutate maps one batchModify body to an optional exception message. -/

/-- The body handed to users().messages().batchModify. -/
structure BatchModifyBody where
  ids : List String
  addLabelIds : List String
  removeLabelIds : List String
deriving Repr, DecidableEq

/-- Python slicing loop range(0, n, size): successive chunks of at most
size elements.  Structural recursion on a fuel bounded by the list
length, so that the definition evaluates by kernel reduction; the fuel
never runs out because every step with a positive size drops at least
one element. -/
def chunksOfGo {α : Type} (size : Nat) : Nat → List α → List (List α)
  | _, [] => []
  | 0, _ => []
  | fuel + 1, a :: t =>
    (a :: t).take size :: chunksOfGo size fuel ((a :: t).drop size)

def chunksOf {α : Type} (size : Nat) (l : List α) : List (List α) :=
  chunksOfGo size l.length l

/-- state.delete_bulk_status dict (state.py lines 45-53). -/
structure DeleteBulkStatus where
  progress : Nat
  message : String
  done : Bool
  error : Option String
  deleted_count : Nat
  total_senders : Nat
  current_sender : Nat
deriving Repr, DecidableEq

/-- The zero state written by AppState.reset_delete_bulk. -/
def deleteBulkReady : DeleteBulkStatus := ⟨0, "Ready", false, none, 0, 0, 0⟩

/-- Phase 1 of delete_emails_bulk_background (lines 888-906): for each
indexed sender write current_sender, progress and message, then list all
pages of from:sender; a listing exception is recorded as a soft error.
Returns (final status, emitted states, collected ids, soft errors). -/
def dbPhase1 (fetch : String → Except String (List String)) (n : Nat)
    (s : DeleteBulkStatus) :
    List (Nat × String) →
      DeleteBulkStatus × List DeleteBulkStatus × List String × List String
  | [] => (s, [], [], [])
  | (i, sender) :: rest =>
    let s1 := { s with current_sender := i + 1 }
    let s2 := { s1 with progress := i * 40 / n }
    let s3 := { s2 with message := "Finding emails from " ++ sender ++ "..." }
    match fetch ("from:" ++ sender) with
    | .ok ids =>
      let r := dbPhase1 fetch n s3 rest
      (r.1, [s1, s2, s3] ++ r.2.1, ids ++ r.2.2.1, r.2.2.2)
    | .error e =>
      let r := dbPhase1 fetch n s3 rest
      (r.1, [s1, s2, s3] ++ r.2.1, r.2.2.1, (sender ++ ": " ++ e) :: r.2.2.2)

/-- Phase 2 of delete_emails_bulk_background (lines 921-934): trash each
chunk; after a successful call write deleted_count, progress and message;
the first exception aborts the loop and records one soft error.
Returns (final status, emitted states, deleted count, soft errors). -/
def dbPhase2 (mutate : BatchModifyBody → Option String) (total : Nat)
    (s : DeleteBulkStatus) (deleted : Nat) :
    List (List String) →
      DeleteBulkStatus × List DeleteBulkStatus × Nat × List String
  | [] => (s, [], deleted, [])
  | chunk :: rest =>
    match mutate ⟨chunk, ["TRASH"], []⟩ with
    | some e => (s, [], deleted, ["Batch delete error: " ++ e])
    | none =>
      let d2 := deleted + chunk.length
      let s1 := { s with deleted_count := d2 }
      let s2 := { s1 with progress := 40 + d2 * 60 / total }
      let s3 := { s2 with message :=
        "Deleted " ++ toString d2 ++ "/" ++ toString total ++ " emails..." }
      let r := dbPhase2 mutate total s3 d2 rest
      (r.1, [s1, s2, s3] ++ r.2.1, r.2.2.1, r.2.2.2)

/-- errors[:3] joined by semicolons, as the final error message builds. -/
def elide3 (errs : List String) : String :=
  String.intercalate "; " (errs.take 3)

/-- delete_emails_bulk_background (gmail.py lines 860-945) as the sequence
of states its status slot passes through.  authErr is the error component
returned by get_gmail_service. -/
def delete_emails_bulk_background (authErr : Option String)
    (fetch : String → Except String (List String))
    (mutate : BatchModifyBody → Option String)
    (senders : List String) : List DeleteBulkStatus :=
  let s0 := deleteBulkReady
  if senders = [] then
    let s1 := { s0 with done := true }
    let s2 := { s1 with error := some "No senders specified" }
    [s0, s1, s2]
  else
    let n := senders.length
    let s1 := { s0 with total_senders := n }
    let s2 := { s1 with message := "Collecting emails to delete..." }
    match authErr with
    | some err =>
      let s3 := { s2 with done := true }
      let s4 := { s3 with error := some err }
      [s0, s1, s2, s3, s4]
    | none =>
      let p1 := dbPhase1 fetch n s2 senders.enum
      let ids := p1.2.2.1
      if ids = [] then
        let s3 := { p1.1 with progress := 100 }
        let s4 := { s3 with done := true }
        let s5 := { s4 with message := "No emails found to delete" }
        [s0, s1, s2] ++ p1.2.1 ++ [s3, s4, s5]
      else
        let total := ids.length
        let s3 := { p1.1 with message :=
          "Deleting " ++ toString total ++ " emails..." }
        let p2 := dbPhase2 mutate total s3 0 (chunksOf 1000 ids)
        let deleted := p2.2.2.1
        let errs := p1.2.2.2 ++ p2.2.2.2
        let s4 := { p2.1 with progress := 100 }
        let s5 := { s4 with done := true }
        let s6 := { s5 with deleted_count := deleted }
        let tail :=
          if errs ≠ [] then
            let s7 := { s6 with error := some ("Some errors: " ++ elide3 errs) }
            let s8 := { s7 with message :=
              "Deleted " ++ toString deleted ++ " emails with some errors" }
            [s7, s8]
          else
            [{ s6 with message :=
              "Successfully deleted " ++ toString deleted ++ " emails" }]
        [s0, s1, s2] ++ p1.2.1 ++ [s3] ++ p2.2.1 ++ [s4, s5, s6] ++ tail

/-- state.label_operation_status dict (state.py lines 125-133). -/
structure LabelOpStatus where
  progress : Nat
  message : String
  done : Bool
  error : Option String
  affected_count : Nat
  total_senders : Nat
  current_sender : Nat
deriving Repr, DecidableEq

/-- The zero state written by AppState.reset_label_operation. -/
def labelOpReady : LabelOpStatus := ⟨0, "Ready", false, none, 0, 0, 0⟩

/-- Phase 1 shared by apply_label_to_senders_background (lines 1078-1096)
and remove_label_from_senders_background (lines 1165-1184); they differ
only in the query built per sender, abstracted by mkQuery. -/
def labelPhase1 (fetch : String → Except String (List String))
    (mkQuery : String → String) (n : Nat) (s : LabelOpStatus) :
    List (Nat × String) →
      LabelOpStatus × List LabelOpStatus × List String × List String
  | [] => (s, [], [], [])
  | (i, sender) :: rest =>
    let s1 := { s with current_sender := i + 1 }
    let s2 := { s1 with progress := i * 40 / n }
    let s3 := { s2 with message := "Finding emails from " ++ sender ++ "..." }
    match fetch (mkQuery sender) with
    | .ok ids =>
      let r := labelPhase1 fetch mkQuery n s3 rest
      (r.1, [s1, s2, s3] ++ r.2.1, ids ++ r.2.2.1, r.2.2.2)
    | .error e =>
      let r := labelPhase1 fetch mkQuery n s3 rest
      (r.1, [s1, s2, s3] ++ r.2.1, r.2.2.1, (sender ++ ": " ++ e) :: r.2.2.2)

/-- Phase 2 shared by the two label jobs (lines 1111-1123 and 1199-1211):
mkBody builds the batchModify body for a chunk, mkMsg the per-chunk
message, errPre the exception prefix. -/
def labelPhase2 (mutate : BatchModifyBody → Option String)
    (mkBody : List String → BatchModifyBody)
    (mkMsg : Nat → Nat → String) (errPre : String) (total : Nat)
    (s : LabelOpStatus) (affected : Nat) :
    List (List String) →
      LabelOpStatus × List LabelOpStatus × Nat × List String
  | [] => (s, [], affected, [])
  | chunk :: rest =>
    match mutate (mkBody chunk) with
    | some e => (s, [], affected, [errPre ++ e])
    | none =>
      let d2 := affected + chunk.length
      let s1 := { s with affected_count := d2 }
      let s2 := { s1 with progress := 40 + d2 * 60 / total }
      let s3 := { s2 with message := mkMsg d2 total }
      let r := labelPhase2 mutate mkBody mkMsg errPre total s3 d2 rest
      (r.1, [s1, s2, s3] ++ r.2.1, r.2.2.1, r.2.2.2)

/-- The common driver of the two label jobs.  The per-job parameters are
the phase-1 query builder, the phase-2 body builder and the literal
message strings; everything else follows the shared source structure. -/
def labelJobTrace (authErr : Option String)
    (fetch : String → Except String (List String))
    (mutate : BatchModifyBody → Option String)
    (mkQuery : String → String) (mkBody : List String → BatchModifyBody)
    (findingMsg : String) (emptyMsg : String) (phase2Msg : Nat → String)
    (chunkMsg : Nat → Nat → String) (errPre : String)
    (withErrsMsg : Nat → String) (successMsg : Nat → String)
    (labelId : String) (senders : List String) : List LabelOpStatus :=
  let s0 := labelOpReady
  if labelId = "" then
    let s1 := { s0 with done := true }
    let s2 := { s1 with error := some "Label ID is required" }
    [s0, s1, s2]
  else if senders = [] then
    let s1 := { s0 with done := true }
    let s2 := { s1 with error := some "No senders specified" }
    [s0, s1, s2]
  else
    match authErr with
    | some err =>
      let s1 := { s0 with done := true }
      let s2 := { s1 with error := some err }
      [s0, s1, s2]
    | none =>
      let n := senders.length
      let s1 := { s0 with total_senders := n }
      let s2 := { s1 with message := findingMsg }
      let p1 := labelPhase1 fetch mkQuery n s2 senders.enum
      let ids := p1.2.2.1
      if ids = [] then
        let s3 := { p1.1 with progress := 100 }
        let s4 := { s3 with done := true }
        let s5 := { s4 with message := emptyMsg }
        [s0, s1, s2] ++ p1.2.1 ++ [s3, s4, s5]
      else
        let total := ids.length
        let s3 := { p1.1 with message := phase2Msg total }
        let p2 := labelPhase2 mutate mkBody chunkMsg errPre total s3 0
          (chunksOf 1000 ids)
        let affected := p2.2.2.1
        let errs := p1.2.2.2 ++ p2.2.2.2
        let s4 := { p2.1 with progress := 100 }
        let s5 := { s4 with done := true }
        let s6 := { s5 with affected_count := affected }
        let tail :=
          if errs ≠ [] then
            let s7 := { s6 with error := some ("Some errors: " ++ elide3 errs) }
            let s8 := { s7 with message := withErrsMsg affected }
            [s7, s8]
          else
            [{ s6 with message := successMsg affected }]
        [s0, s1, s2] ++ p1.2.1 ++ [s3] ++ p2.2.1 ++ [s4, s5, s6] ++ tail

/-- apply_label_to_senders_background (gmail.py lines 1050-1134). -/
def apply_label_to_senders_background (authErr : Option String)
    (fetch : String → Except String (List String))
    (mutate : BatchModifyBody → Option String)
    (labelId : String) (senders : List String) : List LabelOpStatus :=
  labelJobTrace authErr fetch mutate
    (fun sender => "from:" ++ sender)
    (fun chunk => ⟨chunk, [labelId], []⟩)
    "Finding emails to label..."
    "No emails found to label"
    (fun total => "Applying label to " ++ toString total ++ " emails...")
    (fun d total =>
      "Labeled " ++ toString d ++ "/" ++ toString total ++ " emails...")
    "Batch label error: "
    (fun d => "Labeled " ++ toString d ++ " emails with some errors")
    (fun d => "Successfully labeled " ++ toString d ++ " emails")
    labelId senders

/-- remove_label_from_senders_background (gmail.py lines 1137-1222). -/
def remove_label_from_senders_background (authErr : Option String)
    (fetch : String → Except String (List String))
    (mutate : BatchModifyBody → Option String)
    (labelId : String) (senders : List String) : List LabelOpStatus :=
  labelJobTrace authErr fetch mutate
    (fun sender => "from:" ++ sender ++ " label:" ++ labelId)
    (fun chunk => ⟨chunk, [], [labelId]⟩)
    "Finding emails to unlabel..."
    "No emails found with this label"
    (fun total => "Removing label from " ++ toString total ++ " emails...")
    (fun d total =>
      "Unlabeled " ++ toString d ++ "/" ++ toString total ++ " emails...")
    "Batch unlabel error: "
    (fun d => "Unlabeled " ++ toString d ++ " emails with some errors")
    (fun d => "Successfully removed label from " ++ toString d ++ " emails")
    labelId senders

/-! ## delete_emails_by_sender and the ResultCache (gmail.py lines 608-661)

The cache is state.delete_scan_results, the row list produced by the
delete scan.  delete_emails_by_sender is the only function that removes
rows from it; the two-phase background jobs never reference it. -/

structure DeleteBySenderResult where
  success : Bool
  deleted : Nat
  size_freed : Nat
  message : String
deriving Repr, DecidableEq

/-- The batch-delete loop of delete_emails_by_sender (lines 644-650):
trash chunks of 100 ids, counting; the first exception aborts. -/
def trashChunks (mutate : BatchModifyBody → Option String) :
    List (List String) → Nat → Except String Nat
  | [], acc => .ok acc
  | c :: rest, acc =>
    match mutate ⟨c, ["TRASH"], []⟩ with
    | some e => .error e
    | none => trashChunks mutate rest (acc + c.length)

/-- delete_emails_by_sender (lines 608-661): returns the response dict and
the delete-scan cache after the call.  The cache row of the sender is
filtered out (lines 652-656) only on the fully successful path. -/
def debsFinish (mutate : BatchModifyBody → Option String)
    (sender : String) (cache : List SenderRow) (ids : List String) :
    DeleteBySenderResult × List SenderRow :=
  let size_freed :=
    match cache.find? (fun r => r.email = sender) with
    | some r => r.total_size
    | none => 0
  if ids = [] then (⟨true, 0, 0, "No emails found"⟩, cache)
  else
    match trashChunks mutate (chunksOf 100 ids) 0 with
    | .error e => (⟨false, 0, 0, e⟩, cache)
    | .ok deleted =>
      (⟨true, deleted, size_freed,
        "Moved " ++ toString deleted ++ " emails to trash"⟩,
       cache.filter (fun r => r.email ≠ sender))

def delete_emails_by_sender (authErr : Option String)
    (fetch : String → Except String (List String))
    (mutate : BatchModifyBody → Option String)
    (sender : String) (cache : List SenderRow) :
    DeleteBySenderResult × List SenderRow :=
  if sender = "" then
    (⟨false, 0, 0, "No sender specified"⟩, cache)
  else
    match authErr with
    | some e => (⟨false, 0, 0, e⟩, cache)
    | none =>
      match fetch ("from:" ++ sender) with
      | .error e => (⟨false, 0, 0, e⟩, cache)
      | .ok ids => debsFinish mutate sender cache ids

/-- delete_emails_bulk_background together with the delete-scan cache:
the function body (lines 860-945) contains no reference to
state.delete_scan_results, so the cache after the job is the cache the
job started with. -/
def deleteBulkRun (authErr : Option String)
    (fetch : String → Except String (List String))
    (mutate : BatchModifyBody → Option String)
    (senders : List String) (cache : List SenderRow) :
    List DeleteBulkStatus × List SenderRow :=
  (delete_emails_bulk_background authErr fetch mutate senders, cache)

/-! ## Status getters: copy versus live reference (C6)

A small heap gives Python dict identity: addresses name dicts, a status
slot is an address, dict.copy() allocates a fresh address with the same
entries, and the source decides whether a getter hands back a fresh copy
(get_scan_status, gmail.py lines 297-299) or the slot itself
(get_delete_bulk_status, lines 948-951, which returns the dict without
.copy()). -/

inductive PyVal where
  | vInt (n : Int)
  | vStr (s : String)
  | vBool (b : Bool)
  | vNone
deriving Repr, DecidableEq

/-- Python dict key assignment: overwrite in place, else append. -/
def setKey (k : String) (v : PyVal) : List (String × PyVal) → List (String × PyVal)
  | [] => [(k, v)]
  | (k2, w) :: rest =>
    if k2 = k then (k2, v) :: rest else (k2, w) :: setKey k v rest

/-- The two status dicts of interest plus dict identity. -/
structure Mem where
  mem : Nat → List (String × PyVal)
  scanAddr : Nat
  deleteBulkAddr : Nat
  fresh : Nat

/-- state.scan_status zero state as a dict (state.py lines 19-24). -/
def scanReadyDict : List (String × PyVal) :=
  [("progress", .vInt 0), ("message", .vStr "Ready"),
   ("done", .vBool false), ("error", .vNone)]

/-- state.delete_bulk_status zero state as a dict (state.py lines 45-53). -/
def deleteBulkReadyDict : List (String × PyVal) :=
  [("progress", .vInt 0), ("message", .vStr "Ready"),
   ("done", .vBool false), ("error", .vNone),
   ("deleted_count", .vInt 0), ("total_senders", .vInt 0),
   ("current_sender", .vInt 0)]

/-- The process-start heap: two distinct dicts at distinct addresses. -/
def initMem : Mem :=
  { mem := fun a =>
      if a = 0 then scanReadyDict
      else if a = 1 then deleteBulkReadyDict
      else []
    scanAddr := 0
    deleteBulkAddr := 1
    fresh := 2 }

/-- get_scan_status (lines 297-299): state.scan_status.copy() allocates a
fresh dict holding the same entries and returns its address. -/
def get_scan_status_ref (m : Mem) : Nat × Mem :=
  (m.fresh,
   { m with
     mem := fun a => if a = m.fresh then m.mem m.scanAddr else m.mem a
     fresh := m.fresh + 1 })

/-- get_delete_bulk_status (lines 948-951): returns
state.delete_bulk_status itself, without .copy(). -/
def get_delete_bulk_status_ref (m : Mem) : Nat × Mem :=
  (m.deleteBulkAddr, m)

/-- Assign one key of the dict at the given address. -/
def dictWrite (m : Mem) (addr : Nat) (k : String) (v : PyVal) : Mem :=
  { m with mem := fun a => if a = addr then setKey k v (m.mem a) else m.mem a }

/-! ## archive_emails_background and mark_important_background (C7)

Both functions bind the whole (service, error) pair returned by
get_gmail_service to the name service without unpacking it
(gmail.py lines 1239 and 1317).  A two-element tuple is truthy in Python,
so the `if not service` branch that would report "Not authenticated" is
unreachable, and the first attribute access service.users() inside the
sender loop raises AttributeError — whatever the pair contains.  The
except block then stores str(e). -/

def tupleAttrErrorMsg : String := "'tuple' object has no attribute 'users'"

/-- state.archive_status dict (state.py lines 136-144). -/
structure ArchiveStatus where
  progress : Nat
  message : String
  done : Bool
  error : Option String
  archived_count : Nat
  total_senders : Nat
  current_sender : Nat
deriving Repr, DecidableEq

def archiveReady : ArchiveStatus := ⟨0, "Ready", false, none, 0, 0, 0⟩

/-- state.important_status dict (state.py lines 147-155). -/
structure ImportantStatus where
  progress : Nat
  message : String
  done : Bool
  error : Option String
  affected_count : Nat
  total_senders : Nat
  current_sender : Nat
deriving Repr, DecidableEq

def importantReady : ImportantStatus := ⟨0, "Ready", false, none, 0, 0, 0⟩

/-- archive_emails_background (gmail.py lines 1232-1299): status trace and
the number of batchModify mutation calls performed.  The authResult pair
is accepted but cannot influence the run: the source never unpacks it.
With no senders the loop body never touches the bound tuple and the job
reports success over zero senders; with at least one sender the first
listing attempt raises AttributeError and the except block runs. -/
def archive_emails_background (_authResult : Option Unit × Option String)
    (senders : List String) : List ArchiveStatus × Nat :=
  let s0 := archiveReady
  let s1 := { s0 with total_senders := senders.length }
  let s2 := { s1 with message := "Starting archive..." }
  match senders with
  | [] =>
    let s3 := { s2 with progress := 100 }
    let s4 := { s3 with done := true }
    let s5 := { s4 with archived_count := 0 }
    let s6 := { s5 with message :=
      "Archived 0 emails from " ++ toString senders.length ++ " senders" }
    ([s0, s1, s2, s3, s4, s5, s6], 0)
  | sender :: _ =>
    let t1 := { s2 with current_sender := 1 }
    let t2 := { t1 with message := "Archiving emails from " ++ sender ++ "..." }
    let t3 := { t2 with progress := 0 * 100 / senders.length }
    let e1 := { t3 with error := some tupleAttrErrorMsg }
    let e2 := { e1 with done := true }
    let e3 := { e2 with message := "Error: " ++ tupleAttrErrorMsg }
    ([s0, s1, s2, t1, t2, t3, e1, e2, e3], 0)

/-- mark_important_background (gmail.py lines 1309-1379): same structure
and the same tuple slip as the archive job. -/
def mark_important_background (_authResult : Option Unit × Option String)
    (senders : List String) (important : Bool) : List ImportantStatus × Nat :=
  let action := if important then "Marking" else "Unmarking"
  let s0 := importantReady
  let s1 := { s0 with total_senders := senders.length }
  let s2 := { s1 with message := action ++ " as important..." }
  match senders with
  | [] =>
    let s3 := { s2 with progress := 100 }
    let s4 := { s3 with done := true }
    let s5 := { s4 with affected_count := 0 }
    let s6 := { s5 with message := "0 emails " ++
      (if important then "marked as important" else "unmarked as important") }
    ([s0, s1, s2, s3, s4, s5, s6], 0)
  | sender :: _ =>
    let t1 := { s2 with current_sender := 1 }
    let t2 := { t1 with message :=
      action ++ " emails from " ++ sender ++ "..." }
    let t3 := { t2 with progress := 0 * 100 / senders.length }
    let e1 := { t3 with error := some tupleAttrErrorMsg }
    let e2 := { e1 with done := true }
    let e3 := { e2 with message := "Error: " ++ tupleAttrErrorMsg }
    ([s0, s1, s2, t1, t2, t3, e1, e2, e3], 0)

/-! ## AppState (src/app/core/state.py) and claim C8

AppState.__init__ (lines 13-67) creates current_user, the scan, mark-read,
delete-scan, delete-bulk and download slots and the auth state — and
nothing else.  The label_operation_status, archive_status and
important_status dict assignments sit inside the body of reset_download
(lines 112-155), so those three attributes do not exist on the state
object until reset_download first runs; reading them before that raises
AttributeError.  An Option field models attribute existence: none means
the attribute has not been created. -/

/-- The four-field status dict shape shared by scan_status (state.py
lines 19-24) and delete_scan_status (lines 37-42). -/
structure BasicStatus where
  progress : Nat
  message : String
  done : Bool
  error : Option String
deriving Repr, DecidableEq

def basicReady : BasicStatus := ⟨0, "Ready", false, none⟩

/-- state.mark_read_status (lines 27-33). -/
structure MarkReadStatus where
  progress : Nat
  message : String
  done : Bool
  error : Option String
  marked_count : Nat
deriving Repr, DecidableEq

def markReadReady : MarkReadStatus := ⟨0, "Ready", false, none, 0⟩

/-- state.download_status (lines 56-64). -/
structure DownloadStatus where
  progress : Nat
  message : String
  done : Bool
  error : Option String
  total_emails : Nat
  fetched_count : Nat
  csv_data : Option String
deriving Repr, DecidableEq

def downloadReady : DownloadStatus := ⟨0, "Ready", false, none, 0, 0, none⟩

structure AppState where
  scan_results : List UnsubOut
  scan_status : BasicStatus
  mark_read_status : MarkReadStatus
  delete_scan_results : List SenderRow
  delete_scan_status : BasicStatus
  delete_bulk_status : DeleteBulkStatus
  download_status : DownloadStatus
  label_operation_status : Option LabelOpStatus
  archive_status : Option ArchiveStatus
  important_status : Option ImportantStatus

/-- The state built by AppState.__init__ at process start: the three
label/archive/important attributes are not created there. -/
def initAppState : AppState :=
  { scan_results := []
    scan_status := basicReady
    mark_read_status := markReadReady
    delete_scan_results := []
    delete_scan_status := basicReady
    delete_bulk_status := deleteBulkReady
    download_status := downloadReady
    label_operation_status := none
    archive_status := none
    important_status := none }

/-- AppState.reset_download (lines 112-155): resets the download slot and,
because the three dict assignments are indented into its body, creates
the label-operation, archive and important slots as a side effect. -/
def AppState.reset_download (st : AppState) : AppState :=
  { st with
    download_status := downloadReady
    label_operation_status := some labelOpReady
    archive_status := some archiveReady
    important_status := some importantReady }

/-- get_label_operation_status (gmail.py lines 1225-1227) reads
state.label_operation_status.copy(); none models the AttributeError
raised when the attribute has not been created yet. -/
def get_label_operation_status (st : AppState) : Option LabelOpStatus :=
  st.label_operation_status

/-! ## SSRF validation and unsubscribe_single (gmail.py lines 23-53,
309-363, claim C9) -/

/-- Valid non-initial characters of a URL scheme, per urllib.parse. -/
def isSchemeChar (c : Char) : Bool :=
  c.isAlphanum || c = '+' || c = '-' || c = '.'

/-- Split a character list at its first colon, if any. -/
def splitAtColon : List Char → Option (List Char × List Char)
  | [] => none
  | c :: rest =>
    if c = ':' then some ([], rest)
    else (splitAtColon rest).map (fun p => (c :: p.1, p.2))

/-- The (scheme, hostname) pair of urllib.parse.urlparse, for the URL
shapes unsubscribe links take: a scheme is the lowercased prefix before
the first colon when it starts with a letter and continues with scheme
characters; a hostname exists only when the remainder starts with two
slashes, and is the authority up to slash, question mark or hash,
stripped of userinfo before an at-sign and of a port after a colon,
lowercased, or absent when empty. -/
def pyUrlSchemeHost (url : String) : String × Option String :=
  match splitAtColon url.data with
  | none => ("", none)
  | some (pre, rest) =>
    if pre ≠ [] ∧ (pre.headD ' ').isAlpha ∧ pre.all isSchemeChar then
      let scheme := String.mk (pre.map Char.toLower)
      if ("//".data).isPrefixOf rest then
        let netloc := (rest.drop 2).takeWhile
          (fun c => c != '/' && c != '?' && c != '#')
        let hostPart := (netloc.reverse.takeWhile (· != '@')).reverse
        let host := hostPart.takeWhile (· != ':')
        (scheme, if host = [] then none
                 else some (String.mk (host.map Char.toLower)))
      else (scheme, none)
    else ("", none)

/-- What resolving a hostname can yield: socket.gethostbyname fails, the
resolved string is not a parseable IP, or an IP with its range flags. -/
structure IpFlags where
  is_private : Bool
  is_loopback : Bool
  is_link_local : Bool
  is_unspecified : Bool
deriving Repr, DecidableEq

inductive DnsAnswer where
  | unresolved
  | badIp (ipStr : String)
  | resolved (ipStr : String) (flags : IpFlags)
deriving Repr, DecidableEq

/-- _validate_unsafe_url (gmail.py lines 23-53), with name resolution as
an oracle.  Returns the url unchanged or the ValueError message. -/
def validate_unsafe_url (dns : String → DnsAnswer) (url : String) :
    Except String String :=
  let sh := pyUrlSchemeHost url
  if ¬(sh.1 = "http" ∨ sh.1 = "https") then
    .error "Invalid URL scheme. Only HTTP and HTTPS are allowed."
  else
    match sh.2 with
    | none => .error "Invalid URL: No hostname found."
    | some host =>
      match dns host with
      | .unresolved => .error ("Could not resolve hostname: " ++ host)
      | .badIp s => .error ("Invalid IP address resolved: " ++ s)
      | .resolved s flags =>
        if flags.is_private || flags.is_loopback || flags.is_link_local
            || flags.is_unspecified then
          .error ("Blocked restricted IP: " ++ s)
        else .ok url

/-- The response dict of unsubscribe_single; absent keys are none. -/
structure UnsubActionResult where
  success : Bool
  message : String
  rtype : Option String
  domain : Option String
deriving Repr, DecidableEq

/-- The GET fallback of unsubscribe_single (lines 351-360) plus the outer
exception handler (line 363); the second component counts network
requests made so far, the POST attempt included. -/
def unsubGetFallback (getResp : Except String Nat) (domain : String) :
    UnsubActionResult × Nat :=
  match getResp with
  | .ok st =>
    if st ∈ [200, 201, 202, 204, 301, 302] then
      (⟨true, "Unsubscribed (confirmation may be needed)", none, some domain⟩, 2)
    else
      (⟨false, "Server returned status " ++ toString st, none, none⟩, 2)
  | .error e =>
    (⟨false, String.mk (e.data.take 100), none, none⟩, 2)

/-- unsubscribe_single (gmail.py lines 309-363): name resolution and the
POST and GET attempts are oracles; the Nat counts HTTP requests issued
(urlopen calls).  A mailto link, an empty link and a link failing SSRF
validation return before any request. -/
def unsubscribe_single (dns : String → DnsAnswer)
    (postResp getResp : Except String Nat)
    (domain link : String) : UnsubActionResult × Nat :=
  if link = "" then
    (⟨false, "No unsubscribe link provided", none, none⟩, 0)
  else if ("mailto:".data).isPrefixOf link.data then
    (⟨false, "Email-based unsubscribe - open in email client",
      some "mailto", none⟩, 0)
  else
    match validate_unsafe_url dns link with
    | .error e => (⟨false, "Security Error: " ++ e, none, none⟩, 0)
    | .ok _ =>
      match postResp with
      | .ok st =>
        if st ∈ [200, 201, 202, 204] then
          (⟨true, "Unsubscribed successfully", none, some domain⟩, 1)
        else unsubGetFallback getResp domain
      | .error _ => unsubGetFallback getResp domain

/-! ## get_unread_count (gmail.py lines 368-391, claim C10) -/

/-- Python lets the count variable hold an int or, when a further page
exists, the formatted string. -/
inductive CountVal where
  | ofNat (n : Nat)
  | ofStr (s : String)
deriving Repr, DecidableEq

structure UnreadResult where
  count : CountVal
  error : Option String
deriving Repr, DecidableEq

/-- get_unread_count: the one-page listing is an oracle returning the
messages list and the optional nextPageToken, or the raised exception. -/
def get_unread_count (authErr : Option String)
    (resp : Except String (List String × Option String)) : UnreadResult :=
  match authErr with
  | some e => ⟨.ofNat 0, some e⟩
  | none =>
    match resp with
    | .error e => ⟨.ofNat 0, some e⟩
    | .ok (msgs, tok) =>
      match tok with
      | some _ => ⟨.ofStr (toString msgs.length ++ "+"), none⟩
      | none => ⟨.ofNat msgs.length, none⟩

/-- The amended temporal property of a status-write trace: progress never
decreases, done is never unset once set, and the last write leaves
done == true. -/
def monotoneDoneTrace {σ : Type} (prog : σ → Nat) (done : σ → Bool)
    (tr : List σ) : Prop :=
  tr.Chain' (fun a b => prog a ≤ prog b) ∧
  tr.Chain' (fun a b => done a = true → done b = true) ∧
  (∀ s ∈ tr.getLast?, done s = true)

/-! # Theorems -/

/-! ## Shared helper lemmas -/

lemma append_ne_older (pre : String) (hne : pre.data.head? ≠ some 'o')
    (hnn : pre.data ≠ []) (x rest : String) :
    pre ++ x ≠ "older_than:" ++ rest := by
  intro h
  have h2 := congrArg String.data h
  rw [String.data_append, String.data_append] at h2
  cases hp : pre.data with
  | nil => exact hnn hp
  | cons c t =>
    rw [hp] at h2
    simp only [List.cons_append] at h2
    apply hne
    rw [hp]
    simp only [List.head?_cons, Option.some.injEq]
    have : c = 'o' := by
      have h3 := congrArg List.head? h2
      simpa using h3
    exact this

lemma updateAssoc_forall {α : Type} (P : String × α → Prop) (k : String)
    (d : α) (f : α → α) :
    ∀ l : List (String × α), (∀ e ∈ l, P e) → P (k, f d) →
      (∀ v, P (k, v) → P (k, f v)) →
      ∀ e ∈ updateAssoc k d f l, P e := by
  intro l
  induction l with
  | nil =>
    intro _ hnew _ e he
    simp only [updateAssoc, List.mem_singleton] at he
    exact he ▸ hnew
  | cons hd tl ih =>
    intro hall hnew hupd e he
    obtain ⟨k2, v⟩ := hd
    simp only [updateAssoc] at he
    by_cases hk : k2 = k
    · rw [if_pos hk] at he
      rcases List.mem_cons.mp he with h1 | h2
      · subst hk
        exact h1 ▸ hupd v (hall (k2, v) (List.mem_cons_self _ _))
      · exact hall e (List.mem_cons_of_mem _ h2)
    · rw [if_neg hk] at he
      rcases List.mem_cons.mp he with h1 | h2
      · exact h1 ▸ hall (k2, v) (List.mem_cons_self _ _)
      · exact ih (fun e he => hall e (List.mem_cons_of_mem _ he)) hnew hupd e h2

lemma updateAssoc_keys {α : Type} (k : String) (d : α) (f : α → α) :
    ∀ l : List (String × α),
      (updateAssoc k d f l).map Prod.fst =
        if k ∈ l.map Prod.fst then l.map Prod.fst
        else l.map Prod.fst ++ [k] := by
  intro l
  induction l with
  | nil => simp [updateAssoc]
  | cons hd tl ih =>
    obtain ⟨k2, v⟩ := hd
    simp only [updateAssoc, List.map_cons]
    by_cases hk : k2 = k
    · subst hk
      simp
    · rw [if_neg hk]
      simp only [List.map_cons, ih, List.mem_cons]
      by_cases hm : k ∈ tl.map Prod.fst
      · rw [if_pos hm, if_pos (Or.inr hm)]
      · rw [if_neg hm, if_neg ?_]
        · simp
        · intro hc
          rcases hc with hc | hc
          · exact hk hc.symm
          · exact hm hc

lemma updateAssoc_nodup {α : Type} (k : String) (d : α) (f : α → α)
    (l : List (String × α)) (h : (l.map Prod.fst).Nodup) :
    ((updateAssoc k d f l).map Prod.fst).Nodup := by
  rw [updateAssoc_keys]
  by_cases hm : k ∈ l.map Prod.fst
  · rwa [if_pos hm]
  · rw [if_neg hm]
    exact List.Nodup.append h (List.nodup_singleton k)
      (by intro a ha hb; simp at hb; exact hm (hb ▸ ha))

lemma stableInsertBy_perm {α : Type} (le : α → α → Bool) (a : α) :
    ∀ l : List α, (stableInsertBy le a l).Perm (a :: l) := by
  intro l
  induction l with
  | nil => exact List.Perm.refl _
  | cons b t ih =>
    simp only [stableInsertBy]
    by_cases h : le a b
    · rw [if_pos h]
    · rw [if_neg h]
      exact (ih.cons b).trans (List.Perm.swap a b t)

lemma stableSortBy_perm {α : Type} (le : α → α → Bool) :
    ∀ l : List α, (stableSortBy le l).Perm l := by
  intro l
  induction l with
  | nil => exact List.Perm.refl _
  | cons a t ih =>
    exact (stableInsertBy_perm le a (stableSortBy le t)).trans (ih.cons a)

/-! ## C1 helpers: accumulator invariants of the two scans -/

/-- Entry invariant of the delete-scan accumulator: the count equals the
stored id-list length and the email field equals the key. -/
def goodSenderEntry (e : String × SenderRow) : Prop :=
  e.2.count = e.2.message_ids.length ∧ e.2.email = e.1

lemma deleteScanStep_good (acc : List (String × SenderRow))
    (hall : ∀ e ∈ acc, goodSenderEntry e) (item : BatchItem) :
    ∀ e ∈ deleteScanStep acc item, goodSenderEntry e := by
  cases item with
  | failed => exact hall
  | ok mid size headers =>
    simp only [deleteScanStep]
    by_cases hs : (get_sender_info headers).2 ≠ ""
    · rw [if_pos hs]
      apply updateAssoc_forall goodSenderEntry _ _ _ _ hall
      · constructor
        · simp [senderDefault]
        · rfl
      · intro v hv
        constructor
        · simp only [List.length_append, List.length_singleton]
          exact congrArg (· + 1) hv.1
        · rfl
    · rw [if_neg hs]
      exact hall

lemma deleteScanStep_nodup (acc : List (String × SenderRow))
    (h : (acc.map Prod.fst).Nodup) (item : BatchItem) :
    ((deleteScanStep acc item).map Prod.fst).Nodup := by
  cases item with
  | failed => exact h
  | ok mid size headers =>
    simp only [deleteScanStep]
    by_cases hs : (get_sender_info headers).2 ≠ ""
    · rw [if_pos hs]
      exact updateAssoc_nodup _ _ _ _ h
    · rw [if_neg hs]
      exact h

lemma deleteScanRows_invariant (items : List BatchItem) :
    (∀ e ∈ deleteScanRows items, goodSenderEntry e) ∧
      ((deleteScanRows items).map Prod.fst).Nodup := by
  have main : ∀ (acc : List (String × SenderRow)),
      (∀ e ∈ acc, goodSenderEntry e) → (acc.map Prod.fst).Nodup →
      (∀ e ∈ items.foldl deleteScanStep acc, goodSenderEntry e) ∧
        ((items.foldl deleteScanStep acc).map Prod.fst).Nodup := by
    induction items with
    | nil => intro acc h1 h2; exact ⟨h1, h2⟩
    | cons it rest ih =>
      intro acc h1 h2
      exact ih _ (deleteScanStep_good acc h1 it) (deleteScanStep_nodup acc h2 it)
  exact main [] (by simp) (by simp)

lemma scanEmailsStep_nodup (acc : List (String × UnsubRow))
    (h : (acc.map Prod.fst).Nodup) (item : BatchItem) :
    ((scanEmailsStep acc item).map Prod.fst).Nodup := by
  cases item with
  | failed => exact h
  | ok mid size headers =>
    simp only [scanEmailsStep]
    cases hu : get_unsubscribe_from_headers headers with
    | mk fst snd =>
      cases fst with
      | none => exact h
      | some link => exact updateAssoc_nodup _ _ _ _ h

lemma scanEmailsRows_nodup (items : List BatchItem) :
    ((scanEmailsRows items).map Prod.fst).Nodup := by
  have main : ∀ (acc : List (String × UnsubRow)),
      (acc.map Prod.fst).Nodup →
      ((items.foldl scanEmailsStep acc).map Prod.fst).Nodup := by
    induction items with
    | nil => intro acc h; exact h
    | cons it rest ih => intro acc h; exact ih _ (scanEmailsStep_nodup acc h it)
  exact main [] (by simp)

/-- C1 (amended): in the delete-scan output every row satisfies
count == len(message_ids) and the sender-address keys are pairwise
distinct; in the unsubscribe-scan output the domain keys are pairwise
distinct.  The unsubscribe-scan rows store no message-id list at all
(see the counterexample), which is the sole correction to the claim. -/
theorem C1_scan_row_invariants (items1 items2 : List BatchItem) :
    (∀ r ∈ deleteScanSorted items1, r.count = r.message_ids.length) ∧
    ((deleteScanSorted items1).map (fun r => r.email)).Nodup ∧
    ((scanEmailsSorted items2).map (fun r => r.domain)).Nodup := by
  obtain ⟨hgood, hnodup⟩ := deleteScanRows_invariant items1
  have hperm : (deleteScanSorted items1).Perm
      ((deleteScanRows items1).map Prod.snd) :=
    stableSortBy_perm _ _
  refine ⟨?_, ?_, ?_⟩
  · intro r hr
    have hm : r ∈ (deleteScanRows items1).map Prod.snd := hperm.mem_iff.mp hr
    obtain ⟨e, he, rfl⟩ := List.mem_map.mp hm
    exact (hgood e he).1
  · have hmapperm := hperm.map (fun r => r.email)
    have heq : ((deleteScanRows items1).map Prod.snd).map (fun r => r.email) =
        (deleteScanRows items1).map Prod.fst := by
      rw [List.map_map]
      exact List.map_congr_left (fun e he => (hgood e he).2)
    rw [heq] at hmapperm
    exact hmapperm.nodup_iff.mpr hnodup
  · have hperm2 : (scanEmailsSorted items2).Perm
        ((scanEmailsRows items2).map unsubRowToOut) :=
      stableSortBy_perm _ _
    have hmap := hperm2.map (fun r => r.domain)
    have heq : ((scanEmailsRows items2).map unsubRowToOut).map
        (fun r => r.domain) = (scanEmailsRows items2).map Prod.fst := by
      rw [List.map_map]
      exact List.map_congr_left (fun e _ => rfl)
    rw [heq] at hmap
    exact hmap.nodup_iff.mpr (scanEmailsRows_nodup items2)

/-- C1 witness: the membership hypothesis discharged on the three-message
demo inbox; the top row has count 2 and two stored message ids. -/
theorem C1_scan_row_invariants_witness :
    (⟨2, "A", "a@shop.com", ["(No Subject)", "(No Subject)"], none, none,
        ["m1", "m2"], 30⟩ : SenderRow) ∈
      deleteScanSorted
        [BatchItem.ok "m1" 10 [⟨"From", "A <a@shop.com>"⟩],
         BatchItem.ok "m2" 20 [⟨"From", "A <a@shop.com>"⟩],
         BatchItem.ok "m3" 5 [⟨"From", "N <news@site.com>"⟩]] ∧
    (⟨2, "A", "a@shop.com", ["(No Subject)", "(No Subject)"], none, none,
        ["m1", "m2"], 30⟩ : SenderRow).count =
      (⟨2, "A", "a@shop.com", ["(No Subject)", "(No Subject)"], none, none,
        ["m1", "m2"], 30⟩ : SenderRow).message_ids.length :=
  ⟨by decide,
   (C1_scan_row_invariants
      [BatchItem.ok "m1" 10 [⟨"From", "A <a@shop.com>"⟩],
       BatchItem.ok "m2" 20 [⟨"From", "A <a@shop.com>"⟩],
       BatchItem.ok "m3" 5 [⟨"From", "N <news@site.com>"⟩]] []).1 _ (by decide)⟩

/-- C1 counterexample: a one-message unsubscribe scan stores a row with
count 1, but the presented row dict (keys listed at gmail.py lines
280-282) carries no message_ids key at all, so count == len(message_ids)
fails for the unsubscribe scan — reading row["message_ids"] would raise
KeyError. -/
theorem C1_counterexample :
    ((scanEmailsSorted
        [BatchItem.ok "m1" 10
          [⟨"From", "A <a@shop.com>"⟩,
           ⟨"List-Unsubscribe", "<https://shop.com/u>"⟩]]).map
      (fun r => r.count) = [1]) ∧
    "message_ids" ∉ unsubOutKeys := by
  exact ⟨by decide, by decide⟩

lemma mem_parts_shape (f : Filters) (p : String)
    (hp : p ∈ build_gmail_query_parts f) :
    (∃ x, p = "after:" ++ x) ∨ (∃ x, p = "before:" ++ x) ∨
    ((f.after_date = "" ∧ f.before_date = "") ∧ ∃ x, p = "older_than:" ++ x) ∨
    (∃ x, p = "larger:" ++ x) ∨ (∃ x, p = "category:" ++ x) ∨
    (∃ x, p = "from:" ++ x) ∨ (∃ x, p = "label:" ++ x) := by
  unfold build_gmail_query_parts at hp
  simp only [List.mem_append] at hp
  rcases hp with ((((((h | h) | h) | h) | h) | h) | h)
  · split_ifs at h <;> simp at h
    exact Or.inl ⟨f.after_date, h⟩
  · split_ifs at h <;> simp at h
    exact Or.inr (Or.inl ⟨f.before_date, h⟩)
  · split_ifs at h with h1 h2 <;> simp at h
    exact Or.inr (Or.inr (Or.inl ⟨h1, f.older_than, h⟩))
  · split_ifs at h <;> simp at h
    exact Or.inr (Or.inr (Or.inr (Or.inl ⟨f.larger_than, h⟩)))
  · split_ifs at h <;> simp at h
    exact Or.inr (Or.inr (Or.inr (Or.inr (Or.inl ⟨f.category, h⟩))))
  · split_ifs at h <;> simp at h
    exact Or.inr (Or.inr (Or.inr (Or.inr (Or.inr (Or.inl ⟨f.sender, h⟩)))))
  · split_ifs at h <;> simp at h
    exact Or.inr (Or.inr (Or.inr (Or.inr (Or.inr (Or.inr ⟨f.label, h⟩)))))

/-- C4: on the filter set with after_date 2025/01/15 and older_than 30d
the query is exactly after:2025/01/15; and whenever after_date or
before_date is present, no query part is an older_than token. -/
theorem C4_query_builder_date_precedence :
    build_gmail_query (some ⟨"30d", "2025/01/15", "", "", "", "", ""⟩) =
      "after:2025/01/15" ∧
    ∀ f : Filters, f.after_date ≠ "" ∨ f.before_date ≠ "" →
      ∀ p ∈ build_gmail_query_parts f, ∀ rest : String,
        p ≠ "older_than:" ++ rest := by
  constructor
  · rfl
  · intro f hf p hp rest hcontra
    rcases mem_parts_shape f p hp with
      ⟨x, hx⟩ | ⟨x, hx⟩ | ⟨⟨h1, h2⟩, _, _⟩ | ⟨x, hx⟩ | ⟨x, hx⟩ | ⟨x, hx⟩ | ⟨x, hx⟩
    · exact append_ne_older "after:" (by decide) (by decide) x rest
        (hx ▸ hcontra)
    · exact append_ne_older "before:" (by decide) (by decide) x rest
        (hx ▸ hcontra)
    · rcases hf with h | h
      · exact h h1
      · exact h h2
    · exact append_ne_older "larger:" (by decide) (by decide) x rest
        (hx ▸ hcontra)
    · exact append_ne_older "category:" (by decide) (by decide) x rest
        (hx ▸ hcontra)
    · exact append_ne_older "from:" (by decide) (by decide) x rest
        (hx ▸ hcontra)
    · exact append_ne_older "label:" (by decide) (by decide) x rest
        (hx ▸ hcontra)

/-- C4 witness: the date-present hypothesis discharged on the claim's own
filter set, checking the sole produced part against the older_than
token with an arbitrary remainder instantiated to 30d. -/
theorem C4_query_builder_date_precedence_witness :
    ((⟨"30d", "2025/01/15", "", "", "", "", ""⟩ : Filters).after_date ≠ "" ∨
      (⟨"30d", "2025/01/15", "", "", "", "", ""⟩ : Filters).before_date ≠ "") ∧
    "after:2025/01/15" ∈
      build_gmail_query_parts ⟨"30d", "2025/01/15", "", "", "", "", ""⟩ ∧
    "after:2025/01/15" ≠ "older_than:" ++ "30d" :=
  ⟨Or.inl (by decide), by decide,
   C4_query_builder_date_precedence.2 ⟨"30d", "2025/01/15", "", "", "", "", ""⟩
     (Or.inl (by decide)) "after:2025/01/15" (by decide) "30d"⟩

/-! ## C3: unsubscribe-link extraction -/

lemma unsubLoop_none (full : List Header) :
    ∀ l : List Header, firstListUnsub l = none → unsubLoop full l = (none, none) := by
  intro l
  induction l with
  | nil => intro _; rfl
  | cons h rest ih =>
    intro hf
    simp only [firstListUnsub] at hf
    simp only [unsubLoop]
    by_cases hn : lowerStr h.name = "list-unsubscribe"
    · rw [if_pos hn] at hf
      exact absurd hf (by simp)
    · rw [if_neg hn] at hf
      rw [if_neg hn]
      exact ih hf

lemma unsubLoop_first (full : List Header) :
    ∀ (l : List Header) (v : String), firstListUnsub l = some v →
      (hasListUnsubPost full = true →
        ∀ u, findHttpAngle v.data = some u →
          unsubLoop full l = (some u, some "one-click")) ∧
      (hasListUnsubPost full = false →
        ∀ u, findHttpAngle v.data = some u →
          unsubLoop full l = (some u, some "manual")) ∧
      (findHttpAngle v.data = none →
        ∀ m, findMailtoAngle v.data = some m →
          unsubLoop full l = (some m, some "manual")) := by
  intro l
  induction l with
  | nil => intro v hv; exact absurd hv (by simp [firstListUnsub])
  | cons h rest ih =>
    intro v hv
    simp only [firstListUnsub] at hv
    by_cases hn : lowerStr h.name = "list-unsubscribe"
    · rw [if_pos hn] at hv
      have hveq : v = h.value := by
        simpa using hv.symm
      subst hveq
      refine ⟨?_, ?_, ?_⟩
      · intro hpost u hu
        simp [unsubLoop, if_pos hn, hpost, hu]
      · intro hpost u hu
        simp [unsubLoop, if_pos hn, hpost, hu]
      · intro hnone m hm
        by_cases hpost : hasListUnsubPost full
        · simp [unsubLoop, if_pos hn, hpost, hnone, hm]
        · simp [unsubLoop, if_pos hn, eq_false_of_ne_true hpost, hnone, hm]
    · rw [if_neg hn] at hv
      have hr := ih v hv
      refine ⟨?_, ?_, ?_⟩
      · intro hpost u hu
        simp only [unsubLoop, if_neg hn]
        exact hr.1 hpost u hu
      · intro hpost u hu
        simp only [unsubLoop, if_neg hn]
        exact hr.2.1 hpost u hu
      · intro hnone m hm
        simp only [unsubLoop, if_neg hn]
        exact hr.2.2 hnone m hm

/-- C3: for every header list, the first List-Unsubscribe value decides
the extraction: an angle-bracketed http(s) URL with a
List-Unsubscribe-Post header present anywhere classifies one-click; the
same URL without that header classifies manual; with no http(s) URL an
angle-bracketed mailto URI classifies manual; and with no List-Unsubscribe
header at all nothing is returned. -/
theorem C3_unsubscribe_extraction (hs : List Header) :
    (firstListUnsub hs = none →
      get_unsubscribe_from_headers hs = (none, none)) ∧
    (∀ v, firstListUnsub hs = some v →
      (hasListUnsubPost hs = true →
        ∀ u, findHttpAngle v.data = some u →
          get_unsubscribe_from_headers hs = (some u, some "one-click")) ∧
      (hasListUnsubPost hs = false →
        ∀ u, findHttpAngle v.data = some u →
          get_unsubscribe_from_headers hs = (some u, some "manual")) ∧
      (findHttpAngle v.data = none →
        ∀ m, findMailtoAngle v.data = some m →
          get_unsubscribe_from_headers hs = (some m, some "manual"))) :=
  ⟨unsubLoop_none hs hs, fun v hv => unsubLoop_first hs hs v hv⟩

/-- C3 witness: the spec's own examples, hypotheses discharged by
evaluation: the URL with the Post header present is one-click, without it
manual, and the mailto value manual. -/
theorem C3_unsubscribe_extraction_witness :
    get_unsubscribe_from_headers
        [⟨"List-Unsubscribe", "<https://x.com/u>"⟩,
         ⟨"List-Unsubscribe-Post", "List-Unsubscribe=One-Click"⟩] =
      (some "https://x.com/u", some "one-click") ∧
    get_unsubscribe_from_headers [⟨"List-Unsubscribe", "<https://x.com/u>"⟩] =
      (some "https://x.com/u", some "manual") ∧
    get_unsubscribe_from_headers [⟨"List-Unsubscribe", "<mailto:a@b.com>"⟩] =
      (some "mailto:a@b.com", some "manual") ∧
    get_unsubscribe_from_headers [⟨"Subject", "hi"⟩] = (none, none) :=
  ⟨((C3_unsubscribe_extraction
      [⟨"List-Unsubscribe", "<https://x.com/u>"⟩,
       ⟨"List-Unsubscribe-Post", "List-Unsubscribe=One-Click"⟩]).2
      "<https://x.com/u>" (by decide)).1 (by decide) "https://x.com/u" (by decide),
   ((C3_unsubscribe_extraction
      [⟨"List-Unsubscribe", "<https://x.com/u>"⟩]).2
      "<https://x.com/u>" (by decide)).2.1 (by decide) "https://x.com/u" (by decide),
   ((C3_unsubscribe_extraction
      [⟨"List-Unsubscribe", "<mailto:a@b.com>"⟩]).2
      "<mailto:a@b.com>" (by decide)).2.2 (by decide) "mailto:a@b.com" (by decide),
   (C3_unsubscribe_extraction [⟨"Subject", "hi"⟩]).1 (by decide)⟩

/-! ## C2 helpers: trace arithmetic and phase lemmas -/

lemma mul40_div_le (i n : Nat) (h : i < n) : i * 40 / n ≤ 40 := by
  have hn : 0 < n := Nat.lt_of_le_of_lt (Nat.zero_le i) h
  calc i * 40 / n ≤ n * 40 / n :=
        Nat.div_le_div_right (Nat.mul_le_mul_right 40 (le_of_lt h))
    _ = 40 := Nat.mul_div_cancel_left 40 hn

lemma phase2_prog_le (d total : Nat) (h : d ≤ total) (ht : 0 < total) :
    40 + d * 60 / total ≤ 100 := by
  have h1 : d * 60 / total ≤ 60 := by
    calc d * 60 / total ≤ total * 60 / total :=
          Nat.div_le_div_right (Nat.mul_le_mul_right 60 h)
      _ = 60 := Nat.mul_div_cancel_left 60 ht
  omega

lemma chunksOfGo_flatten {α : Type} (k : Nat) :
    ∀ (fuel : Nat) (l : List α), l.length ≤ fuel →
      (chunksOfGo (k + 1) fuel l).flatten = l := by
  intro fuel
  induction fuel with
  | zero =>
    intro l hl
    have h0 : l = [] := List.eq_nil_of_length_eq_zero (Nat.le_zero.mp hl)
    subst h0
    rfl
  | succ n ih =>
    intro l hl
    cases l with
    | nil => rfl
    | cons a t =>
      rw [chunksOfGo, List.flatten_cons,
        ih ((a :: t).drop (k + 1)) ?_, List.take_append_drop]
      simp only [List.length_drop, List.length_cons]
      simp only [List.length_cons] at hl
      omega

lemma chunksOf_flatten {α : Type} (k : Nat) :
    ∀ l : List α, (chunksOf (k + 1) l).flatten = l := by
  intro l
  exact chunksOfGo_flatten k l.length l (le_refl _)

lemma chain'_done_split {σ : Type} (done : σ → Bool) (l1 l2 : List σ)
    (h1 : ∀ t ∈ l1, done t = false) (h2 : ∀ t ∈ l2, done t = true) :
    (l1 ++ l2).Chain' (fun a b => done a = true → done b = true) := by
  rw [List.chain'_append]
  refine ⟨?_, ?_, ?_⟩
  · apply List.Pairwise.chain'
    apply List.pairwise_of_forall_mem_list
    intro a ha b _ hd
    rw [h1 a ha] at hd
    exact absurd hd (by simp)
  · apply List.Pairwise.chain'
    apply List.pairwise_of_forall_mem_list
    intro a _ b hb _
    exact h2 b hb
  · intro x _ y hy _
    exact h2 y (List.mem_of_mem_head? hy)

lemma dbPhase1_spec (fetch : String → Except String (List String)) (n : Nat) :
    ∀ (ps : List (Nat × String)) (s : DeleteBulkStatus),
      List.Chain' (fun p q : Nat × String => p.1 ≤ q.1) ps →
      (∀ hd ∈ ps.head?, s.progress ≤ hd.1 * 40 / n) →
      (∀ p ∈ ps, p.1 < n) →
      s.progress ≤ 40 →
      List.Chain' (fun a b => a.progress ≤ b.progress)
          (s :: (dbPhase1 fetch n s ps).2.1) ∧
      (∀ t ∈ s :: (dbPhase1 fetch n s ps).2.1,
          t.progress ≤ 40 ∧ t.done = s.done) ∧
      (s :: (dbPhase1 fetch n s ps).2.1).getLast? =
        some (dbPhase1 fetch n s ps).1 := by
  intro ps
  induction ps with
  | nil =>
    intro s _ _ _ hs40
    refine ⟨List.chain'_singleton s, ?_, rfl⟩
    intro t ht
    simp only [dbPhase1, List.mem_singleton] at ht
    rw [ht]
    exact ⟨hs40, rfl⟩
  | cons p rest ih =>
    obtain ⟨i, sender⟩ := p
    intro s hchain hhead hidx hs40
    have hin : i < n := hidx (i, sender) (List.mem_cons_self _ _)
    have hsi : s.progress ≤ i * 40 / n := hhead (i, sender) rfl
    have hrest_chain : List.Chain' (fun p q : Nat × String => p.1 ≤ q.1) rest :=
      hchain.tail
    have hrest_head : ∀ hd ∈ rest.head?, i ≤ hd.1 :=
      (List.chain'_cons'.mp hchain).1
    have hrest_idx : ∀ p ∈ rest, p.1 < n :=
      fun p hp => hidx p (List.mem_cons_of_mem _ hp)
    have hle40 : i * 40 / n ≤ 40 := mul40_div_le i n hin
    have hhead3 : ∀ hd ∈ rest.head?,
        (⟨i * 40 / n, "Finding emails from " ++ sender ++ "...", s.done,
          s.error, s.deleted_count, s.total_senders, i + 1⟩ :
            DeleteBulkStatus).progress ≤ hd.1 * 40 / n := by
      intro hd hhd
      exact Nat.div_le_div_right (Nat.mul_le_mul_right 40 (hrest_head hd hhd))
    have ihr := ih (⟨i * 40 / n, "Finding emails from " ++ sender ++ "...",
        s.done, s.error, s.deleted_count, s.total_senders, i + 1⟩ :
          DeleteBulkStatus) hrest_chain hhead3 hrest_idx hle40
    have hmem : ∀ (tr : List DeleteBulkStatus)
        (htr : ∀ t ∈ tr, t.progress ≤ 40 ∧ t.done = s.done),
        ∀ t ∈ s ::
            (⟨s.progress, s.message, s.done, s.error, s.deleted_count,
              s.total_senders, i + 1⟩ : DeleteBulkStatus) ::
            (⟨i * 40 / n, s.message, s.done, s.error, s.deleted_count,
              s.total_senders, i + 1⟩ : DeleteBulkStatus) ::
            (⟨i * 40 / n, "Finding emails from " ++ sender ++ "...", s.done,
              s.error, s.deleted_count, s.total_senders, i + 1⟩ :
                DeleteBulkStatus) :: tr,
          t.progress ≤ 40 ∧ t.done = s.done := by
      intro tr htr t ht
      rcases List.mem_cons.mp ht with h | ht
      · rw [h]; exact ⟨hs40, rfl⟩
      rcases List.mem_cons.mp ht with h | ht
      · rw [h]; exact ⟨hs40, rfl⟩
      rcases List.mem_cons.mp ht with h | ht
      · rw [h]; exact ⟨hle40, rfl⟩
      rcases List.mem_cons.mp ht with h | ht
      · rw [h]; exact ⟨hle40, rfl⟩
      · exact htr t ht
    cases hfetch : fetch ("from:" ++ sender) with
    | ok ids =>
      simp only [dbPhase1, hfetch, List.cons_append, List.nil_append]
      refine ⟨?_, ?_, ?_⟩
      · exact List.chain'_cons.mpr ⟨le_refl _, List.chain'_cons.mpr ⟨hsi,
          List.chain'_cons.mpr ⟨le_refl _, ihr.1⟩⟩⟩
      · exact hmem _ (fun t ht => ihr.2.1 t (List.mem_cons_of_mem _ ht))
      · rw [List.getLast?_cons_cons, List.getLast?_cons_cons,
          List.getLast?_cons_cons]
        exact ihr.2.2
    | error e =>
      simp only [dbPhase1, hfetch, List.cons_append, List.nil_append]
      refine ⟨?_, ?_, ?_⟩
      · exact List.chain'_cons.mpr ⟨le_refl _, List.chain'_cons.mpr ⟨hsi,
          List.chain'_cons.mpr ⟨le_refl _, ihr.1⟩⟩⟩
      · exact hmem _ (fun t ht => ihr.2.1 t (List.mem_cons_of_mem _ ht))
      · rw [List.getLast?_cons_cons, List.getLast?_cons_cons,
          List.getLast?_cons_cons]
        exact ihr.2.2

lemma dbPhase2_spec (mutate : BatchModifyBody → Option String) (total : Nat)
    (ht : 0 < total) :
    ∀ (chunks : List (List String)) (s : DeleteBulkStatus) (deleted : Nat),
      deleted + chunks.flatten.length ≤ total →
      s.progress ≤ 40 + deleted * 60 / total →
      List.Chain' (fun a b => a.progress ≤ b.progress)
          (s :: (dbPhase2 mutate total s deleted chunks).2.1) ∧
      (∀ t ∈ s :: (dbPhase2 mutate total s deleted chunks).2.1,
          t.progress ≤ 100 ∧ t.done = s.done) ∧
      (s :: (dbPhase2 mutate total s deleted chunks).2.1).getLast? =
        some (dbPhase2 mutate total s deleted chunks).1 := by
  intro chunks
  induction chunks with
  | nil =>
    intro s deleted hsum hsp
    have hdel : deleted ≤ total := by
      simp only [List.flatten_nil, List.length_nil, Nat.add_zero] at hsum
      exact hsum
    have hs100 : s.progress ≤ 100 :=
      le_trans hsp (phase2_prog_le deleted total hdel ht)
    refine ⟨List.chain'_singleton s, ?_, rfl⟩
    intro t htm
    simp only [dbPhase2, List.mem_singleton] at htm
    rw [htm]
    exact ⟨hs100, rfl⟩
  | cons chunk rest ih =>
    intro s deleted hsum hsp
    have hflat : (chunk :: rest).flatten.length =
        chunk.length + rest.flatten.length := by
      simp [List.flatten_cons]
    have hdel : deleted ≤ total := by omega
    have hs100 : s.progress ≤ 100 :=
      le_trans hsp (phase2_prog_le deleted total hdel ht)
    cases hmut : mutate ⟨chunk, ["TRASH"], []⟩ with
    | some e =>
      simp only [dbPhase2, hmut]
      refine ⟨List.chain'_singleton s, ?_, rfl⟩
      intro t htm
      simp only [List.mem_singleton] at htm
      rw [htm]
      exact ⟨hs100, rfl⟩
    | none =>
      have hd2sum : deleted + chunk.length + rest.flatten.length ≤ total := by
        omega
      have hd2le : deleted + chunk.length ≤ total := by omega
      have hmono : 40 + deleted * 60 / total ≤
          40 + (deleted + chunk.length) * 60 / total := by
        have := Nat.div_le_div_right (c := total)
          (Nat.mul_le_mul_right 60 (Nat.le_add_right deleted chunk.length))
        omega
      have hsp2 : s.progress ≤ 40 + (deleted + chunk.length) * 60 / total :=
        le_trans hsp hmono
      have h100 : 40 + (deleted + chunk.length) * 60 / total ≤ 100 :=
        phase2_prog_le _ total hd2le ht
      have ihr := ih (⟨40 + (deleted + chunk.length) * 60 / total,
          "Deleted " ++ toString (deleted + chunk.length) ++ "/" ++
            toString total ++ " emails...",
          s.done, s.error, deleted + chunk.length, s.total_senders,
          s.current_sender⟩ : DeleteBulkStatus)
        (deleted + chunk.length) hd2sum (le_refl _)
      simp only [dbPhase2, hmut, List.cons_append, List.nil_append]
      refine ⟨?_, ?_, ?_⟩
      · exact List.chain'_cons.mpr ⟨le_refl _, List.chain'_cons.mpr ⟨hsp2,
          List.chain'_cons.mpr ⟨le_refl _, ihr.1⟩⟩⟩
      · intro t htm
        rcases List.mem_cons.mp htm with h | htm
        · rw [h]; exact ⟨hs100, rfl⟩
        rcases List.mem_cons.mp htm with h | htm
        · rw [h]; exact ⟨hs100, rfl⟩
        rcases List.mem_cons.mp htm with h | htm
        · rw [h]; exact ⟨h100, rfl⟩
        rcases List.mem_cons.mp htm with h | htm
        · rw [h]; exact ⟨h100, rfl⟩
        · exact ihr.2.1 t (List.mem_cons_of_mem _ htm)
      · rw [List.getLast?_cons_cons, List.getLast?_cons_cons,
          List.getLast?_cons_cons]
        exact ihr.2.2

lemma mem_of_getLast?_eq {α : Type} {l : List α} {a : α}
    (h : l.getLast? = some a) : a ∈ l := by
  rcases List.mem_getLast?_eq_getLast (show a ∈ l.getLast? from h) with ⟨hne, hx⟩
  rw [hx]
  exact List.getLast_mem hne

lemma enumFrom_chain {α : Type} :
    ∀ (l : List α) (k : Nat),
      List.Chain' (fun p q : Nat × α => p.1 ≤ q.1) (l.enumFrom k) := by
  intro l
  induction l with
  | nil => intro k; simp
  | cons a t ih =>
    intro k
    cases t with
    | nil => simp
    | cons b t2 =>
      refine List.Chain'.cons ?_ (ih (k + 1))
      simp

lemma enumFrom_lt {α : Type} :
    ∀ (l : List α) (k : Nat), ∀ p ∈ l.enumFrom k, p.1 < k + l.length := by
  intro l
  induction l with
  | nil => intro k p hp; simp at hp
  | cons a t ih =>
    intro k p hp
    rcases List.mem_cons.mp hp with h | hp
    · rw [h]; simp
    · have := ih (k + 1) p hp
      simp only [List.length_cons]
      omega

lemma getLast?_append_some {α : Type} {l2 : List α} {a : α} (l1 : List α)
    (h : l2.getLast? = some a) : (l1 ++ l2).getLast? = some a := by
  rw [List.getLast?_append, h]
  rfl

lemma cons_getLast?_or {α : Type} (s : α) (tr : List α) :
    (s :: tr).getLast? = tr.getLast?.or (some s) := by
  cases tr with
  | nil => rfl
  | cons b t =>
    rw [List.getLast?_cons_cons]
    cases h : (b :: t).getLast? with
    | none =>
      exact absurd (List.getLast?_eq_none_iff.mp h) (by simp)
    | some x => rfl

lemma chain'_done_of_false {σ : Type} (done : σ → Bool) (l : List σ)
    (h : ∀ t ∈ l, done t = false) :
    l.Chain' (fun a b => done a = true → done b = true) := by
  apply List.Pairwise.chain'
  apply List.pairwise_of_forall_mem_list
  intro a ha b _ hd
  rw [h a ha] at hd
  exact Bool.noConfusion hd

lemma db_trace_good (authErr : Option String)
    (fetch : String → Except String (List String))
    (mutate : BatchModifyBody → Option String) (senders : List String) :
    monotoneDoneTrace DeleteBulkStatus.progress DeleteBulkStatus.done
      (delete_emails_bulk_background authErr fetch mutate senders) := by
  unfold monotoneDoneTrace
  by_cases hsend : senders = []
  · simp only [delete_emails_bulk_background, if_pos hsend]
    refine ⟨?_, ?_, ?_⟩
    · exact List.chain'_cons.mpr ⟨le_refl _,
        List.chain'_cons.mpr ⟨le_refl _, List.chain'_singleton _⟩⟩
    · exact List.chain'_cons.mpr ⟨fun h => Bool.noConfusion h,
        List.chain'_cons.mpr ⟨fun _ => rfl, List.chain'_singleton _⟩⟩
    · intro s hs
      rw [List.getLast?_cons_cons, List.getLast?_cons_cons,
        List.getLast?_singleton] at hs
      have hse := (by simpa using hs : _ = s).symm
      rw [hse]
  · cases authErr with
    | some err =>
      simp only [delete_emails_bulk_background, if_neg hsend]
      refine ⟨?_, ?_, ?_⟩
      · exact List.chain'_cons.mpr ⟨le_refl _, List.chain'_cons.mpr ⟨le_refl _,
          List.chain'_cons.mpr ⟨le_refl _, List.chain'_cons.mpr ⟨le_refl _,
            List.chain'_singleton _⟩⟩⟩⟩
      · exact List.chain'_cons.mpr ⟨fun h => Bool.noConfusion h,
          List.chain'_cons.mpr ⟨fun h => Bool.noConfusion h,
            List.chain'_cons.mpr ⟨fun _ => rfl,
              List.chain'_cons.mpr ⟨fun _ => rfl, List.chain'_singleton _⟩⟩⟩⟩
      · intro s hs
        rw [List.getLast?_cons_cons, List.getLast?_cons_cons,
          List.getLast?_cons_cons, List.getLast?_cons_cons,
          List.getLast?_singleton] at hs
        have hse := (by simpa using hs : _ = s).symm
        rw [hse]
    | none =>
      simp only [delete_emails_bulk_background, if_neg hsend]
      have hn : 0 < senders.length := List.length_pos.mpr hsend
      have hp1 := dbPhase1_spec fetch senders.length senders.enum
        (⟨0, "Collecting emails to delete...", false, none, 0, senders.length, 0⟩ : DeleteBulkStatus)
        (enumFrom_chain senders 0) (fun hd _ => Nat.zero_le _)
        (fun p hp => by simpa using enumFrom_lt senders 0 p hp) (Nat.zero_le 40)
      have hAfalse : ∀ t ∈ ((⟨0, "Ready", false, none, 0, 0, 0⟩ : DeleteBulkStatus) :: (⟨0, "Ready", false, none, 0, senders.length, 0⟩ : DeleteBulkStatus) :: (⟨0, "Collecting emails to delete...", false, none, 0, senders.length, 0⟩ : DeleteBulkStatus) :: (dbPhase1 fetch senders.length (⟨0, "Collecting emails to delete...", false, none, 0, senders.length, 0⟩ : DeleteBulkStatus) senders.enum).2.1), t.done = false := by
        intro t ht
        rcases List.mem_cons.mp ht with h | ht
        · rw [h]
        rcases List.mem_cons.mp ht with h | ht
        · rw [h]
        rcases List.mem_cons.mp ht with h | ht
        · rw [h]
        · exact (hp1.2.1 t (List.mem_cons_of_mem _ ht)).2
      have hglA : ((⟨0, "Ready", false, none, 0, 0, 0⟩ : DeleteBulkStatus) :: (⟨0, "Ready", false, none, 0, senders.length, 0⟩ : DeleteBulkStatus) :: (⟨0, "Collecting emails to delete...", false, none, 0, senders.length, 0⟩ : DeleteBulkStatus) :: (dbPhase1 fetch senders.length (⟨0, "Collecting emails to delete...", false, none, 0, senders.length, 0⟩ : DeleteBulkStatus) senders.enum).2.1).getLast? = some (dbPhase1 fetch senders.length (⟨0, "Collecting emails to delete...", false, none, 0, senders.length, 0⟩ : DeleteBulkStatus) senders.enum).1 := by
        rw [List.getLast?_cons_cons, List.getLast?_cons_cons]
        exact hp1.2.2
      have hp1f40 : (dbPhase1 fetch senders.length (⟨0, "Collecting emails to delete...", false, none, 0, senders.length, 0⟩ : DeleteBulkStatus) senders.enum).1.progress ≤ 40 :=
        (hp1.2.1 _ (mem_of_getLast?_eq hp1.2.2)).1
      have hp1fdone : (dbPhase1 fetch senders.length (⟨0, "Collecting emails to delete...", false, none, 0, senders.length, 0⟩ : DeleteBulkStatus) senders.enum).1.done = false :=
        (hp1.2.1 _ (mem_of_getLast?_eq hp1.2.2)).2
      split_ifs with hids herr
      · refine ⟨?_, ?_, ?_⟩
        · refine List.Chain'.append ?_ ?_ ?_
          · exact List.chain'_cons.mpr ⟨le_refl _,
              List.chain'_cons.mpr ⟨le_refl _, hp1.1⟩⟩
          · exact List.chain'_cons.mpr ⟨le_refl _,
              List.chain'_cons.mpr ⟨le_refl _, List.chain'_singleton _⟩⟩
          · intro x hx y hy
            have hx2 : x ∈ ((⟨0, "Ready", false, none, 0, 0, 0⟩ : DeleteBulkStatus) :: (⟨0, "Ready", false, none, 0, senders.length, 0⟩ : DeleteBulkStatus) :: (⟨0, "Collecting emails to delete...", false, none, 0, senders.length, 0⟩ : DeleteBulkStatus) :: (dbPhase1 fetch senders.length (⟨0, "Collecting emails to delete...", false, none, 0, senders.length, 0⟩ : DeleteBulkStatus) senders.enum).2.1).getLast? := hx
            rw [hglA] at hx2
            have hy2 : y ∈ some ({ (dbPhase1 fetch senders.length (⟨0, "Collecting emails to delete...", false, none, 0, senders.length, 0⟩ : DeleteBulkStatus) senders.enum).1 with progress := 100 } : DeleteBulkStatus) := hy
            have hxe : x = (dbPhase1 fetch senders.length (⟨0, "Collecting emails to delete...", false, none, 0, senders.length, 0⟩ : DeleteBulkStatus) senders.enum).1 := (by simpa using hx2 : _ = x).symm
            have hye : y = ({ (dbPhase1 fetch senders.length (⟨0, "Collecting emails to delete...", false, none, 0, senders.length, 0⟩ : DeleteBulkStatus) senders.enum).1 with progress := 100 } : DeleteBulkStatus) := (by simpa using hy2 : _ = y).symm
            rw [hxe, hye]
            exact le_trans hp1f40 (show (40:Nat) ≤ 100 by omega)
        · refine List.Chain'.append ?_ ?_ ?_
          · exact chain'_done_of_false _ _ hAfalse
          · exact List.chain'_cons.mpr ⟨fun _ => rfl,
              List.chain'_cons.mpr ⟨fun _ => rfl, List.chain'_singleton _⟩⟩
          · intro x hx y hy h
            have hx2 : x ∈ ((⟨0, "Ready", false, none, 0, 0, 0⟩ : DeleteBulkStatus) :: (⟨0, "Ready", false, none, 0, senders.length, 0⟩ : DeleteBulkStatus) :: (⟨0, "Collecting emails to delete...", false, none, 0, senders.length, 0⟩ : DeleteBulkStatus) :: (dbPhase1 fetch senders.length (⟨0, "Collecting emails to delete...", false, none, 0, senders.length, 0⟩ : DeleteBulkStatus) senders.enum).2.1).getLast? := hx
            rw [hglA] at hx2
            have hxe : x = (dbPhase1 fetch senders.length (⟨0, "Collecting emails to delete...", false, none, 0, senders.length, 0⟩ : DeleteBulkStatus) senders.enum).1 := (by simpa using hx2 : _ = x).symm
            rw [hxe] at h
            rw [hp1fdone] at h
            exact Bool.noConfusion h
        · intro s hs
          rw [List.getLast?_append, List.getLast?_cons_cons,
            List.getLast?_cons_cons, List.getLast?_singleton] at hs
          have hse : s = ({ ({ ({ (dbPhase1 fetch senders.length (⟨0, "Collecting emails to delete...", false, none, 0, senders.length, 0⟩ : DeleteBulkStatus) senders.enum).1 with progress := 100 } : DeleteBulkStatus) with done := true } : DeleteBulkStatus) with message := "No emails found to delete" } : DeleteBulkStatus) := (by simpa using hs : _ = s).symm
          rw [hse]
      · have htpos : 0 < (dbPhase1 fetch senders.length (⟨0, "Collecting emails to delete...", false, none, 0, senders.length, 0⟩ : DeleteBulkStatus) senders.enum).2.2.1.length := List.length_pos.mpr hids
        have hflat : (chunksOf 1000 (dbPhase1 fetch senders.length (⟨0, "Collecting emails to delete...", false, none, 0, senders.length, 0⟩ : DeleteBulkStatus) senders.enum).2.2.1).flatten = (dbPhase1 fetch senders.length (⟨0, "Collecting emails to delete...", false, none, 0, senders.length, 0⟩ : DeleteBulkStatus) senders.enum).2.2.1 :=
          chunksOf_flatten 999 _
        have hsum : 0 + (chunksOf 1000 (dbPhase1 fetch senders.length (⟨0, "Collecting emails to delete...", false, none, 0, senders.length, 0⟩ : DeleteBulkStatus) senders.enum).2.2.1).flatten.length ≤ (dbPhase1 fetch senders.length (⟨0, "Collecting emails to delete...", false, none, 0, senders.length, 0⟩ : DeleteBulkStatus) senders.enum).2.2.1.length := by
          rw [hflat]
          omega
        have hsp : ({ (dbPhase1 fetch senders.length (⟨0, "Collecting emails to delete...", false, none, 0, senders.length, 0⟩ : DeleteBulkStatus) senders.enum).1 with message := "Deleting " ++ toString (dbPhase1 fetch senders.length (⟨0, "Collecting emails to delete...", false, none, 0, senders.length, 0⟩ : DeleteBulkStatus) senders.enum).2.2.1.length ++ " emails..." } : DeleteBulkStatus).progress ≤ 40 + 0 * 60 / (dbPhase1 fetch senders.length (⟨0, "Collecting emails to delete...", false, none, 0, senders.length, 0⟩ : DeleteBulkStatus) senders.enum).2.2.1.length :=
          le_trans hp1f40 (Nat.le_add_right 40 _)
        have hp2 := dbPhase2_spec mutate (dbPhase1 fetch senders.length (⟨0, "Collecting emails to delete...", false, none, 0, senders.length, 0⟩ : DeleteBulkStatus) senders.enum).2.2.1.length htpos
          (chunksOf 1000 (dbPhase1 fetch senders.length (⟨0, "Collecting emails to delete...", false, none, 0, senders.length, 0⟩ : DeleteBulkStatus) senders.enum).2.2.1) ({ (dbPhase1 fetch senders.length (⟨0, "Collecting emails to delete...", false, none, 0, senders.length, 0⟩ : DeleteBulkStatus) senders.enum).1 with message := "Deleting " ++ toString (dbPhase1 fetch senders.length (⟨0, "Collecting emails to delete...", false, none, 0, senders.length, 0⟩ : DeleteBulkStatus) senders.enum).2.2.1.length ++ " emails..." } : DeleteBulkStatus) 0 hsum hsp
        have hgl2 : (((⟨0, "Ready", false, none, 0, 0, 0⟩ : DeleteBulkStatus) :: (⟨0, "Ready", false, none, 0, senders.length, 0⟩ : DeleteBulkStatus) :: (⟨0, "Collecting emails to delete...", false, none, 0, senders.length, 0⟩ : DeleteBulkStatus) :: (dbPhase1 fetch senders.length (⟨0, "Collecting emails to delete...", false, none, 0, senders.length, 0⟩ : DeleteBulkStatus) senders.enum).2.1) ++ [({ (dbPhase1 fetch senders.length (⟨0, "Collecting emails to delete...", false, none, 0, senders.length, 0⟩ : DeleteBulkStatus) senders.enum).1 with message := "Deleting " ++ toString (dbPhase1 fetch senders.length (⟨0, "Collecting emails to delete...", false, none, 0, senders.length, 0⟩ : DeleteBulkStatus) senders.enum).2.2.1.length ++ " emails..." } : DeleteBulkStatus)]).getLast? = some ({ (dbPhase1 fetch senders.length (⟨0, "Collecting emails to delete...", false, none, 0, senders.length, 0⟩ : DeleteBulkStatus) senders.enum).1 with message := "Deleting " ++ toString (dbPhase1 fetch senders.length (⟨0, "Collecting emails to delete...", false, none, 0, senders.length, 0⟩ : DeleteBulkStatus) senders.enum).2.2.1.length ++ " emails..." } : DeleteBulkStatus) :=
          getLast?_append_some _ (List.getLast?_singleton _)
        have hgl3 : ((((⟨0, "Ready", false, none, 0, 0, 0⟩ : DeleteBulkStatus) :: (⟨0, "Ready", false, none, 0, senders.length, 0⟩ : DeleteBulkStatus) :: (⟨0, "Collecting emails to delete...", false, none, 0, senders.length, 0⟩ : DeleteBulkStatus) :: (dbPhase1 fetch senders.length (⟨0, "Collecting emails to delete...", false, none, 0, senders.length, 0⟩ : DeleteBulkStatus) senders.enum).2.1) ++ [({ (dbPhase1 fetch senders.length (⟨0, "Collecting emails to delete...", false, none, 0, senders.length, 0⟩ : DeleteBulkStatus) senders.enum).1 with message := "Deleting " ++ toString (dbPhase1 fetch senders.length (⟨0, "Collecting emails to delete...", false, none, 0, senders.length, 0⟩ : DeleteBulkStatus) senders.enum).2.2.1.length ++ " emails..." } : DeleteBulkStatus)]) ++ (dbPhase2 mutate (dbPhase1 fetch senders.length (⟨0, "Collecting emails to delete...", false, none, 0, senders.length, 0⟩ : DeleteBulkStatus) senders.enum).2.2.1.length ({ (dbPhase1 fetch senders.length (⟨0, "Collecting emails to delete...", false, none, 0, senders.length, 0⟩ : DeleteBulkStatus) senders.enum).1 with message := "Deleting " ++ toString (dbPhase1 fetch senders.length (⟨0, "Collecting emails to delete...", false, none, 0, senders.length, 0⟩ : DeleteBulkStatus) senders.enum).2.2.1.length ++ " emails..." } : DeleteBulkStatus) 0 (chunksOf 1000 (dbPhase1 fetch senders.length (⟨0, "Collecting emails to delete...", false, none, 0, senders.length, 0⟩ : DeleteBulkStatus) senders.enum).2.2.1)).2.1).getLast? = some (dbPhase2 mutate (dbPhase1 fetch senders.length (⟨0, "Collecting emails to delete...", false, none, 0, senders.length, 0⟩ : DeleteBulkStatus) senders.enum).2.2.1.length ({ (dbPhase1 fetch senders.length (⟨0, "Collecting emails to delete...", false, none, 0, senders.length, 0⟩ : DeleteBulkStatus) senders.enum).1 with message := "Deleting " ++ toString (dbPhase1 fetch senders.length (⟨0, "Collecting emails to delete...", false, none, 0, senders.length, 0⟩ : DeleteBulkStatus) senders.enum).2.2.1.length ++ " emails..." } : DeleteBulkStatus) 0 (chunksOf 1000 (dbPhase1 fetch senders.length (⟨0, "Collecting emails to delete...", false, none, 0, senders.length, 0⟩ : DeleteBulkStatus) senders.enum).2.2.1)).1 := by
          rw [List.getLast?_append, hgl2, ← cons_getLast?_or]
          exact hp2.2.2
        have hgl4 : (((((⟨0, "Ready", false, none, 0, 0, 0⟩ : DeleteBulkStatus) :: (⟨0, "Ready", false, none, 0, senders.length, 0⟩ : DeleteBulkStatus) :: (⟨0, "Collecting emails to delete...", false, none, 0, senders.length, 0⟩ : DeleteBulkStatus) :: (dbPhase1 fetch senders.length (⟨0, "Collecting emails to delete...", false, none, 0, senders.length, 0⟩ : DeleteBulkStatus) senders.enum).2.1) ++ [({ (dbPhase1 fetch senders.length (⟨0, "Collecting emails to delete...", false, none, 0, senders.length, 0⟩ : DeleteBulkStatus) senders.enum).1 with message := "Deleting " ++ toString (dbPhase1 fetch senders.length (⟨0, "Collecting emails to delete...", false, none, 0, senders.length, 0⟩ : DeleteBulkStatus) senders.enum).2.2.1.length ++ " emails..." } : DeleteBulkStatus)]) ++ (dbPhase2 mutate (dbPhase1 fetch senders.length (⟨0, "Collecting emails to delete...", false, none, 0, senders.length, 0⟩ : DeleteBulkStatus) senders.enum).2.2.1.length ({ (dbPhase1 fetch senders.length (⟨0, "Collecting emails to delete...", false, none, 0, senders.length, 0⟩ : DeleteBulkStatus) senders.enum).1 with message := "Deleting " ++ toString (dbPhase1 fetch senders.length (⟨0, "Collecting emails to delete...", false, none, 0, senders.length, 0⟩ : DeleteBulkStatus) senders.enum).2.2.1.length ++ " emails..." } : DeleteBulkStatus) 0 (chunksOf 1000 (dbPhase1 fetch senders.length (⟨0, "Collecting emails to delete...", false, none, 0, senders.length, 0⟩ : DeleteBulkStatus) senders.enum).2.2.1)).2.1) ++ [({ (dbPhase2 mutate (dbPhase1 fetch senders.length (⟨0, "Collecting emails to delete...", false, none, 0, senders.length, 0⟩ : DeleteBulkStatus) senders.enum).2.2.1.length ({ (dbPhase1 fetch senders.length (⟨0, "Collecting emails to delete...", false, none, 0, senders.length, 0⟩ : DeleteBulkStatus) senders.enum).1 with message := "Deleting " ++ toString (dbPhase1 fetch senders.length (⟨0, "Collecting emails to delete...", false, none, 0, senders.length, 0⟩ : DeleteBulkStatus) senders.enum).2.2.1.length ++ " emails..." } : DeleteBulkStatus) 0 (chunksOf 1000 (dbPhase1 fetch senders.length (⟨0, "Collecting emails to delete...", false, none, 0, senders.length, 0⟩ : DeleteBulkStatus) senders.enum).2.2.1)).1 with progress := 100 } : DeleteBulkStatus), ({ ({ (dbPhase2 mutate (dbPhase1 fetch senders.length (⟨0, "Collecting emails to delete...", false, none, 0, senders.length, 0⟩ : DeleteBulkStatus) senders.enum).2.2.1.length ({ (dbPhase1 fetch senders.length (⟨0, "Collecting emails to delete...", false, none, 0, senders.length, 0⟩ : DeleteBulkStatus) senders.enum).1 with message := "Deleting " ++ toString (dbPhase1 fetch senders.length (⟨0, "Collecting emails to delete...", false, none, 0, senders.length, 0⟩ : DeleteBulkStatus) senders.enum).2.2.1.length ++ " emails..." } : DeleteBulkStatus) 0 (chunksOf 1000 (dbPhase1 fetch senders.length (⟨0, "Collecting emails to delete...", false, none, 0, senders.length, 0⟩ : DeleteBulkStatus) senders.enum).2.2.1)).1 with progress := 100 } : DeleteBulkStatus) with done := true } : DeleteBulkStatus), ({ ({ ({ (dbPhase2 mutate (dbPhase1 fetch senders.length (⟨0, "Collecting emails to delete...", false, none, 0, senders.length, 0⟩ : DeleteBulkStatus) senders.enum).2.2.1.length ({ (dbPhase1 fetch senders.length (⟨0, "Collecting emails to delete...", false, none, 0, senders.length, 0⟩ : DeleteBulkStatus) senders.enum).1 with message := "Deleting " ++ toString (dbPhase1 fetch senders.length (⟨0, "Collecting emails to delete...", false, none, 0, senders.length, 0⟩ : DeleteBulkStatus) senders.enum).2.2.1.length ++ " emails..." } : DeleteBulkStatus) 0 (chunksOf 1000 (dbPhase1 fetch senders.length (⟨0, "Collecting emails to delete...", false, none, 0, senders.length, 0⟩ : DeleteBulkStatus) senders.enum).2.2.1)).1 with progress := 100 } : DeleteBulkStatus) with done := true } : DeleteBulkStatus) with deleted_count := (dbPhase2 mutate (dbPhase1 fetch senders.length (⟨0, "Collecting emails to delete...", false, none, 0, senders.length, 0⟩ : DeleteBulkStatus) senders.enum).2.2.1.length ({ (dbPhase1 fetch senders.length (⟨0, "Collecting emails to delete...", false, none, 0, senders.length, 0⟩ : DeleteBulkStatus) senders.enum).1 with message := "Deleting " ++ toString (dbPhase1 fetch senders.length (⟨0, "Collecting emails to delete...", false, none, 0, senders.length, 0⟩ : DeleteBulkStatus) senders.enum).2.2.1.length ++ " emails..." } : DeleteBulkStatus) 0 (chunksOf 1000 (dbPhase1 fetch senders.length (⟨0, "Collecting emails to delete...", false, none, 0, senders.length, 0⟩ : DeleteBulkStatus) senders.enum).2.2.1)).2.2.1 } : DeleteBulkStatus)]).getLast? = some ({ ({ ({ (dbPhase2 mutate (dbPhase1 fetch senders.length (⟨0, "Collecting emails to delete...", false, none, 0, senders.length, 0⟩ : DeleteBulkStatus) senders.enum).2.2.1.length ({ (dbPhase1 fetch senders.length (⟨0, "Collecting emails to delete...", false, none, 0, senders.length, 0⟩ : DeleteBulkStatus) senders.enum).1 with message := "Deleting " ++ toString (dbPhase1 fetch senders.length (⟨0, "Collecting emails to delete...", false, none, 0, senders.length, 0⟩ : DeleteBulkStatus) senders.enum).2.2.1.length ++ " emails..." } : DeleteBulkStatus) 0 (chunksOf 1000 (dbPhase1 fetch senders.length (⟨0, "Collecting emails to delete...", false, none, 0, senders.length, 0⟩ : DeleteBulkStatus) senders.enum).2.2.1)).1 with progress := 100 } : DeleteBulkStatus) with done := true } : DeleteBulkStatus) with deleted_count := (dbPhase2 mutate (dbPhase1 fetch senders.length (⟨0, "Collecting emails to delete...", false, none, 0, senders.length, 0⟩ : DeleteBulkStatus) senders.enum).2.2.1.length ({ (dbPhase1 fetch senders.length (⟨0, "Collecting emails to delete...", false, none, 0, senders.length, 0⟩ : DeleteBulkStatus) senders.enum).1 with message := "Deleting " ++ toString (dbPhase1 fetch senders.length (⟨0, "Collecting emails to delete...", false, none, 0, senders.length, 0⟩ : DeleteBulkStatus) senders.enum).2.2.1.length ++ " emails..." } : DeleteBulkStatus) 0 (chunksOf 1000 (dbPhase1 fetch senders.length (⟨0, "Collecting emails to delete...", false, none, 0, senders.length, 0⟩ : DeleteBulkStatus) senders.enum).2.2.1)).2.2.1 } : DeleteBulkStatus) :=
          getLast?_append_some _ (by
            rw [List.getLast?_cons_cons, List.getLast?_cons_cons,
              List.getLast?_singleton])
        have hp2f100 : (dbPhase2 mutate (dbPhase1 fetch senders.length (⟨0, "Collecting emails to delete...", false, none, 0, senders.length, 0⟩ : DeleteBulkStatus) senders.enum).2.2.1.length ({ (dbPhase1 fetch senders.length (⟨0, "Collecting emails to delete...", false, none, 0, senders.length, 0⟩ : DeleteBulkStatus) senders.enum).1 with message := "Deleting " ++ toString (dbPhase1 fetch senders.length (⟨0, "Collecting emails to delete...", false, none, 0, senders.length, 0⟩ : DeleteBulkStatus) senders.enum).2.2.1.length ++ " emails..." } : DeleteBulkStatus) 0 (chunksOf 1000 (dbPhase1 fetch senders.length (⟨0, "Collecting emails to delete...", false, none, 0, senders.length, 0⟩ : DeleteBulkStatus) senders.enum).2.2.1)).1.progress ≤ 100 :=
          (hp2.2.1 _ (mem_of_getLast?_eq hp2.2.2)).1
        have hp2fdone : (dbPhase2 mutate (dbPhase1 fetch senders.length (⟨0, "Collecting emails to delete...", false, none, 0, senders.length, 0⟩ : DeleteBulkStatus) senders.enum).2.2.1.length ({ (dbPhase1 fetch senders.length (⟨0, "Collecting emails to delete...", false, none, 0, senders.length, 0⟩ : DeleteBulkStatus) senders.enum).1 with message := "Deleting " ++ toString (dbPhase1 fetch senders.length (⟨0, "Collecting emails to delete...", false, none, 0, senders.length, 0⟩ : DeleteBulkStatus) senders.enum).2.2.1.length ++ " emails..." } : DeleteBulkStatus) 0 (chunksOf 1000 (dbPhase1 fetch senders.length (⟨0, "Collecting emails to delete...", false, none, 0, senders.length, 0⟩ : DeleteBulkStatus) senders.enum).2.2.1)).1.done = false := by
          rw [(hp2.2.1 _ (mem_of_getLast?_eq hp2.2.2)).2]
          exact hp1fdone
        refine ⟨?_, ?_, ?_⟩
        · refine List.Chain'.append ?_ ?_ ?_
          · refine List.Chain'.append ?_ ?_ ?_
            · refine List.Chain'.append ?_ ?_ ?_
              · refine List.Chain'.append ?_ ?_ ?_
                · exact List.chain'_cons.mpr ⟨le_refl _,
                    List.chain'_cons.mpr ⟨le_refl _, hp1.1⟩⟩
                · exact List.chain'_singleton _
                · intro x hx y hy
                  have hx2 : x ∈ ((⟨0, "Ready", false, none, 0, 0, 0⟩ : DeleteBulkStatus) :: (⟨0, "Ready", false, none, 0, senders.length, 0⟩ : DeleteBulkStatus) :: (⟨0, "Collecting emails to delete...", false, none, 0, senders.length, 0⟩ : DeleteBulkStatus) :: (dbPhase1 fetch senders.length (⟨0, "Collecting emails to delete...", false, none, 0, senders.length, 0⟩ : DeleteBulkStatus) senders.enum).2.1).getLast? := hx
                  rw [hglA] at hx2
                  have hxe : x = (dbPhase1 fetch senders.length (⟨0, "Collecting emails to delete...", false, none, 0, senders.length, 0⟩ : DeleteBulkStatus) senders.enum).1 := (by simpa using hx2 : _ = x).symm
                  have hy2 : y ∈ some ({ (dbPhase1 fetch senders.length (⟨0, "Collecting emails to delete...", false, none, 0, senders.length, 0⟩ : DeleteBulkStatus) senders.enum).1 with message := "Deleting " ++ toString (dbPhase1 fetch senders.length (⟨0, "Collecting emails to delete...", false, none, 0, senders.length, 0⟩ : DeleteBulkStatus) senders.enum).2.2.1.length ++ " emails..." } : DeleteBulkStatus) := hy
                  have hye : y = ({ (dbPhase1 fetch senders.length (⟨0, "Collecting emails to delete...", false, none, 0, senders.length, 0⟩ : DeleteBulkStatus) senders.enum).1 with message := "Deleting " ++ toString (dbPhase1 fetch senders.length (⟨0, "Collecting emails to delete...", false, none, 0, senders.length, 0⟩ : DeleteBulkStatus) senders.enum).2.2.1.length ++ " emails..." } : DeleteBulkStatus) := (by simpa using hy2 : _ = y).symm
                  rw [hxe, hye]
              · exact hp2.1.tail
              · intro x hx y hy
                have hx2 : x ∈ (((⟨0, "Ready", false, none, 0, 0, 0⟩ : DeleteBulkStatus) :: (⟨0, "Ready", false, none, 0, senders.length, 0⟩ : DeleteBulkStatus) :: (⟨0, "Collecting emails to delete...", false, none, 0, senders.length, 0⟩ : DeleteBulkStatus) :: (dbPhase1 fetch senders.length (⟨0, "Collecting emails to delete...", false, none, 0, senders.length, 0⟩ : DeleteBulkStatus) senders.enum).2.1) ++ [({ (dbPhase1 fetch senders.length (⟨0, "Collecting emails to delete...", false, none, 0, senders.length, 0⟩ : DeleteBulkStatus) senders.enum).1 with message := "Deleting " ++ toString (dbPhase1 fetch senders.length (⟨0, "Collecting emails to delete...", false, none, 0, senders.length, 0⟩ : DeleteBulkStatus) senders.enum).2.2.1.length ++ " emails..." } : DeleteBulkStatus)]).getLast? := hx
                rw [hgl2] at hx2
                have hxe : x = ({ (dbPhase1 fetch senders.length (⟨0, "Collecting emails to delete...", false, none, 0, senders.length, 0⟩ : DeleteBulkStatus) senders.enum).1 with message := "Deleting " ++ toString (dbPhase1 fetch senders.length (⟨0, "Collecting emails to delete...", false, none, 0, senders.length, 0⟩ : DeleteBulkStatus) senders.enum).2.2.1.length ++ " emails..." } : DeleteBulkStatus) := (by simpa using hx2 : _ = x).symm
                rw [hxe]
                exact (List.chain'_cons'.mp hp2.1).1 y hy
            · exact List.chain'_cons.mpr ⟨le_refl _,
                List.chain'_cons.mpr ⟨le_refl _, List.chain'_singleton _⟩⟩
            · intro x hx y hy
              have hx2 : x ∈ ((((⟨0, "Ready", false, none, 0, 0, 0⟩ : DeleteBulkStatus) :: (⟨0, "Ready", false, none, 0, senders.length, 0⟩ : DeleteBulkStatus) :: (⟨0, "Collecting emails to delete...", false, none, 0, senders.length, 0⟩ : DeleteBulkStatus) :: (dbPhase1 fetch senders.length (⟨0, "Collecting emails to delete...", false, none, 0, senders.length, 0⟩ : DeleteBulkStatus) senders.enum).2.1) ++ [({ (dbPhase1 fetch senders.length (⟨0, "Collecting emails to delete...", false, none, 0, senders.length, 0⟩ : DeleteBulkStatus) senders.enum).1 with message := "Deleting " ++ toString (dbPhase1 fetch senders.length (⟨0, "Collecting emails to delete...", false, none, 0, senders.length, 0⟩ : DeleteBulkStatus) senders.enum).2.2.1.length ++ " emails..." } : DeleteBulkStatus)]) ++ (dbPhase2 mutate (dbPhase1 fetch senders.length (⟨0, "Collecting emails to delete...", false, none, 0, senders.length, 0⟩ : DeleteBulkStatus) senders.enum).2.2.1.length ({ (dbPhase1 fetch senders.length (⟨0, "Collecting emails to delete...", false, none, 0, senders.length, 0⟩ : DeleteBulkStatus) senders.enum).1 with message := "Deleting " ++ toString (dbPhase1 fetch senders.length (⟨0, "Collecting emails to delete...", false, none, 0, senders.length, 0⟩ : DeleteBulkStatus) senders.enum).2.2.1.length ++ " emails..." } : DeleteBulkStatus) 0 (chunksOf 1000 (dbPhase1 fetch senders.length (⟨0, "Collecting emails to delete...", false, none, 0, senders.length, 0⟩ : DeleteBulkStatus) senders.enum).2.2.1)).2.1).getLast? := hx
              rw [hgl3] at hx2
              have hxe : x = (dbPhase2 mutate (dbPhase1 fetch senders.length (⟨0, "Collecting emails to delete...", false, none, 0, senders.length, 0⟩ : DeleteBulkStatus) senders.enum).2.2.1.length ({ (dbPhase1 fetch senders.length (⟨0, "Collecting emails to delete...", false, none, 0, senders.length, 0⟩ : DeleteBulkStatus) senders.enum).1 with message := "Deleting " ++ toString (dbPhase1 fetch senders.length (⟨0, "Collecting emails to delete...", false, none, 0, senders.length, 0⟩ : DeleteBulkStatus) senders.enum).2.2.1.length ++ " emails..." } : DeleteBulkStatus) 0 (chunksOf 1000 (dbPhase1 fetch senders.length (⟨0, "Collecting emails to delete...", false, none, 0, senders.length, 0⟩ : DeleteBulkStatus) senders.enum).2.2.1)).1 := (by simpa using hx2 : _ = x).symm
              have hy2 : y ∈ some ({ (dbPhase2 mutate (dbPhase1 fetch senders.length (⟨0, "Collecting emails to delete...", false, none, 0, senders.length, 0⟩ : DeleteBulkStatus) senders.enum).2.2.1.length ({ (dbPhase1 fetch senders.length (⟨0, "Collecting emails to delete...", false, none, 0, senders.length, 0⟩ : DeleteBulkStatus) senders.enum).1 with message := "Deleting " ++ toString (dbPhase1 fetch senders.length (⟨0, "Collecting emails to delete...", false, none, 0, senders.length, 0⟩ : DeleteBulkStatus) senders.enum).2.2.1.length ++ " emails..." } : DeleteBulkStatus) 0 (chunksOf 1000 (dbPhase1 fetch senders.length (⟨0, "Collecting emails to delete...", false, none, 0, senders.length, 0⟩ : DeleteBulkStatus) senders.enum).2.2.1)).1 with progress := 100 } : DeleteBulkStatus) := hy
              have hye : y = ({ (dbPhase2 mutate (dbPhase1 fetch senders.length (⟨0, "Collecting emails to delete...", false, none, 0, senders.length, 0⟩ : DeleteBulkStatus) senders.enum).2.2.1.length ({ (dbPhase1 fetch senders.length (⟨0, "Collecting emails to delete...", false, none, 0, senders.length, 0⟩ : DeleteBulkStatus) senders.enum).1 with message := "Deleting " ++ toString (dbPhase1 fetch senders.length (⟨0, "Collecting emails to delete...", false, none, 0, senders.length, 0⟩ : DeleteBulkStatus) senders.enum).2.2.1.length ++ " emails..." } : DeleteBulkStatus) 0 (chunksOf 1000 (dbPhase1 fetch senders.length (⟨0, "Collecting emails to delete...", false, none, 0, senders.length, 0⟩ : DeleteBulkStatus) senders.enum).2.2.1)).1 with progress := 100 } : DeleteBulkStatus) := (by simpa using hy2 : _ = y).symm
              rw [hxe, hye]
              exact hp2f100
          · exact List.chain'_cons.mpr ⟨le_refl _, List.chain'_singleton _⟩
          · intro x hx y hy
            have hx2 : x ∈ (((((⟨0, "Ready", false, none, 0, 0, 0⟩ : DeleteBulkStatus) :: (⟨0, "Ready", false, none, 0, senders.length, 0⟩ : DeleteBulkStatus) :: (⟨0, "Collecting emails to delete...", false, none, 0, senders.length, 0⟩ : DeleteBulkStatus) :: (dbPhase1 fetch senders.length (⟨0, "Collecting emails to delete...", false, none, 0, senders.length, 0⟩ : DeleteBulkStatus) senders.enum).2.1) ++ [({ (dbPhase1 fetch senders.length (⟨0, "Collecting emails to delete...", false, none, 0, senders.length, 0⟩ : DeleteBulkStatus) senders.enum).1 with message := "Deleting " ++ toString (dbPhase1 fetch senders.length (⟨0, "Collecting emails to delete...", false, none, 0, senders.length, 0⟩ : DeleteBulkStatus) senders.enum).2.2.1.length ++ " emails..." } : DeleteBulkStatus)]) ++ (dbPhase2 mutate (dbPhase1 fetch senders.length (⟨0, "Collecting emails to delete...", false, none, 0, senders.length, 0⟩ : DeleteBulkStatus) senders.enum).2.2.1.length ({ (dbPhase1 fetch senders.length (⟨0, "Collecting emails to delete...", false, none, 0, senders.length, 0⟩ : DeleteBulkStatus) senders.enum).1 with message := "Deleting " ++ toString (dbPhase1 fetch senders.length (⟨0, "Collecting emails to delete...", false, none, 0, senders.length, 0⟩ : DeleteBulkStatus) senders.enum).2.2.1.length ++ " emails..." } : DeleteBulkStatus) 0 (chunksOf 1000 (dbPhase1 fetch senders.length (⟨0, "Collecting emails to delete...", false, none, 0, senders.length, 0⟩ : DeleteBulkStatus) senders.enum).2.2.1)).2.1) ++ [({ (dbPhase2 mutate (dbPhase1 fetch senders.length (⟨0, "Collecting emails to delete...", false, none, 0, senders.length, 0⟩ : DeleteBulkStatus) senders.enum).2.2.1.length ({ (dbPhase1 fetch senders.length (⟨0, "Collecting emails to delete...", false, none, 0, senders.length, 0⟩ : DeleteBulkStatus) senders.enum).1 with message := "Deleting " ++ toString (dbPhase1 fetch senders.length (⟨0, "Collecting emails to delete...", false, none, 0, senders.length, 0⟩ : DeleteBulkStatus) senders.enum).2.2.1.length ++ " emails..." } : DeleteBulkStatus) 0 (chunksOf 1000 (dbPhase1 fetch senders.length (⟨0, "Collecting emails to delete...", false, none, 0, senders.length, 0⟩ : DeleteBulkStatus) senders.enum).2.2.1)).1 with progress := 100 } : DeleteBulkStatus), ({ ({ (dbPhase2 mutate (dbPhase1 fetch senders.length (⟨0, "Collecting emails to delete...", false, none, 0, senders.length, 0⟩ : DeleteBulkStatus) senders.enum).2.2.1.length ({ (dbPhase1 fetch senders.length (⟨0, "Collecting emails to delete...", false, none, 0, senders.length, 0⟩ : DeleteBulkStatus) senders.enum).1 with message := "Deleting " ++ toString (dbPhase1 fetch senders.length (⟨0, "Collecting emails to delete...", false, none, 0, senders.length, 0⟩ : DeleteBulkStatus) senders.enum).2.2.1.length ++ " emails..." } : DeleteBulkStatus) 0 (chunksOf 1000 (dbPhase1 fetch senders.length (⟨0, "Collecting emails to delete...", false, none, 0, senders.length, 0⟩ : DeleteBulkStatus) senders.enum).2.2.1)).1 with progress := 100 } : DeleteBulkStatus) with done := true } : DeleteBulkStatus), ({ ({ ({ (dbPhase2 mutate (dbPhase1 fetch senders.length (⟨0, "Collecting emails to delete...", false, none, 0, senders.length, 0⟩ : DeleteBulkStatus) senders.enum).2.2.1.length ({ (dbPhase1 fetch senders.length (⟨0, "Collecting emails to delete...", false, none, 0, senders.length, 0⟩ : DeleteBulkStatus) senders.enum).1 with message := "Deleting " ++ toString (dbPhase1 fetch senders.length (⟨0, "Collecting emails to delete...", false, none, 0, senders.length, 0⟩ : DeleteBulkStatus) senders.enum).2.2.1.length ++ " emails..." } : DeleteBulkStatus) 0 (chunksOf 1000 (dbPhase1 fetch senders.length (⟨0, "Collecting emails to delete...", false, none, 0, senders.length, 0⟩ : DeleteBulkStatus) senders.enum).2.2.1)).1 with progress := 100 } : DeleteBulkStatus) with done := true } : DeleteBulkStatus) with deleted_count := (dbPhase2 mutate (dbPhase1 fetch senders.length (⟨0, "Collecting emails to delete...", false, none, 0, senders.length, 0⟩ : DeleteBulkStatus) senders.enum).2.2.1.length ({ (dbPhase1 fetch senders.length (⟨0, "Collecting emails to delete...", false, none, 0, senders.length, 0⟩ : DeleteBulkStatus) senders.enum).1 with message := "Deleting " ++ toString (dbPhase1 fetch senders.length (⟨0, "Collecting emails to delete...", false, none, 0, senders.length, 0⟩ : DeleteBulkStatus) senders.enum).2.2.1.length ++ " emails..." } : DeleteBulkStatus) 0 (chunksOf 1000 (dbPhase1 fetch senders.length (⟨0, "Collecting emails to delete...", false, none, 0, senders.length, 0⟩ : DeleteBulkStatus) senders.enum).2.2.1)).2.2.1 } : DeleteBulkStatus)]).getLast? := hx
            rw [hgl4] at hx2
            have hxe : x = ({ ({ ({ (dbPhase2 mutate (dbPhase1 fetch senders.length (⟨0, "Collecting emails to delete...", false, none, 0, senders.length, 0⟩ : DeleteBulkStatus) senders.enum).2.2.1.length ({ (dbPhase1 fetch senders.length (⟨0, "Collecting emails to delete...", false, none, 0, senders.length, 0⟩ : DeleteBulkStatus) senders.enum).1 with message := "Deleting " ++ toString (dbPhase1 fetch senders.length (⟨0, "Collecting emails to delete...", false, none, 0, senders.length, 0⟩ : DeleteBulkStatus) senders.enum).2.2.1.length ++ " emails..." } : DeleteBulkStatus) 0 (chunksOf 1000 (dbPhase1 fetch senders.length (⟨0, "Collecting emails to delete...", false, none, 0, senders.length, 0⟩ : DeleteBulkStatus) senders.enum).2.2.1)).1 with progress := 100 } : DeleteBulkStatus) with done := true } : DeleteBulkStatus) with deleted_count := (dbPhase2 mutate (dbPhase1 fetch senders.length (⟨0, "Collecting emails to delete...", false, none, 0, senders.length, 0⟩ : DeleteBulkStatus) senders.enum).2.2.1.length ({ (dbPhase1 fetch senders.length (⟨0, "Collecting emails to delete...", false, none, 0, senders.length, 0⟩ : DeleteBulkStatus) senders.enum).1 with message := "Deleting " ++ toString (dbPhase1 fetch senders.length (⟨0, "Collecting emails to delete...", false, none, 0, senders.length, 0⟩ : DeleteBulkStatus) senders.enum).2.2.1.length ++ " emails..." } : DeleteBulkStatus) 0 (chunksOf 1000 (dbPhase1 fetch senders.length (⟨0, "Collecting emails to delete...", false, none, 0, senders.length, 0⟩ : DeleteBulkStatus) senders.enum).2.2.1)).2.2.1 } : DeleteBulkStatus) := (by simpa using hx2 : _ = x).symm
            have hy2 : y ∈ some ({ ({ ({ ({ (dbPhase2 mutate (dbPhase1 fetch senders.length (⟨0, "Collecting emails to delete...", false, none, 0, senders.length, 0⟩ : DeleteBulkStatus) senders.enum).2.2.1.length ({ (dbPhase1 fetch senders.length (⟨0, "Collecting emails to delete...", false, none, 0, senders.length, 0⟩ : DeleteBulkStatus) senders.enum).1 with message := "Deleting " ++ toString (dbPhase1 fetch senders.length (⟨0, "Collecting emails to delete...", false, none, 0, senders.length, 0⟩ : DeleteBulkStatus) senders.enum).2.2.1.length ++ " emails..." } : DeleteBulkStatus) 0 (chunksOf 1000 (dbPhase1 fetch senders.length (⟨0, "Collecting emails to delete...", false, none, 0, senders.length, 0⟩ : DeleteBulkStatus) senders.enum).2.2.1)).1 with progress := 100 } : DeleteBulkStatus) with done := true } : DeleteBulkStatus) with deleted_count := (dbPhase2 mutate (dbPhase1 fetch senders.length (⟨0, "Collecting emails to delete...", false, none, 0, senders.length, 0⟩ : DeleteBulkStatus) senders.enum).2.2.1.length ({ (dbPhase1 fetch senders.length (⟨0, "Collecting emails to delete...", false, none, 0, senders.length, 0⟩ : DeleteBulkStatus) senders.enum).1 with message := "Deleting " ++ toString (dbPhase1 fetch senders.length (⟨0, "Collecting emails to delete...", false, none, 0, senders.length, 0⟩ : DeleteBulkStatus) senders.enum).2.2.1.length ++ " emails..." } : DeleteBulkStatus) 0 (chunksOf 1000 (dbPhase1 fetch senders.length (⟨0, "Collecting emails to delete...", false, none, 0, senders.length, 0⟩ : DeleteBulkStatus) senders.enum).2.2.1)).2.2.1 } : DeleteBulkStatus) with error := some ("Some errors: " ++ elide3 ((dbPhase1 fetch senders.length (⟨0, "Collecting emails to delete...", false, none, 0, senders.length, 0⟩ : DeleteBulkStatus) senders.enum).2.2.2 ++ (dbPhase2 mutate (dbPhase1 fetch senders.length (⟨0, "Collecting emails to delete...", false, none, 0, senders.length, 0⟩ : DeleteBulkStatus) senders.enum).2.2.1.length ({ (dbPhase1 fetch senders.length (⟨0, "Collecting emails to delete...", false, none, 0, senders.length, 0⟩ : DeleteBulkStatus) senders.enum).1 with message := "Deleting " ++ toString (dbPhase1 fetch senders.length (⟨0, "Collecting emails to delete...", false, none, 0, senders.length, 0⟩ : DeleteBulkStatus) senders.enum).2.2.1.length ++ " emails..." } : DeleteBulkStatus) 0 (chunksOf 1000 (dbPhase1 fetch senders.length (⟨0, "Collecting emails to delete...", false, none, 0, senders.length, 0⟩ : DeleteBulkStatus) senders.enum).2.2.1)).2.2.2)) } : DeleteBulkStatus) := hy
            have hye : y = ({ ({ ({ ({ (dbPhase2 mutate (dbPhase1 fetch senders.length (⟨0, "Collecting emails to delete...", false, none, 0, senders.length, 0⟩ : DeleteBulkStatus) senders.enum).2.2.1.length ({ (dbPhase1 fetch senders.length (⟨0, "Collecting emails to delete...", false, none, 0, senders.length, 0⟩ : DeleteBulkStatus) senders.enum).1 with message := "Deleting " ++ toString (dbPhase1 fetch senders.length (⟨0, "Collecting emails to delete...", false, none, 0, senders.length, 0⟩ : DeleteBulkStatus) senders.enum).2.2.1.length ++ " emails..." } : DeleteBulkStatus) 0 (chunksOf 1000 (dbPhase1 fetch senders.length (⟨0, "Collecting emails to delete...", false, none, 0, senders.length, 0⟩ : DeleteBulkStatus) senders.enum).2.2.1)).1 with progress := 100 } : DeleteBulkStatus) with done := true } : DeleteBulkStatus) with deleted_count := (dbPhase2 mutate (dbPhase1 fetch senders.length (⟨0, "Collecting emails to delete...", false, none, 0, senders.length, 0⟩ : DeleteBulkStatus) senders.enum).2.2.1.length ({ (dbPhase1 fetch senders.length (⟨0, "Collecting emails to delete...", false, none, 0, senders.length, 0⟩ : DeleteBulkStatus) senders.enum).1 with message := "Deleting " ++ toString (dbPhase1 fetch senders.length (⟨0, "Collecting emails to delete...", false, none, 0, senders.length, 0⟩ : DeleteBulkStatus) senders.enum).2.2.1.length ++ " emails..." } : DeleteBulkStatus) 0 (chunksOf 1000 (dbPhase1 fetch senders.length (⟨0, "Collecting emails to delete...", false, none, 0, senders.length, 0⟩ : DeleteBulkStatus) senders.enum).2.2.1)).2.2.1 } : DeleteBulkStatus) with error := some ("Some errors: " ++ elide3 ((dbPhase1 fetch senders.length (⟨0, "Collecting emails to delete...", false, none, 0, senders.length, 0⟩ : DeleteBulkStatus) senders.enum).2.2.2 ++ (dbPhase2 mutate (dbPhase1 fetch senders.length (⟨0, "Collecting emails to delete...", false, none, 0, senders.length, 0⟩ : DeleteBulkStatus) senders.enum).2.2.1.length ({ (dbPhase1 fetch senders.length (⟨0, "Collecting emails to delete...", false, none, 0, senders.length, 0⟩ : DeleteBulkStatus) senders.enum).1 with message := "Deleting " ++ toString (dbPhase1 fetch senders.length (⟨0, "Collecting emails to delete...", false, none, 0, senders.length, 0⟩ : DeleteBulkStatus) senders.enum).2.2.1.length ++ " emails..." } : DeleteBulkStatus) 0 (chunksOf 1000 (dbPhase1 fetch senders.length (⟨0, "Collecting emails to delete...", false, none, 0, senders.length, 0⟩ : DeleteBulkStatus) senders.enum).2.2.1)).2.2.2)) } : DeleteBulkStatus) := (by simpa using hy2 : _ = y).symm
            rw [hxe, hye]
        · refine List.Chain'.append ?_ ?_ ?_
          · refine List.Chain'.append ?_ ?_ ?_
            · refine List.Chain'.append ?_ ?_ ?_
              · refine List.Chain'.append ?_ ?_ ?_
                · exact chain'_done_of_false _ _ hAfalse
                · exact List.chain'_singleton _
                · intro x hx y hy h
                  have hx2 : x ∈ ((⟨0, "Ready", false, none, 0, 0, 0⟩ : DeleteBulkStatus) :: (⟨0, "Ready", false, none, 0, senders.length, 0⟩ : DeleteBulkStatus) :: (⟨0, "Collecting emails to delete...", false, none, 0, senders.length, 0⟩ : DeleteBulkStatus) :: (dbPhase1 fetch senders.length (⟨0, "Collecting emails to delete...", false, none, 0, senders.length, 0⟩ : DeleteBulkStatus) senders.enum).2.1).getLast? := hx
                  rw [hglA] at hx2
                  have hxe : x = (dbPhase1 fetch senders.length (⟨0, "Collecting emails to delete...", false, none, 0, senders.length, 0⟩ : DeleteBulkStatus) senders.enum).1 := (by simpa using hx2 : _ = x).symm
                  rw [hxe] at h
                  rw [hp1fdone] at h
                  exact Bool.noConfusion h
              · refine chain'_done_of_false _ _ ?_
                intro t ht
                rw [(hp2.2.1 t (List.mem_cons_of_mem _ ht)).2]
                exact hp1fdone
              · intro x hx y hy h
                have hx2 : x ∈ (((⟨0, "Ready", false, none, 0, 0, 0⟩ : DeleteBulkStatus) :: (⟨0, "Ready", false, none, 0, senders.length, 0⟩ : DeleteBulkStatus) :: (⟨0, "Collecting emails to delete...", false, none, 0, senders.length, 0⟩ : DeleteBulkStatus) :: (dbPhase1 fetch senders.length (⟨0, "Collecting emails to delete...", false, none, 0, senders.length, 0⟩ : DeleteBulkStatus) senders.enum).2.1) ++ [({ (dbPhase1 fetch senders.length (⟨0, "Collecting emails to delete...", false, none, 0, senders.length, 0⟩ : DeleteBulkStatus) senders.enum).1 with message := "Deleting " ++ toString (dbPhase1 fetch senders.length (⟨0, "Collecting emails to delete...", false, none, 0, senders.length, 0⟩ : DeleteBulkStatus) senders.enum).2.2.1.length ++ " emails..." } : DeleteBulkStatus)]).getLast? := hx
                rw [hgl2] at hx2
                have hxe : x = ({ (dbPhase1 fetch senders.length (⟨0, "Collecting emails to delete...", false, none, 0, senders.length, 0⟩ : DeleteBulkStatus) senders.enum).1 with message := "Deleting " ++ toString (dbPhase1 fetch senders.length (⟨0, "Collecting emails to delete...", false, none, 0, senders.length, 0⟩ : DeleteBulkStatus) senders.enum).2.2.1.length ++ " emails..." } : DeleteBulkStatus) := (by simpa using hx2 : _ = x).symm
                rw [hxe] at h
                have h2 : (dbPhase1 fetch senders.length (⟨0, "Collecting emails to delete...", false, none, 0, senders.length, 0⟩ : DeleteBulkStatus) senders.enum).1.done = true := h
                rw [hp1fdone] at h2
                exact Bool.noConfusion h2
            · exact List.chain'_cons.mpr ⟨fun _ => rfl,
                List.chain'_cons.mpr ⟨fun _ => rfl, List.chain'_singleton _⟩⟩
            · intro x hx y hy h
              have hx2 : x ∈ ((((⟨0, "Ready", false, none, 0, 0, 0⟩ : DeleteBulkStatus) :: (⟨0, "Ready", false, none, 0, senders.length, 0⟩ : DeleteBulkStatus) :: (⟨0, "Collecting emails to delete...", false, none, 0, senders.length, 0⟩ : DeleteBulkStatus) :: (dbPhase1 fetch senders.length (⟨0, "Collecting emails to delete...", false, none, 0, senders.length, 0⟩ : DeleteBulkStatus) senders.enum).2.1) ++ [({ (dbPhase1 fetch senders.length (⟨0, "Collecting emails to delete...", false, none, 0, senders.length, 0⟩ : DeleteBulkStatus) senders.enum).1 with message := "Deleting " ++ toString (dbPhase1 fetch senders.length (⟨0, "Collecting emails to delete...", false, none, 0, senders.length, 0⟩ : DeleteBulkStatus) senders.enum).2.2.1.length ++ " emails..." } : DeleteBulkStatus)]) ++ (dbPhase2 mutate (dbPhase1 fetch senders.length (⟨0, "Collecting emails to delete...", false, none, 0, senders.length, 0⟩ : DeleteBulkStatus) senders.enum).2.2.1.length ({ (dbPhase1 fetch senders.length (⟨0, "Collecting emails to delete...", false, none, 0, senders.length, 0⟩ : DeleteBulkStatus) senders.enum).1 with message := "Deleting " ++ toString (dbPhase1 fetch senders.length (⟨0, "Collecting emails to delete...", false, none, 0, senders.length, 0⟩ : DeleteBulkStatus) senders.enum).2.2.1.length ++ " emails..." } : DeleteBulkStatus) 0 (chunksOf 1000 (dbPhase1 fetch senders.length (⟨0, "Collecting emails to delete...", false, none, 0, senders.length, 0⟩ : DeleteBulkStatus) senders.enum).2.2.1)).2.1).getLast? := hx
              rw [hgl3] at hx2
              have hxe : x = (dbPhase2 mutate (dbPhase1 fetch senders.length (⟨0, "Collecting emails to delete...", false, none, 0, senders.length, 0⟩ : DeleteBulkStatus) senders.enum).2.2.1.length ({ (dbPhase1 fetch senders.length (⟨0, "Collecting emails to delete...", false, none, 0, senders.length, 0⟩ : DeleteBulkStatus) senders.enum).1 with message := "Deleting " ++ toString (dbPhase1 fetch senders.length (⟨0, "Collecting emails to delete...", false, none, 0, senders.length, 0⟩ : DeleteBulkStatus) senders.enum).2.2.1.length ++ " emails..." } : DeleteBulkStatus) 0 (chunksOf 1000 (dbPhase1 fetch senders.length (⟨0, "Collecting emails to delete...", false, none, 0, senders.length, 0⟩ : DeleteBulkStatus) senders.enum).2.2.1)).1 := (by simpa using hx2 : _ = x).symm
              rw [hxe] at h
              rw [hp2fdone] at h
              exact Bool.noConfusion h
          · exact List.chain'_cons.mpr ⟨fun _ => rfl, List.chain'_singleton _⟩
          · intro x hx y hy h
            have hy2 : y ∈ some ({ ({ ({ ({ (dbPhase2 mutate (dbPhase1 fetch senders.length (⟨0, "Collecting emails to delete...", false, none, 0, senders.length, 0⟩ : DeleteBulkStatus) senders.enum).2.2.1.length ({ (dbPhase1 fetch senders.length (⟨0, "Collecting emails to delete...", false, none, 0, senders.length, 0⟩ : DeleteBulkStatus) senders.enum).1 with message := "Deleting " ++ toString (dbPhase1 fetch senders.length (⟨0, "Collecting emails to delete...", false, none, 0, senders.length, 0⟩ : DeleteBulkStatus) senders.enum).2.2.1.length ++ " emails..." } : DeleteBulkStatus) 0 (chunksOf 1000 (dbPhase1 fetch senders.length (⟨0, "Collecting emails to delete...", false, none, 0, senders.length, 0⟩ : DeleteBulkStatus) senders.enum).2.2.1)).1 with progress := 100 } : DeleteBulkStatus) with done := true } : DeleteBulkStatus) with deleted_count := (dbPhase2 mutate (dbPhase1 fetch senders.length (⟨0, "Collecting emails to delete...", false, none, 0, senders.length, 0⟩ : DeleteBulkStatus) senders.enum).2.2.1.length ({ (dbPhase1 fetch senders.length (⟨0, "Collecting emails to delete...", false, none, 0, senders.length, 0⟩ : DeleteBulkStatus) senders.enum).1 with message := "Deleting " ++ toString (dbPhase1 fetch senders.length (⟨0, "Collecting emails to delete...", false, none, 0, senders.length, 0⟩ : DeleteBulkStatus) senders.enum).2.2.1.length ++ " emails..." } : DeleteBulkStatus) 0 (chunksOf 1000 (dbPhase1 fetch senders.length (⟨0, "Collecting emails to delete...", false, none, 0, senders.length, 0⟩ : DeleteBulkStatus) senders.enum).2.2.1)).2.2.1 } : DeleteBulkStatus) with error := some ("Some errors: " ++ elide3 ((dbPhase1 fetch senders.length (⟨0, "Collecting emails to delete...", false, none, 0, senders.length, 0⟩ : DeleteBulkStatus) senders.enum).2.2.2 ++ (dbPhase2 mutate (dbPhase1 fetch senders.length (⟨0, "Collecting emails to delete...", false, none, 0, senders.length, 0⟩ : DeleteBulkStatus) senders.enum).2.2.1.length ({ (dbPhase1 fetch senders.length (⟨0, "Collecting emails to delete...", false, none, 0, senders.length, 0⟩ : DeleteBulkStatus) senders.enum).1 with message := "Deleting " ++ toString (dbPhase1 fetch senders.length (⟨0, "Collecting emails to delete...", false, none, 0, senders.length, 0⟩ : DeleteBulkStatus) senders.enum).2.2.1.length ++ " emails..." } : DeleteBulkStatus) 0 (chunksOf 1000 (dbPhase1 fetch senders.length (⟨0, "Collecting emails to delete...", false, none, 0, senders.length, 0⟩ : DeleteBulkStatus) senders.enum).2.2.1)).2.2.2)) } : DeleteBulkStatus) := hy
            have hye : y = ({ ({ ({ ({ (dbPhase2 mutate (dbPhase1 fetch senders.length (⟨0, "Collecting emails to delete...", false, none, 0, senders.length, 0⟩ : DeleteBulkStatus) senders.enum).2.2.1.length ({ (dbPhase1 fetch senders.length (⟨0, "Collecting emails to delete...", false, none, 0, senders.length, 0⟩ : DeleteBulkStatus) senders.enum).1 with message := "Deleting " ++ toString (dbPhase1 fetch senders.length (⟨0, "Collecting emails to delete...", false, none, 0, senders.length, 0⟩ : DeleteBulkStatus) senders.enum).2.2.1.length ++ " emails..." } : DeleteBulkStatus) 0 (chunksOf 1000 (dbPhase1 fetch senders.length (⟨0, "Collecting emails to delete...", false, none, 0, senders.length, 0⟩ : DeleteBulkStatus) senders.enum).2.2.1)).1 with progress := 100 } : DeleteBulkStatus) with done := true } : DeleteBulkStatus) with deleted_count := (dbPhase2 mutate (dbPhase1 fetch senders.length (⟨0, "Collecting emails to delete...", false, none, 0, senders.length, 0⟩ : DeleteBulkStatus) senders.enum).2.2.1.length ({ (dbPhase1 fetch senders.length (⟨0, "Collecting emails to delete...", false, none, 0, senders.length, 0⟩ : DeleteBulkStatus) senders.enum).1 with message := "Deleting " ++ toString (dbPhase1 fetch senders.length (⟨0, "Collecting emails to delete...", false, none, 0, senders.length, 0⟩ : DeleteBulkStatus) senders.enum).2.2.1.length ++ " emails..." } : DeleteBulkStatus) 0 (chunksOf 1000 (dbPhase1 fetch senders.length (⟨0, "Collecting emails to delete...", false, none, 0, senders.length, 0⟩ : DeleteBulkStatus) senders.enum).2.2.1)).2.2.1 } : DeleteBulkStatus) with error := some ("Some errors: " ++ elide3 ((dbPhase1 fetch senders.length (⟨0, "Collecting emails to delete...", false, none, 0, senders.length, 0⟩ : DeleteBulkStatus) senders.enum).2.2.2 ++ (dbPhase2 mutate (dbPhase1 fetch senders.length (⟨0, "Collecting emails to delete...", false, none, 0, senders.length, 0⟩ : DeleteBulkStatus) senders.enum).2.2.1.length ({ (dbPhase1 fetch senders.length (⟨0, "Collecting emails to delete...", false, none, 0, senders.length, 0⟩ : DeleteBulkStatus) senders.enum).1 with message := "Deleting " ++ toString (dbPhase1 fetch senders.length (⟨0, "Collecting emails to delete...", false, none, 0, senders.length, 0⟩ : DeleteBulkStatus) senders.enum).2.2.1.length ++ " emails..." } : DeleteBulkStatus) 0 (chunksOf 1000 (dbPhase1 fetch senders.length (⟨0, "Collecting emails to delete...", false, none, 0, senders.length, 0⟩ : DeleteBulkStatus) senders.enum).2.2.1)).2.2.2)) } : DeleteBulkStatus) := (by simpa using hy2 : _ = y).symm
            rw [hye]
        · intro s hs
          rw [List.getLast?_append] at hs
          rw [List.getLast?_cons_cons, List.getLast?_singleton] at hs
          have hse : s = ({ ({ ({ ({ ({ (dbPhase2 mutate (dbPhase1 fetch senders.length (⟨0, "Collecting emails to delete...", false, none, 0, senders.length, 0⟩ : DeleteBulkStatus) senders.enum).2.2.1.length ({ (dbPhase1 fetch senders.length (⟨0, "Collecting emails to delete...", false, none, 0, senders.length, 0⟩ : DeleteBulkStatus) senders.enum).1 with message := "Deleting " ++ toString (dbPhase1 fetch senders.length (⟨0, "Collecting emails to delete...", false, none, 0, senders.length, 0⟩ : DeleteBulkStatus) senders.enum).2.2.1.length ++ " emails..." } : DeleteBulkStatus) 0 (chunksOf 1000 (dbPhase1 fetch senders.length (⟨0, "Collecting emails to delete...", false, none, 0, senders.length, 0⟩ : DeleteBulkStatus) senders.enum).2.2.1)).1 with progress := 100 } : DeleteBulkStatus) with done := true } : DeleteBulkStatus) with deleted_count := (dbPhase2 mutate (dbPhase1 fetch senders.length (⟨0, "Collecting emails to delete...", false, none, 0, senders.length, 0⟩ : DeleteBulkStatus) senders.enum).2.2.1.length ({ (dbPhase1 fetch senders.length (⟨0, "Collecting emails to delete...", false, none, 0, senders.length, 0⟩ : DeleteBulkStatus) senders.enum).1 with message := "Deleting " ++ toString (dbPhase1 fetch senders.length (⟨0, "Collecting emails to delete...", false, none, 0, senders.length, 0⟩ : DeleteBulkStatus) senders.enum).2.2.1.length ++ " emails..." } : DeleteBulkStatus) 0 (chunksOf 1000 (dbPhase1 fetch senders.length (⟨0, "Collecting emails to delete...", false, none, 0, senders.length, 0⟩ : DeleteBulkStatus) senders.enum).2.2.1)).2.2.1 } : DeleteBulkStatus) with error := some ("Some errors: " ++ elide3 ((dbPhase1 fetch senders.length (⟨0, "Collecting emails to delete...", false, none, 0, senders.length, 0⟩ : DeleteBulkStatus) senders.enum).2.2.2 ++ (dbPhase2 mutate (dbPhase1 fetch senders.length (⟨0, "Collecting emails to delete...", false, none, 0, senders.length, 0⟩ : DeleteBulkStatus) senders.enum).2.2.1.length ({ (dbPhase1 fetch senders.length (⟨0, "Collecting emails to delete...", false, none, 0, senders.length, 0⟩ : DeleteBulkStatus) senders.enum).1 with message := "Deleting " ++ toString (dbPhase1 fetch senders.length (⟨0, "Collecting emails to delete...", false, none, 0, senders.length, 0⟩ : DeleteBulkStatus) senders.enum).2.2.1.length ++ " emails..." } : DeleteBulkStatus) 0 (chunksOf 1000 (dbPhase1 fetch senders.length (⟨0, "Collecting emails to delete...", false, none, 0, senders.length, 0⟩ : DeleteBulkStatus) senders.enum).2.2.1)).2.2.2)) } : DeleteBulkStatus) with message := "Deleted " ++ toString (dbPhase2 mutate (dbPhase1 fetch senders.length (⟨0, "Collecting emails to delete...", false, none, 0, senders.length, 0⟩ : DeleteBulkStatus) senders.enum).2.2.1.length ({ (dbPhase1 fetch senders.length (⟨0, "Collecting emails to delete...", false, none, 0, senders.length, 0⟩ : DeleteBulkStatus) senders.enum).1 with message := "Deleting " ++ toString (dbPhase1 fetch senders.length (⟨0, "Collecting emails to delete...", false, none, 0, senders.length, 0⟩ : DeleteBulkStatus) senders.enum).2.2.1.length ++ " emails..." } : DeleteBulkStatus) 0 (chunksOf 1000 (dbPhase1 fetch senders.length (⟨0, "Collecting emails to delete...", false, none, 0, senders.length, 0⟩ : DeleteBulkStatus) senders.enum).2.2.1)).2.2.1 ++ " emails with some errors" } : DeleteBulkStatus) := (by simpa using hs : _ = s).symm
          rw [hse]
      · have htpos : 0 < (dbPhase1 fetch senders.length (⟨0, "Collecting emails to delete...", false, none, 0, senders.length, 0⟩ : DeleteBulkStatus) senders.enum).2.2.1.length := List.length_pos.mpr hids
        have hflat : (chunksOf 1000 (dbPhase1 fetch senders.length (⟨0, "Collecting emails to delete...", false, none, 0, senders.length, 0⟩ : DeleteBulkStatus) senders.enum).2.2.1).flatten = (dbPhase1 fetch senders.length (⟨0, "Collecting emails to delete...", false, none, 0, senders.length, 0⟩ : DeleteBulkStatus) senders.enum).2.2.1 :=
          chunksOf_flatten 999 _
        have hsum : 0 + (chunksOf 1000 (dbPhase1 fetch senders.length (⟨0, "Collecting emails to delete...", false, none, 0, senders.length, 0⟩ : DeleteBulkStatus) senders.enum).2.2.1).flatten.length ≤ (dbPhase1 fetch senders.length (⟨0, "Collecting emails to delete...", false, none, 0, senders.length, 0⟩ : DeleteBulkStatus) senders.enum).2.2.1.length := by
          rw [hflat]
          omega
        have hsp : ({ (dbPhase1 fetch senders.length (⟨0, "Collecting emails to delete...", false, none, 0, senders.length, 0⟩ : DeleteBulkStatus) senders.enum).1 with message := "Deleting " ++ toString (dbPhase1 fetch senders.length (⟨0, "Collecting emails to delete...", false, none, 0, senders.length, 0⟩ : DeleteBulkStatus) senders.enum).2.2.1.length ++ " emails..." } : DeleteBulkStatus).progress ≤ 40 + 0 * 60 / (dbPhase1 fetch senders.length (⟨0, "Collecting emails to delete...", false, none, 0, senders.length, 0⟩ : DeleteBulkStatus) senders.enum).2.2.1.length :=
          le_trans hp1f40 (Nat.le_add_right 40 _)
        have hp2 := dbPhase2_spec mutate (dbPhase1 fetch senders.length (⟨0, "Collecting emails to delete...", false, none, 0, senders.length, 0⟩ : DeleteBulkStatus) senders.enum).2.2.1.length htpos
          (chunksOf 1000 (dbPhase1 fetch senders.length (⟨0, "Collecting emails to delete...", false, none, 0, senders.length, 0⟩ : DeleteBulkStatus) senders.enum).2.2.1) ({ (dbPhase1 fetch senders.length (⟨0, "Collecting emails to delete...", false, none, 0, senders.length, 0⟩ : DeleteBulkStatus) senders.enum).1 with message := "Deleting " ++ toString (dbPhase1 fetch senders.length (⟨0, "Collecting emails to delete...", false, none, 0, senders.length, 0⟩ : DeleteBulkStatus) senders.enum).2.2.1.length ++ " emails..." } : DeleteBulkStatus) 0 hsum hsp
        have hgl2 : (((⟨0, "Ready", false, none, 0, 0, 0⟩ : DeleteBulkStatus) :: (⟨0, "Ready", false, none, 0, senders.length, 0⟩ : DeleteBulkStatus) :: (⟨0, "Collecting emails to delete...", false, none, 0, senders.length, 0⟩ : DeleteBulkStatus) :: (dbPhase1 fetch senders.length (⟨0, "Collecting emails to delete...", false, none, 0, senders.length, 0⟩ : DeleteBulkStatus) senders.enum).2.1) ++ [({ (dbPhase1 fetch senders.length (⟨0, "Collecting emails to delete...", false, none, 0, senders.length, 0⟩ : DeleteBulkStatus) senders.enum).1 with message := "Deleting " ++ toString (dbPhase1 fetch senders.length (⟨0, "Collecting emails to delete...", false, none, 0, senders.length, 0⟩ : DeleteBulkStatus) senders.enum).2.2.1.length ++ " emails..." } : DeleteBulkStatus)]).getLast? = some ({ (dbPhase1 fetch senders.length (⟨0, "Collecting emails to delete...", false, none, 0, senders.length, 0⟩ : DeleteBulkStatus) senders.enum).1 with message := "Deleting " ++ toString (dbPhase1 fetch senders.length (⟨0, "Collecting emails to delete...", false, none, 0, senders.length, 0⟩ : DeleteBulkStatus) senders.enum).2.2.1.length ++ " emails..." } : DeleteBulkStatus) :=
          getLast?_append_some _ (List.getLast?_singleton _)
        have hgl3 : ((((⟨0, "Ready", false, none, 0, 0, 0⟩ : DeleteBulkStatus) :: (⟨0, "Ready", false, none, 0, senders.length, 0⟩ : DeleteBulkStatus) :: (⟨0, "Collecting emails to delete...", false, none, 0, senders.length, 0⟩ : DeleteBulkStatus) :: (dbPhase1 fetch senders.length (⟨0, "Collecting emails to delete...", false, none, 0, senders.length, 0⟩ : DeleteBulkStatus) senders.enum).2.1) ++ [({ (dbPhase1 fetch senders.length (⟨0, "Collecting emails to delete...", false, none, 0, senders.length, 0⟩ : DeleteBulkStatus) senders.enum).1 with message := "Deleting " ++ toString (dbPhase1 fetch senders.length (⟨0, "Collecting emails to delete...", false, none, 0, senders.length, 0⟩ : DeleteBulkStatus) senders.enum).2.2.1.length ++ " emails..." } : DeleteBulkStatus)]) ++ (dbPhase2 mutate (dbPhase1 fetch senders.length (⟨0, "Collecting emails to delete...", false, none, 0, senders.length, 0⟩ : DeleteBulkStatus) senders.enum).2.2.1.length ({ (dbPhase1 fetch senders.length (⟨0, "Collecting emails to delete...", false, none, 0, senders.length, 0⟩ : DeleteBulkStatus) senders.enum).1 with message := "Deleting " ++ toString (dbPhase1 fetch senders.length (⟨0, "Collecting emails to delete...", false, none, 0, senders.length, 0⟩ : DeleteBulkStatus) senders.enum).2.2.1.length ++ " emails..." } : DeleteBulkStatus) 0 (chunksOf 1000 (dbPhase1 fetch senders.length (⟨0, "Collecting emails to delete...", false, none, 0, senders.length, 0⟩ : DeleteBulkStatus) senders.enum).2.2.1)).2.1).getLast? = some (dbPhase2 mutate (dbPhase1 fetch senders.length (⟨0, "Collecting emails to delete...", false, none, 0, senders.length, 0⟩ : DeleteBulkStatus) senders.enum).2.2.1.length ({ (dbPhase1 fetch senders.length (⟨0, "Collecting emails to delete...", false, none, 0, senders.length, 0⟩ : DeleteBulkStatus) senders.enum).1 with message := "Deleting " ++ toString (dbPhase1 fetch senders.length (⟨0, "Collecting emails to delete...", false, none, 0, senders.length, 0⟩ : DeleteBulkStatus) senders.enum).2.2.1.length ++ " emails..." } : DeleteBulkStatus) 0 (chunksOf 1000 (dbPhase1 fetch senders.length (⟨0, "Collecting emails to delete...", false, none, 0, senders.length, 0⟩ : DeleteBulkStatus) senders.enum).2.2.1)).1 := by
          rw [List.getLast?_append, hgl2, ← cons_getLast?_or]
          exact hp2.2.2
        have hgl4 : (((((⟨0, "Ready", false, none, 0, 0, 0⟩ : DeleteBulkStatus) :: (⟨0, "Ready", false, none, 0, senders.length, 0⟩ : DeleteBulkStatus) :: (⟨0, "Collecting emails to delete...", false, none, 0, senders.length, 0⟩ : DeleteBulkStatus) :: (dbPhase1 fetch senders.length (⟨0, "Collecting emails to delete...", false, none, 0, senders.length, 0⟩ : DeleteBulkStatus) senders.enum).2.1) ++ [({ (dbPhase1 fetch senders.length (⟨0, "Collecting emails to delete...", false, none, 0, senders.length, 0⟩ : DeleteBulkStatus) senders.enum).1 with message := "Deleting " ++ toString (dbPhase1 fetch senders.length (⟨0, "Collecting emails to delete...", false, none, 0, senders.length, 0⟩ : DeleteBulkStatus) senders.enum).2.2.1.length ++ " emails..." } : DeleteBulkStatus)]) ++ (dbPhase2 mutate (dbPhase1 fetch senders.length (⟨0, "Collecting emails to delete...", false, none, 0, senders.length, 0⟩ : DeleteBulkStatus) senders.enum).2.2.1.length ({ (dbPhase1 fetch senders.length (⟨0, "Collecting emails to delete...", false, none, 0, senders.length, 0⟩ : DeleteBulkStatus) senders.enum).1 with message := "Deleting " ++ toString (dbPhase1 fetch senders.length (⟨0, "Collecting emails to delete...", false, none, 0, senders.length, 0⟩ : DeleteBulkStatus) senders.enum).2.2.1.length ++ " emails..." } : DeleteBulkStatus) 0 (chunksOf 1000 (dbPhase1 fetch senders.length (⟨0, "Collecting emails to delete...", false, none, 0, senders.length, 0⟩ : DeleteBulkStatus) senders.enum).2.2.1)).2.1) ++ [({ (dbPhase2 mutate (dbPhase1 fetch senders.length (⟨0, "Collecting emails to delete...", false, none, 0, senders.length, 0⟩ : DeleteBulkStatus) senders.enum).2.2.1.length ({ (dbPhase1 fetch senders.length (⟨0, "Collecting emails to delete...", false, none, 0, senders.length, 0⟩ : DeleteBulkStatus) senders.enum).1 with message := "Deleting " ++ toString (dbPhase1 fetch senders.length (⟨0, "Collecting emails to delete...", false, none, 0, senders.length, 0⟩ : DeleteBulkStatus) senders.enum).2.2.1.length ++ " emails..." } : DeleteBulkStatus) 0 (chunksOf 1000 (dbPhase1 fetch senders.length (⟨0, "Collecting emails to delete...", false, none, 0, senders.length, 0⟩ : DeleteBulkStatus) senders.enum).2.2.1)).1 with progress := 100 } : DeleteBulkStatus), ({ ({ (dbPhase2 mutate (dbPhase1 fetch senders.length (⟨0, "Collecting emails to delete...", false, none, 0, senders.length, 0⟩ : DeleteBulkStatus) senders.enum).2.2.1.length ({ (dbPhase1 fetch senders.length (⟨0, "Collecting emails to delete...", false, none, 0, senders.length, 0⟩ : DeleteBulkStatus) senders.enum).1 with message := "Deleting " ++ toString (dbPhase1 fetch senders.length (⟨0, "Collecting emails to delete...", false, none, 0, senders.length, 0⟩ : DeleteBulkStatus) senders.enum).2.2.1.length ++ " emails..." } : DeleteBulkStatus) 0 (chunksOf 1000 (dbPhase1 fetch senders.length (⟨0, "Collecting emails to delete...", false, none, 0, senders.length, 0⟩ : DeleteBulkStatus) senders.enum).2.2.1)).1 with progress := 100 } : DeleteBulkStatus) with done := true } : DeleteBulkStatus), ({ ({ ({ (dbPhase2 mutate (dbPhase1 fetch senders.length (⟨0, "Collecting emails to delete...", false, none, 0, senders.length, 0⟩ : DeleteBulkStatus) senders.enum).2.2.1.length ({ (dbPhase1 fetch senders.length (⟨0, "Collecting emails to delete...", false, none, 0, senders.length, 0⟩ : DeleteBulkStatus) senders.enum).1 with message := "Deleting " ++ toString (dbPhase1 fetch senders.length (⟨0, "Collecting emails to delete...", false, none, 0, senders.length, 0⟩ : DeleteBulkStatus) senders.enum).2.2.1.length ++ " emails..." } : DeleteBulkStatus) 0 (chunksOf 1000 (dbPhase1 fetch senders.length (⟨0, "Collecting emails to delete...", false, none, 0, senders.length, 0⟩ : DeleteBulkStatus) senders.enum).2.2.1)).1 with progress := 100 } : DeleteBulkStatus) with done := true } : DeleteBulkStatus) with deleted_count := (dbPhase2 mutate (dbPhase1 fetch senders.length (⟨0, "Collecting emails to delete...", false, none, 0, senders.length, 0⟩ : DeleteBulkStatus) senders.enum).2.2.1.length ({ (dbPhase1 fetch senders.length (⟨0, "Collecting emails to delete...", false, none, 0, senders.length, 0⟩ : DeleteBulkStatus) senders.enum).1 with message := "Deleting " ++ toString (dbPhase1 fetch senders.length (⟨0, "Collecting emails to delete...", false, none, 0, senders.length, 0⟩ : DeleteBulkStatus) senders.enum).2.2.1.length ++ " emails..." } : DeleteBulkStatus) 0 (chunksOf 1000 (dbPhase1 fetch senders.length (⟨0, "Collecting emails to delete...", false, none, 0, senders.length, 0⟩ : DeleteBulkStatus) senders.enum).2.2.1)).2.2.1 } : DeleteBulkStatus)]).getLast? = some ({ ({ ({ (dbPhase2 mutate (dbPhase1 fetch senders.length (⟨0, "Collecting emails to delete...", false, none, 0, senders.length, 0⟩ : DeleteBulkStatus) senders.enum).2.2.1.length ({ (dbPhase1 fetch senders.length (⟨0, "Collecting emails to delete...", false, none, 0, senders.length, 0⟩ : DeleteBulkStatus) senders.enum).1 with message := "Deleting " ++ toString (dbPhase1 fetch senders.length (⟨0, "Collecting emails to delete...", false, none, 0, senders.length, 0⟩ : DeleteBulkStatus) senders.enum).2.2.1.length ++ " emails..." } : DeleteBulkStatus) 0 (chunksOf 1000 (dbPhase1 fetch senders.length (⟨0, "Collecting emails to delete...", false, none, 0, senders.length, 0⟩ : DeleteBulkStatus) senders.enum).2.2.1)).1 with progress := 100 } : DeleteBulkStatus) with done := true } : DeleteBulkStatus) with deleted_count := (dbPhase2 mutate (dbPhase1 fetch senders.length (⟨0, "Collecting emails to delete...", false, none, 0, senders.length, 0⟩ : DeleteBulkStatus) senders.enum).2.2.1.length ({ (dbPhase1 fetch senders.length (⟨0, "Collecting emails to delete...", false, none, 0, senders.length, 0⟩ : DeleteBulkStatus) senders.enum).1 with message := "Deleting " ++ toString (dbPhase1 fetch senders.length (⟨0, "Collecting emails to delete...", false, none, 0, senders.length, 0⟩ : DeleteBulkStatus) senders.enum).2.2.1.length ++ " emails..." } : DeleteBulkStatus) 0 (chunksOf 1000 (dbPhase1 fetch senders.length (⟨0, "Collecting emails to delete...", false, none, 0, senders.length, 0⟩ : DeleteBulkStatus) senders.enum).2.2.1)).2.2.1 } : DeleteBulkStatus) :=
          getLast?_append_some _ (by
            rw [List.getLast?_cons_cons, List.getLast?_cons_cons,
              List.getLast?_singleton])
        have hp2f100 : (dbPhase2 mutate (dbPhase1 fetch senders.length (⟨0, "Collecting emails to delete...", false, none, 0, senders.length, 0⟩ : DeleteBulkStatus) senders.enum).2.2.1.length ({ (dbPhase1 fetch senders.length (⟨0, "Collecting emails to delete...", false, none, 0, senders.length, 0⟩ : DeleteBulkStatus) senders.enum).1 with message := "Deleting " ++ toString (dbPhase1 fetch senders.length (⟨0, "Collecting emails to delete...", false, none, 0, senders.length, 0⟩ : DeleteBulkStatus) senders.enum).2.2.1.length ++ " emails..." } : DeleteBulkStatus) 0 (chunksOf 1000 (dbPhase1 fetch senders.length (⟨0, "Collecting emails to delete...", false, none, 0, senders.length, 0⟩ : DeleteBulkStatus) senders.enum).2.2.1)).1.progress ≤ 100 :=
          (hp2.2.1 _ (mem_of_getLast?_eq hp2.2.2)).1
        have hp2fdone : (dbPhase2 mutate (dbPhase1 fetch senders.length (⟨0, "Collecting emails to delete...", false, none, 0, senders.length, 0⟩ : DeleteBulkStatus) senders.enum).2.2.1.length ({ (dbPhase1 fetch senders.length (⟨0, "Collecting emails to delete...", false, none, 0, senders.length, 0⟩ : DeleteBulkStatus) senders.enum).1 with message := "Deleting " ++ toString (dbPhase1 fetch senders.length (⟨0, "Collecting emails to delete...", false, none, 0, senders.length, 0⟩ : DeleteBulkStatus) senders.enum).2.2.1.length ++ " emails..." } : DeleteBulkStatus) 0 (chunksOf 1000 (dbPhase1 fetch senders.length (⟨0, "Collecting emails to delete...", false, none, 0, senders.length, 0⟩ : DeleteBulkStatus) senders.enum).2.2.1)).1.done = false := by
          rw [(hp2.2.1 _ (mem_of_getLast?_eq hp2.2.2)).2]
          exact hp1fdone
        refine ⟨?_, ?_, ?_⟩
        · refine List.Chain'.append ?_ ?_ ?_
          · refine List.Chain'.append ?_ ?_ ?_
            · refine List.Chain'.append ?_ ?_ ?_
              · refine List.Chain'.append ?_ ?_ ?_
                · exact List.chain'_cons.mpr ⟨le_refl _,
                    List.chain'_cons.mpr ⟨le_refl _, hp1.1⟩⟩
                · exact List.chain'_singleton _
                · intro x hx y hy
                  have hx2 : x ∈ ((⟨0, "Ready", false, none, 0, 0, 0⟩ : DeleteBulkStatus) :: (⟨0, "Ready", false, none, 0, senders.length, 0⟩ : DeleteBulkStatus) :: (⟨0, "Collecting emails to delete...", false, none, 0, senders.length, 0⟩ : DeleteBulkStatus) :: (dbPhase1 fetch senders.length (⟨0, "Collecting emails to delete...", false, none, 0, senders.length, 0⟩ : DeleteBulkStatus) senders.enum).2.1).getLast? := hx
                  rw [hglA] at hx2
                  have hxe : x = (dbPhase1 fetch senders.length (⟨0, "Collecting emails to delete...", false, none, 0, senders.length, 0⟩ : DeleteBulkStatus) senders.enum).1 := (by simpa using hx2 : _ = x).symm
                  have hy2 : y ∈ some ({ (dbPhase1 fetch senders.length (⟨0, "Collecting emails to delete...", false, none, 0, senders.length, 0⟩ : DeleteBulkStatus) senders.enum).1 with message := "Deleting " ++ toString (dbPhase1 fetch senders.length (⟨0, "Collecting emails to delete...", false, none, 0, senders.length, 0⟩ : DeleteBulkStatus) senders.enum).2.2.1.length ++ " emails..." } : DeleteBulkStatus) := hy
                  have hye : y = ({ (dbPhase1 fetch senders.length (⟨0, "Collecting emails to delete...", false, none, 0, senders.length, 0⟩ : DeleteBulkStatus) senders.enum).1 with message := "Deleting " ++ toString (dbPhase1 fetch senders.length (⟨0, "Collecting emails to delete...", false, none, 0, senders.length, 0⟩ : DeleteBulkStatus) senders.enum).2.2.1.length ++ " emails..." } : DeleteBulkStatus) := (by simpa using hy2 : _ = y).symm
                  rw [hxe, hye]
              · exact hp2.1.tail
              · intro x hx y hy
                have hx2 : x ∈ (((⟨0, "Ready", false, none, 0, 0, 0⟩ : DeleteBulkStatus) :: (⟨0, "Ready", false, none, 0, senders.length, 0⟩ : DeleteBulkStatus) :: (⟨0, "Collecting emails to delete...", false, none, 0, senders.length, 0⟩ : DeleteBulkStatus) :: (dbPhase1 fetch senders.length (⟨0, "Collecting emails to delete...", false, none, 0, senders.length, 0⟩ : DeleteBulkStatus) senders.enum).2.1) ++ [({ (dbPhase1 fetch senders.length (⟨0, "Collecting emails to delete...", false, none, 0, senders.length, 0⟩ : DeleteBulkStatus) senders.enum).1 with message := "Deleting " ++ toString (dbPhase1 fetch senders.length (⟨0, "Collecting emails to delete...", false, none, 0, senders.length, 0⟩ : DeleteBulkStatus) senders.enum).2.2.1.length ++ " emails..." } : DeleteBulkStatus)]).getLast? := hx
                rw [hgl2] at hx2
                have hxe : x = ({ (dbPhase1 fetch senders.length (⟨0, "Collecting emails to delete...", false, none, 0, senders.length, 0⟩ : DeleteBulkStatus) senders.enum).1 with message := "Deleting " ++ toString (dbPhase1 fetch senders.length (⟨0, "Collecting emails to delete...", false, none, 0, senders.length, 0⟩ : DeleteBulkStatus) senders.enum).2.2.1.length ++ " emails..." } : DeleteBulkStatus) := (by simpa using hx2 : _ = x).symm
                rw [hxe]
                exact (List.chain'_cons'.mp hp2.1).1 y hy
            · exact List.chain'_cons.mpr ⟨le_refl _,
                List.chain'_cons.mpr ⟨le_refl _, List.chain'_singleton _⟩⟩
            · intro x hx y hy
              have hx2 : x ∈ ((((⟨0, "Ready", false, none, 0, 0, 0⟩ : DeleteBulkStatus) :: (⟨0, "Ready", false, none, 0, senders.length, 0⟩ : DeleteBulkStatus) :: (⟨0, "Collecting emails to delete...", false, none, 0, senders.length, 0⟩ : DeleteBulkStatus) :: (dbPhase1 fetch senders.length (⟨0, "Collecting emails to delete...", false, none, 0, senders.length, 0⟩ : DeleteBulkStatus) senders.enum).2.1) ++ [({ (dbPhase1 fetch senders.length (⟨0, "Collecting emails to delete...", false, none, 0, senders.length, 0⟩ : DeleteBulkStatus) senders.enum).1 with message := "Deleting " ++ toString (dbPhase1 fetch senders.length (⟨0, "Collecting emails to delete...", false, none, 0, senders.length, 0⟩ : DeleteBulkStatus) senders.enum).2.2.1.length ++ " emails..." } : DeleteBulkStatus)]) ++ (dbPhase2 mutate (dbPhase1 fetch senders.length (⟨0, "Collecting emails to delete...", false, none, 0, senders.length, 0⟩ : DeleteBulkStatus) senders.enum).2.2.1.length ({ (dbPhase1 fetch senders.length (⟨0, "Collecting emails to delete...", false, none, 0, senders.length, 0⟩ : DeleteBulkStatus) senders.enum).1 with message := "Deleting " ++ toString (dbPhase1 fetch senders.length (⟨0, "Collecting emails to delete...", false, none, 0, senders.length, 0⟩ : DeleteBulkStatus) senders.enum).2.2.1.length ++ " emails..." } : DeleteBulkStatus) 0 (chunksOf 1000 (dbPhase1 fetch senders.length (⟨0, "Collecting emails to delete...", false, none, 0, senders.length, 0⟩ : DeleteBulkStatus) senders.enum).2.2.1)).2.1).getLast? := hx
              rw [hgl3] at hx2
              have hxe : x = (dbPhase2 mutate (dbPhase1 fetch senders.length (⟨0, "Collecting emails to delete...", false, none, 0, senders.length, 0⟩ : DeleteBulkStatus) senders.enum).2.2.1.length ({ (dbPhase1 fetch senders.length (⟨0, "Collecting emails to delete...", false, none, 0, senders.length, 0⟩ : DeleteBulkStatus) senders.enum).1 with message := "Deleting " ++ toString (dbPhase1 fetch senders.length (⟨0, "Collecting emails to delete...", false, none, 0, senders.length, 0⟩ : DeleteBulkStatus) senders.enum).2.2.1.length ++ " emails..." } : DeleteBulkStatus) 0 (chunksOf 1000 (dbPhase1 fetch senders.length (⟨0, "Collecting emails to delete...", false, none, 0, senders.length, 0⟩ : DeleteBulkStatus) senders.enum).2.2.1)).1 := (by simpa using hx2 : _ = x).symm
              have hy2 : y ∈ some ({ (dbPhase2 mutate (dbPhase1 fetch senders.length (⟨0, "Collecting emails to delete...", false, none, 0, senders.length, 0⟩ : DeleteBulkStatus) senders.enum).2.2.1.length ({ (dbPhase1 fetch senders.length (⟨0, "Collecting emails to delete...", false, none, 0, senders.length, 0⟩ : DeleteBulkStatus) senders.enum).1 with message := "Deleting " ++ toString (dbPhase1 fetch senders.length (⟨0, "Collecting emails to delete...", false, none, 0, senders.length, 0⟩ : DeleteBulkStatus) senders.enum).2.2.1.length ++ " emails..." } : DeleteBulkStatus) 0 (chunksOf 1000 (dbPhase1 fetch senders.length (⟨0, "Collecting emails to delete...", false, none, 0, senders.length, 0⟩ : DeleteBulkStatus) senders.enum).2.2.1)).1 with progress := 100 } : DeleteBulkStatus) := hy
              have hye : y = ({ (dbPhase2 mutate (dbPhase1 fetch senders.length (⟨0, "Collecting emails to delete...", false, none, 0, senders.length, 0⟩ : DeleteBulkStatus) senders.enum).2.2.1.length ({ (dbPhase1 fetch senders.length (⟨0, "Collecting emails to delete...", false, none, 0, senders.length, 0⟩ : DeleteBulkStatus) senders.enum).1 with message := "Deleting " ++ toString (dbPhase1 fetch senders.length (⟨0, "Collecting emails to delete...", false, none, 0, senders.length, 0⟩ : DeleteBulkStatus) senders.enum).2.2.1.length ++ " emails..." } : DeleteBulkStatus) 0 (chunksOf 1000 (dbPhase1 fetch senders.length (⟨0, "Collecting emails to delete...", false, none, 0, senders.length, 0⟩ : DeleteBulkStatus) senders.enum).2.2.1)).1 with progress := 100 } : DeleteBulkStatus) := (by simpa using hy2 : _ = y).symm
              rw [hxe, hye]
              exact hp2f100
          · exact List.chain'_singleton _
          · intro x hx y hy
            have hx2 : x ∈ (((((⟨0, "Ready", false, none, 0, 0, 0⟩ : DeleteBulkStatus) :: (⟨0, "Ready", false, none, 0, senders.length, 0⟩ : DeleteBulkStatus) :: (⟨0, "Collecting emails to delete...", false, none, 0, senders.length, 0⟩ : DeleteBulkStatus) :: (dbPhase1 fetch senders.length (⟨0, "Collecting emails to delete...", false, none, 0, senders.length, 0⟩ : DeleteBulkStatus) senders.enum).2.1) ++ [({ (dbPhase1 fetch senders.length (⟨0, "Collecting emails to delete...", false, none, 0, senders.length, 0⟩ : DeleteBulkStatus) senders.enum).1 with message := "Deleting " ++ toString (dbPhase1 fetch senders.length (⟨0, "Collecting emails to delete...", false, none, 0, senders.length, 0⟩ : DeleteBulkStatus) senders.enum).2.2.1.length ++ " emails..." } : DeleteBulkStatus)]) ++ (dbPhase2 mutate (dbPhase1 fetch senders.length (⟨0, "Collecting emails to delete...", false, none, 0, senders.length, 0⟩ : DeleteBulkStatus) senders.enum).2.2.1.length ({ (dbPhase1 fetch senders.length (⟨0, "Collecting emails to delete...", false, none, 0, senders.length, 0⟩ : DeleteBulkStatus) senders.enum).1 with message := "Deleting " ++ toString (dbPhase1 fetch senders.length (⟨0, "Collecting emails to delete...", false, none, 0, senders.length, 0⟩ : DeleteBulkStatus) senders.enum).2.2.1.length ++ " emails..." } : DeleteBulkStatus) 0 (chunksOf 1000 (dbPhase1 fetch senders.length (⟨0, "Collecting emails to delete...", false, none, 0, senders.length, 0⟩ : DeleteBulkStatus) senders.enum).2.2.1)).2.1) ++ [({ (dbPhase2 mutate (dbPhase1 fetch senders.length (⟨0, "Collecting emails to delete...", false, none, 0, senders.length, 0⟩ : DeleteBulkStatus) senders.enum).2.2.1.length ({ (dbPhase1 fetch senders.length (⟨0, "Collecting emails to delete...", false, none, 0, senders.length, 0⟩ : DeleteBulkStatus) senders.enum).1 with message := "Deleting " ++ toString (dbPhase1 fetch senders.length (⟨0, "Collecting emails to delete...", false, none, 0, senders.length, 0⟩ : DeleteBulkStatus) senders.enum).2.2.1.length ++ " emails..." } : DeleteBulkStatus) 0 (chunksOf 1000 (dbPhase1 fetch senders.length (⟨0, "Collecting emails to delete...", false, none, 0, senders.length, 0⟩ : DeleteBulkStatus) senders.enum).2.2.1)).1 with progress := 100 } : DeleteBulkStatus), ({ ({ (dbPhase2 mutate (dbPhase1 fetch senders.length (⟨0, "Collecting emails to delete...", false, none, 0, senders.length, 0⟩ : DeleteBulkStatus) senders.enum).2.2.1.length ({ (dbPhase1 fetch senders.length (⟨0, "Collecting emails to delete...", false, none, 0, senders.length, 0⟩ : DeleteBulkStatus) senders.enum).1 with message := "Deleting " ++ toString (dbPhase1 fetch senders.length (⟨0, "Collecting emails to delete...", false, none, 0, senders.length, 0⟩ : DeleteBulkStatus) senders.enum).2.2.1.length ++ " emails..." } : DeleteBulkStatus) 0 (chunksOf 1000 (dbPhase1 fetch senders.length (⟨0, "Collecting emails to delete...", false, none, 0, senders.length, 0⟩ : DeleteBulkStatus) senders.enum).2.2.1)).1 with progress := 100 } : DeleteBulkStatus) with done := true } : DeleteBulkStatus), ({ ({ ({ (dbPhase2 mutate (dbPhase1 fetch senders.length (⟨0, "Collecting emails to delete...", false, none, 0, senders.length, 0⟩ : DeleteBulkStatus) senders.enum).2.2.1.length ({ (dbPhase1 fetch senders.length (⟨0, "Collecting emails to delete...", false, none, 0, senders.length, 0⟩ : DeleteBulkStatus) senders.enum).1 with message := "Deleting " ++ toString (dbPhase1 fetch senders.length (⟨0, "Collecting emails to delete...", false, none, 0, senders.length, 0⟩ : DeleteBulkStatus) senders.enum).2.2.1.length ++ " emails..." } : DeleteBulkStatus) 0 (chunksOf 1000 (dbPhase1 fetch senders.length (⟨0, "Collecting emails to delete...", false, none, 0, senders.length, 0⟩ : DeleteBulkStatus) senders.enum).2.2.1)).1 with progress := 100 } : DeleteBulkStatus) with done := true } : DeleteBulkStatus) with deleted_count := (dbPhase2 mutate (dbPhase1 fetch senders.length (⟨0, "Collecting emails to delete...", false, none, 0, senders.length, 0⟩ : DeleteBulkStatus) senders.enum).2.2.1.length ({ (dbPhase1 fetch senders.length (⟨0, "Collecting emails to delete...", false, none, 0, senders.length, 0⟩ : DeleteBulkStatus) senders.enum).1 with message := "Deleting " ++ toString (dbPhase1 fetch senders.length (⟨0, "Collecting emails to delete...", false, none, 0, senders.length, 0⟩ : DeleteBulkStatus) senders.enum).2.2.1.length ++ " emails..." } : DeleteBulkStatus) 0 (chunksOf 1000 (dbPhase1 fetch senders.length (⟨0, "Collecting emails to delete...", false, none, 0, senders.length, 0⟩ : DeleteBulkStatus) senders.enum).2.2.1)).2.2.1 } : DeleteBulkStatus)]).getLast? := hx
            rw [hgl4] at hx2
            have hxe : x = ({ ({ ({ (dbPhase2 mutate (dbPhase1 fetch senders.length (⟨0, "Collecting emails to delete...", false, none, 0, senders.length, 0⟩ : DeleteBulkStatus) senders.enum).2.2.1.length ({ (dbPhase1 fetch senders.length (⟨0, "Collecting emails to delete...", false, none, 0, senders.length, 0⟩ : DeleteBulkStatus) senders.enum).1 with message := "Deleting " ++ toString (dbPhase1 fetch senders.length (⟨0, "Collecting emails to delete...", false, none, 0, senders.length, 0⟩ : DeleteBulkStatus) senders.enum).2.2.1.length ++ " emails..." } : DeleteBulkStatus) 0 (chunksOf 1000 (dbPhase1 fetch senders.length (⟨0, "Collecting emails to delete...", false, none, 0, senders.length, 0⟩ : DeleteBulkStatus) senders.enum).2.2.1)).1 with progress := 100 } : DeleteBulkStatus) with done := true } : DeleteBulkStatus) with deleted_count := (dbPhase2 mutate (dbPhase1 fetch senders.length (⟨0, "Collecting emails to delete...", false, none, 0, senders.length, 0⟩ : DeleteBulkStatus) senders.enum).2.2.1.length ({ (dbPhase1 fetch senders.length (⟨0, "Collecting emails to delete...", false, none, 0, senders.length, 0⟩ : DeleteBulkStatus) senders.enum).1 with message := "Deleting " ++ toString (dbPhase1 fetch senders.length (⟨0, "Collecting emails to delete...", false, none, 0, senders.length, 0⟩ : DeleteBulkStatus) senders.enum).2.2.1.length ++ " emails..." } : DeleteBulkStatus) 0 (chunksOf 1000 (dbPhase1 fetch senders.length (⟨0, "Collecting emails to delete...", false, none, 0, senders.length, 0⟩ : DeleteBulkStatus) senders.enum).2.2.1)).2.2.1 } : DeleteBulkStatus) := (by simpa using hx2 : _ = x).symm
            have hy2 : y ∈ some ({ ({ ({ ({ (dbPhase2 mutate (dbPhase1 fetch senders.length (⟨0, "Collecting emails to delete...", false, none, 0, senders.length, 0⟩ : DeleteBulkStatus) senders.enum).2.2.1.length ({ (dbPhase1 fetch senders.length (⟨0, "Collecting emails to delete...", false, none, 0, senders.length, 0⟩ : DeleteBulkStatus) senders.enum).1 with message := "Deleting " ++ toString (dbPhase1 fetch senders.length (⟨0, "Collecting emails to delete...", false, none, 0, senders.length, 0⟩ : DeleteBulkStatus) senders.enum).2.2.1.length ++ " emails..." } : DeleteBulkStatus) 0 (chunksOf 1000 (dbPhase1 fetch senders.length (⟨0, "Collecting emails to delete...", false, none, 0, senders.length, 0⟩ : DeleteBulkStatus) senders.enum).2.2.1)).1 with progress := 100 } : DeleteBulkStatus) with done := true } : DeleteBulkStatus) with deleted_count := (dbPhase2 mutate (dbPhase1 fetch senders.length (⟨0, "Collecting emails to delete...", false, none, 0, senders.length, 0⟩ : DeleteBulkStatus) senders.enum).2.2.1.length ({ (dbPhase1 fetch senders.length (⟨0, "Collecting emails to delete...", false, none, 0, senders.length, 0⟩ : DeleteBulkStatus) senders.enum).1 with message := "Deleting " ++ toString (dbPhase1 fetch senders.length (⟨0, "Collecting emails to delete...", false, none, 0, senders.length, 0⟩ : DeleteBulkStatus) senders.enum).2.2.1.length ++ " emails..." } : DeleteBulkStatus) 0 (chunksOf 1000 (dbPhase1 fetch senders.length (⟨0, "Collecting emails to delete...", false, none, 0, senders.length, 0⟩ : DeleteBulkStatus) senders.enum).2.2.1)).2.2.1 } : DeleteBulkStatus) with message := "Successfully deleted " ++ toString (dbPhase2 mutate (dbPhase1 fetch senders.length (⟨0, "Collecting emails to delete...", false, none, 0, senders.length, 0⟩ : DeleteBulkStatus) senders.enum).2.2.1.length ({ (dbPhase1 fetch senders.length (⟨0, "Collecting emails to delete...", false, none, 0, senders.length, 0⟩ : DeleteBulkStatus) senders.enum).1 with message := "Deleting " ++ toString (dbPhase1 fetch senders.length (⟨0, "Collecting emails to delete...", false, none, 0, senders.length, 0⟩ : DeleteBulkStatus) senders.enum).2.2.1.length ++ " emails..." } : DeleteBulkStatus) 0 (chunksOf 1000 (dbPhase1 fetch senders.length (⟨0, "Collecting emails to delete...", false, none, 0, senders.length, 0⟩ : DeleteBulkStatus) senders.enum).2.2.1)).2.2.1 ++ " emails" } : DeleteBulkStatus) := hy
            have hye : y = ({ ({ ({ ({ (dbPhase2 mutate (dbPhase1 fetch senders.length (⟨0, "Collecting emails to delete...", false, none, 0, senders.length, 0⟩ : DeleteBulkStatus) senders.enum).2.2.1.length ({ (dbPhase1 fetch senders.length (⟨0, "Collecting emails to delete...", false, none, 0, senders.length, 0⟩ : DeleteBulkStatus) senders.enum).1 with message := "Deleting " ++ toString (dbPhase1 fetch senders.length (⟨0, "Collecting emails to delete...", false, none, 0, senders.length, 0⟩ : DeleteBulkStatus) senders.enum).2.2.1.length ++ " emails..." } : DeleteBulkStatus) 0 (chunksOf 1000 (dbPhase1 fetch senders.length (⟨0, "Collecting emails to delete...", false, none, 0, senders.length, 0⟩ : DeleteBulkStatus) senders.enum).2.2.1)).1 with progress := 100 } : DeleteBulkStatus) with done := true } : DeleteBulkStatus) with deleted_count := (dbPhase2 mutate (dbPhase1 fetch senders.length (⟨0, "Collecting emails to delete...", false, none, 0, senders.length, 0⟩ : DeleteBulkStatus) senders.enum).2.2.1.length ({ (dbPhase1 fetch senders.length (⟨0, "Collecting emails to delete...", false, none, 0, senders.length, 0⟩ : DeleteBulkStatus) senders.enum).1 with message := "Deleting " ++ toString (dbPhase1 fetch senders.length (⟨0, "Collecting emails to delete...", false, none, 0, senders.length, 0⟩ : DeleteBulkStatus) senders.enum).2.2.1.length ++ " emails..." } : DeleteBulkStatus) 0 (chunksOf 1000 (dbPhase1 fetch senders.length (⟨0, "Collecting emails to delete...", false, none, 0, senders.length, 0⟩ : DeleteBulkStatus) senders.enum).2.2.1)).2.2.1 } : DeleteBulkStatus) with message := "Successfully deleted " ++ toString (dbPhase2 mutate (dbPhase1 fetch senders.length (⟨0, "Collecting emails to delete...", false, none, 0, senders.length, 0⟩ : DeleteBulkStatus) senders.enum).2.2.1.length ({ (dbPhase1 fetch senders.length (⟨0, "Collecting emails to delete...", false, none, 0, senders.length, 0⟩ : DeleteBulkStatus) senders.enum).1 with message := "Deleting " ++ toString (dbPhase1 fetch senders.length (⟨0, "Collecting emails to delete...", false, none, 0, senders.length, 0⟩ : DeleteBulkStatus) senders.enum).2.2.1.length ++ " emails..." } : DeleteBulkStatus) 0 (chunksOf 1000 (dbPhase1 fetch senders.length (⟨0, "Collecting emails to delete...", false, none, 0, senders.length, 0⟩ : DeleteBulkStatus) senders.enum).2.2.1)).2.2.1 ++ " emails" } : DeleteBulkStatus) := (by simpa using hy2 : _ = y).symm
            rw [hxe, hye]
        · refine List.Chain'.append ?_ ?_ ?_
          · refine List.Chain'.append ?_ ?_ ?_
            · refine List.Chain'.append ?_ ?_ ?_
              · refine List.Chain'.append ?_ ?_ ?_
                · exact chain'_done_of_false _ _ hAfalse
                · exact List.chain'_singleton _
                · intro x hx y hy h
                  have hx2 : x ∈ ((⟨0, "Ready", false, none, 0, 0, 0⟩ : DeleteBulkStatus) :: (⟨0, "Ready", false, none, 0, senders.length, 0⟩ : DeleteBulkStatus) :: (⟨0, "Collecting emails to delete...", false, none, 0, senders.length, 0⟩ : DeleteBulkStatus) :: (dbPhase1 fetch senders.length (⟨0, "Collecting emails to delete...", false, none, 0, senders.length, 0⟩ : DeleteBulkStatus) senders.enum).2.1).getLast? := hx
                  rw [hglA] at hx2
                  have hxe : x = (dbPhase1 fetch senders.length (⟨0, "Collecting emails to delete...", false, none, 0, senders.length, 0⟩ : DeleteBulkStatus) senders.enum).1 := (by simpa using hx2 : _ = x).symm
                  rw [hxe] at h
                  rw [hp1fdone] at h
                  exact Bool.noConfusion h
              · refine chain'_done_of_false _ _ ?_
                intro t ht
                rw [(hp2.2.1 t (List.mem_cons_of_mem _ ht)).2]
                exact hp1fdone
              · intro x hx y hy h
                have hx2 : x ∈ (((⟨0, "Ready", false, none, 0, 0, 0⟩ : DeleteBulkStatus) :: (⟨0, "Ready", false, none, 0, senders.length, 0⟩ : DeleteBulkStatus) :: (⟨0, "Collecting emails to delete...", false, none, 0, senders.length, 0⟩ : DeleteBulkStatus) :: (dbPhase1 fetch senders.length (⟨0, "Collecting emails to delete...", false, none, 0, senders.length, 0⟩ : DeleteBulkStatus) senders.enum).2.1) ++ [({ (dbPhase1 fetch senders.length (⟨0, "Collecting emails to delete...", false, none, 0, senders.length, 0⟩ : DeleteBulkStatus) senders.enum).1 with message := "Deleting " ++ toString (dbPhase1 fetch senders.length (⟨0, "Collecting emails to delete...", false, none, 0, senders.length, 0⟩ : DeleteBulkStatus) senders.enum).2.2.1.length ++ " emails..." } : DeleteBulkStatus)]).getLast? := hx
                rw [hgl2] at hx2
                have hxe : x = ({ (dbPhase1 fetch senders.length (⟨0, "Collecting emails to delete...", false, none, 0, senders.length, 0⟩ : DeleteBulkStatus) senders.enum).1 with message := "Deleting " ++ toString (dbPhase1 fetch senders.length (⟨0, "Collecting emails to delete...", false, none, 0, senders.length, 0⟩ : DeleteBulkStatus) senders.enum).2.2.1.length ++ " emails..." } : DeleteBulkStatus) := (by simpa using hx2 : _ = x).symm
                rw [hxe] at h
                have h2 : (dbPhase1 fetch senders.length (⟨0, "Collecting emails to delete...", false, none, 0, senders.length, 0⟩ : DeleteBulkStatus) senders.enum).1.done = true := h
                rw [hp1fdone] at h2
                exact Bool.noConfusion h2
            · exact List.chain'_cons.mpr ⟨fun _ => rfl,
                List.chain'_cons.mpr ⟨fun _ => rfl, List.chain'_singleton _⟩⟩
            · intro x hx y hy h
              have hx2 : x ∈ ((((⟨0, "Ready", false, none, 0, 0, 0⟩ : DeleteBulkStatus) :: (⟨0, "Ready", false, none, 0, senders.length, 0⟩ : DeleteBulkStatus) :: (⟨0, "Collecting emails to delete...", false, none, 0, senders.length, 0⟩ : DeleteBulkStatus) :: (dbPhase1 fetch senders.length (⟨0, "Collecting emails to delete...", false, none, 0, senders.length, 0⟩ : DeleteBulkStatus) senders.enum).2.1) ++ [({ (dbPhase1 fetch senders.length (⟨0, "Collecting emails to delete...", false, none, 0, senders.length, 0⟩ : DeleteBulkStatus) senders.enum).1 with message := "Deleting " ++ toString (dbPhase1 fetch senders.length (⟨0, "Collecting emails to delete...", false, none, 0, senders.length, 0⟩ : DeleteBulkStatus) senders.enum).2.2.1.length ++ " emails..." } : DeleteBulkStatus)]) ++ (dbPhase2 mutate (dbPhase1 fetch senders.length (⟨0, "Collecting emails to delete...", false, none, 0, senders.length, 0⟩ : DeleteBulkStatus) senders.enum).2.2.1.length ({ (dbPhase1 fetch senders.length (⟨0, "Collecting emails to delete...", false, none, 0, senders.length, 0⟩ : DeleteBulkStatus) senders.enum).1 with message := "Deleting " ++ toString (dbPhase1 fetch senders.length (⟨0, "Collecting emails to delete...", false, none, 0, senders.length, 0⟩ : DeleteBulkStatus) senders.enum).2.2.1.length ++ " emails..." } : DeleteBulkStatus) 0 (chunksOf 1000 (dbPhase1 fetch senders.length (⟨0, "Collecting emails to delete...", false, none, 0, senders.length, 0⟩ : DeleteBulkStatus) senders.enum).2.2.1)).2.1).getLast? := hx
              rw [hgl3] at hx2
              have hxe : x = (dbPhase2 mutate (dbPhase1 fetch senders.length (⟨0, "Collecting emails to delete...", false, none, 0, senders.length, 0⟩ : DeleteBulkStatus) senders.enum).2.2.1.length ({ (dbPhase1 fetch senders.length (⟨0, "Collecting emails to delete...", false, none, 0, senders.length, 0⟩ : DeleteBulkStatus) senders.enum).1 with message := "Deleting " ++ toString (dbPhase1 fetch senders.length (⟨0, "Collecting emails to delete...", false, none, 0, senders.length, 0⟩ : DeleteBulkStatus) senders.enum).2.2.1.length ++ " emails..." } : DeleteBulkStatus) 0 (chunksOf 1000 (dbPhase1 fetch senders.length (⟨0, "Collecting emails to delete...", false, none, 0, senders.length, 0⟩ : DeleteBulkStatus) senders.enum).2.2.1)).1 := (by simpa using hx2 : _ = x).symm
              rw [hxe] at h
              rw [hp2fdone] at h
              exact Bool.noConfusion h
          · exact List.chain'_singleton _
          · intro x hx y hy h
            have hy2 : y ∈ some ({ ({ ({ ({ (dbPhase2 mutate (dbPhase1 fetch senders.length (⟨0, "Collecting emails to delete...", false, none, 0, senders.length, 0⟩ : DeleteBulkStatus) senders.enum).2.2.1.length ({ (dbPhase1 fetch senders.length (⟨0, "Collecting emails to delete...", false, none, 0, senders.length, 0⟩ : DeleteBulkStatus) senders.enum).1 with message := "Deleting " ++ toString (dbPhase1 fetch senders.length (⟨0, "Collecting emails to delete...", false, none, 0, senders.length, 0⟩ : DeleteBulkStatus) senders.enum).2.2.1.length ++ " emails..." } : DeleteBulkStatus) 0 (chunksOf 1000 (dbPhase1 fetch senders.length (⟨0, "Collecting emails to delete...", false, none, 0, senders.length, 0⟩ : DeleteBulkStatus) senders.enum).2.2.1)).1 with progress := 100 } : DeleteBulkStatus) with done := true } : DeleteBulkStatus) with deleted_count := (dbPhase2 mutate (dbPhase1 fetch senders.length (⟨0, "Collecting emails to delete...", false, none, 0, senders.length, 0⟩ : DeleteBulkStatus) senders.enum).2.2.1.length ({ (dbPhase1 fetch senders.length (⟨0, "Collecting emails to delete...", false, none, 0, senders.length, 0⟩ : DeleteBulkStatus) senders.enum).1 with message := "Deleting " ++ toString (dbPhase1 fetch senders.length (⟨0, "Collecting emails to delete...", false, none, 0, senders.length, 0⟩ : DeleteBulkStatus) senders.enum).2.2.1.length ++ " emails..." } : DeleteBulkStatus) 0 (chunksOf 1000 (dbPhase1 fetch senders.length (⟨0, "Collecting emails to delete...", false, none, 0, senders.length, 0⟩ : DeleteBulkStatus) senders.enum).2.2.1)).2.2.1 } : DeleteBulkStatus) with message := "Successfully deleted " ++ toString (dbPhase2 mutate (dbPhase1 fetch senders.length (⟨0, "Collecting emails to delete...", false, none, 0, senders.length, 0⟩ : DeleteBulkStatus) senders.enum).2.2.1.length ({ (dbPhase1 fetch senders.length (⟨0, "Collecting emails to delete...", false, none, 0, senders.length, 0⟩ : DeleteBulkStatus) senders.enum).1 with message := "Deleting " ++ toString (dbPhase1 fetch senders.length (⟨0, "Collecting emails to delete...", false, none, 0, senders.length, 0⟩ : DeleteBulkStatus) senders.enum).2.2.1.length ++ " emails..." } : DeleteBulkStatus) 0 (chunksOf 1000 (dbPhase1 fetch senders.length (⟨0, "Collecting emails to delete...", false, none, 0, senders.length, 0⟩ : DeleteBulkStatus) senders.enum).2.2.1)).2.2.1 ++ " emails" } : DeleteBulkStatus) := hy
            have hye : y = ({ ({ ({ ({ (dbPhase2 mutate (dbPhase1 fetch senders.length (⟨0, "Collecting emails to delete...", false, none, 0, senders.length, 0⟩ : DeleteBulkStatus) senders.enum).2.2.1.length ({ (dbPhase1 fetch senders.length (⟨0, "Collecting emails to delete...", false, none, 0, senders.length, 0⟩ : DeleteBulkStatus) senders.enum).1 with message := "Deleting " ++ toString (dbPhase1 fetch senders.length (⟨0, "Collecting emails to delete...", false, none, 0, senders.length, 0⟩ : DeleteBulkStatus) senders.enum).2.2.1.length ++ " emails..." } : DeleteBulkStatus) 0 (chunksOf 1000 (dbPhase1 fetch senders.length (⟨0, "Collecting emails to delete...", false, none, 0, senders.length, 0⟩ : DeleteBulkStatus) senders.enum).2.2.1)).1 with progress := 100 } : DeleteBulkStatus) with done := true } : DeleteBulkStatus) with deleted_count := (dbPhase2 mutate (dbPhase1 fetch senders.length (⟨0, "Collecting emails to delete...", false, none, 0, senders.length, 0⟩ : DeleteBulkStatus) senders.enum).2.2.1.length ({ (dbPhase1 fetch senders.length (⟨0, "Collecting emails to delete...", false, none, 0, senders.length, 0⟩ : DeleteBulkStatus) senders.enum).1 with message := "Deleting " ++ toString (dbPhase1 fetch senders.length (⟨0, "Collecting emails to delete...", false, none, 0, senders.length, 0⟩ : DeleteBulkStatus) senders.enum).2.2.1.length ++ " emails..." } : DeleteBulkStatus) 0 (chunksOf 1000 (dbPhase1 fetch senders.length (⟨0, "Collecting emails to delete...", false, none, 0, senders.length, 0⟩ : DeleteBulkStatus) senders.enum).2.2.1)).2.2.1 } : DeleteBulkStatus) with message := "Successfully deleted " ++ toString (dbPhase2 mutate (dbPhase1 fetch senders.length (⟨0, "Collecting emails to delete...", false, none, 0, senders.length, 0⟩ : DeleteBulkStatus) senders.enum).2.2.1.length ({ (dbPhase1 fetch senders.length (⟨0, "Collecting emails to delete...", false, none, 0, senders.length, 0⟩ : DeleteBulkStatus) senders.enum).1 with message := "Deleting " ++ toString (dbPhase1 fetch senders.length (⟨0, "Collecting emails to delete...", false, none, 0, senders.length, 0⟩ : DeleteBulkStatus) senders.enum).2.2.1.length ++ " emails..." } : DeleteBulkStatus) 0 (chunksOf 1000 (dbPhase1 fetch senders.length (⟨0, "Collecting emails to delete...", false, none, 0, senders.length, 0⟩ : DeleteBulkStatus) senders.enum).2.2.1)).2.2.1 ++ " emails" } : DeleteBulkStatus) := (by simpa using hy2 : _ = y).symm
            rw [hye]
        · intro s hs
          rw [List.getLast?_append] at hs
          rw [List.getLast?_singleton] at hs
          have hse : s = ({ ({ ({ ({ (dbPhase2 mutate (dbPhase1 fetch senders.length (⟨0, "Collecting emails to delete...", false, none, 0, senders.length, 0⟩ : DeleteBulkStatus) senders.enum).2.2.1.length ({ (dbPhase1 fetch senders.length (⟨0, "Collecting emails to delete...", false, none, 0, senders.length, 0⟩ : DeleteBulkStatus) senders.enum).1 with message := "Deleting " ++ toString (dbPhase1 fetch senders.length (⟨0, "Collecting emails to delete...", false, none, 0, senders.length, 0⟩ : DeleteBulkStatus) senders.enum).2.2.1.length ++ " emails..." } : DeleteBulkStatus) 0 (chunksOf 1000 (dbPhase1 fetch senders.length (⟨0, "Collecting emails to delete...", false, none, 0, senders.length, 0⟩ : DeleteBulkStatus) senders.enum).2.2.1)).1 with progress := 100 } : DeleteBulkStatus) with done := true } : DeleteBulkStatus) with deleted_count := (dbPhase2 mutate (dbPhase1 fetch senders.length (⟨0, "Collecting emails to delete...", false, none, 0, senders.length, 0⟩ : DeleteBulkStatus) senders.enum).2.2.1.length ({ (dbPhase1 fetch senders.length (⟨0, "Collecting emails to delete...", false, none, 0, senders.length, 0⟩ : DeleteBulkStatus) senders.enum).1 with message := "Deleting " ++ toString (dbPhase1 fetch senders.length (⟨0, "Collecting emails to delete...", false, none, 0, senders.length, 0⟩ : DeleteBulkStatus) senders.enum).2.2.1.length ++ " emails..." } : DeleteBulkStatus) 0 (chunksOf 1000 (dbPhase1 fetch senders.length (⟨0, "Collecting emails to delete...", false, none, 0, senders.length, 0⟩ : DeleteBulkStatus) senders.enum).2.2.1)).2.2.1 } : DeleteBulkStatus) with message := "Successfully deleted " ++ toString (dbPhase2 mutate (dbPhase1 fetch senders.length (⟨0, "Collecting emails to delete...", false, none, 0, senders.length, 0⟩ : DeleteBulkStatus) senders.enum).2.2.1.length ({ (dbPhase1 fetch senders.length (⟨0, "Collecting emails to delete...", false, none, 0, senders.length, 0⟩ : DeleteBulkStatus) senders.enum).1 with message := "Deleting " ++ toString (dbPhase1 fetch senders.length (⟨0, "Collecting emails to delete...", false, none, 0, senders.length, 0⟩ : DeleteBulkStatus) senders.enum).2.2.1.length ++ " emails..." } : DeleteBulkStatus) 0 (chunksOf 1000 (dbPhase1 fetch senders.length (⟨0, "Collecting emails to delete...", false, none, 0, senders.length, 0⟩ : DeleteBulkStatus) senders.enum).2.2.1)).2.2.1 ++ " emails" } : DeleteBulkStatus) := (by simpa using hs : _ = s).symm
          rw [hse]

lemma labelPhase1_spec (fetch : String → Except String (List String))
    (mkQuery : String → String) (n : Nat) :
    ∀ (ps : List (Nat × String)) (s : LabelOpStatus),
      List.Chain' (fun p q : Nat × String => p.1 ≤ q.1) ps →
      (∀ hd ∈ ps.head?, s.progress ≤ hd.1 * 40 / n) →
      (∀ p ∈ ps, p.1 < n) →
      s.progress ≤ 40 →
      List.Chain' (fun a b => a.progress ≤ b.progress)
          (s :: (labelPhase1 fetch mkQuery n s ps).2.1) ∧
      (∀ t ∈ s :: (labelPhase1 fetch mkQuery n s ps).2.1,
          t.progress ≤ 40 ∧ t.done = s.done) ∧
      (s :: (labelPhase1 fetch mkQuery n s ps).2.1).getLast? =
        some (labelPhase1 fetch mkQuery n s ps).1 := by
  intro ps
  induction ps with
  | nil =>
    intro s _ _ _ hs40
    refine ⟨List.chain'_singleton s, ?_, rfl⟩
    intro t ht
    simp only [labelPhase1, List.mem_singleton] at ht
    rw [ht]
    exact ⟨hs40, rfl⟩
  | cons p rest ih =>
    obtain ⟨i, sender⟩ := p
    intro s hchain hhead hidx hs40
    have hin : i < n := hidx (i, sender) (List.mem_cons_self _ _)
    have hsi : s.progress ≤ i * 40 / n := hhead (i, sender) rfl
    have hrest_chain : List.Chain' (fun p q : Nat × String => p.1 ≤ q.1) rest :=
      hchain.tail
    have hrest_head : ∀ hd ∈ rest.head?, i ≤ hd.1 :=
      (List.chain'_cons'.mp hchain).1
    have hrest_idx : ∀ p ∈ rest, p.1 < n :=
      fun p hp => hidx p (List.mem_cons_of_mem _ hp)
    have hle40 : i * 40 / n ≤ 40 := mul40_div_le i n hin
    have hhead3 : ∀ hd ∈ rest.head?,
        (⟨i * 40 / n, "Finding emails from " ++ sender ++ "...", s.done,
          s.error, s.affected_count, s.total_senders, i + 1⟩ :
            LabelOpStatus).progress ≤ hd.1 * 40 / n := by
      intro hd hhd
      exact Nat.div_le_div_right (Nat.mul_le_mul_right 40 (hrest_head hd hhd))
    have ihr := ih (⟨i * 40 / n, "Finding emails from " ++ sender ++ "...",
        s.done, s.error, s.affected_count, s.total_senders, i + 1⟩ :
          LabelOpStatus) hrest_chain hhead3 hrest_idx hle40
    have hmem : ∀ (tr : List LabelOpStatus)
        (htr : ∀ t ∈ tr, t.progress ≤ 40 ∧ t.done = s.done),
        ∀ t ∈ s ::
            (⟨s.progress, s.message, s.done, s.error, s.affected_count,
              s.total_senders, i + 1⟩ : LabelOpStatus) ::
            (⟨i * 40 / n, s.message, s.done, s.error, s.affected_count,
              s.total_senders, i + 1⟩ : LabelOpStatus) ::
            (⟨i * 40 / n, "Finding emails from " ++ sender ++ "...", s.done,
              s.error, s.affected_count, s.total_senders, i + 1⟩ :
                LabelOpStatus) :: tr,
          t.progress ≤ 40 ∧ t.done = s.done := by
      intro tr htr t ht
      rcases List.mem_cons.mp ht with h | ht
      · rw [h]; exact ⟨hs40, rfl⟩
      rcases List.mem_cons.mp ht with h | ht
      · rw [h]; exact ⟨hs40, rfl⟩
      rcases List.mem_cons.mp ht with h | ht
      · rw [h]; exact ⟨hle40, rfl⟩
      rcases List.mem_cons.mp ht with h | ht
      · rw [h]; exact ⟨hle40, rfl⟩
      · exact htr t ht
    cases hfetch : fetch (mkQuery sender) with
    | ok ids =>
      simp only [labelPhase1, hfetch, List.cons_append, List.nil_append]
      refine ⟨?_, ?_, ?_⟩
      · exact List.chain'_cons.mpr ⟨le_refl _, List.chain'_cons.mpr ⟨hsi,
          List.chain'_cons.mpr ⟨le_refl _, ihr.1⟩⟩⟩
      · exact hmem _ (fun t ht => ihr.2.1 t (List.mem_cons_of_mem _ ht))
      · rw [List.getLast?_cons_cons, List.getLast?_cons_cons,
          List.getLast?_cons_cons]
        exact ihr.2.2
    | error e =>
      simp only [labelPhase1, hfetch, List.cons_append, List.nil_append]
      refine ⟨?_, ?_, ?_⟩
      · exact List.chain'_cons.mpr ⟨le_refl _, List.chain'_cons.mpr ⟨hsi,
          List.chain'_cons.mpr ⟨le_refl _, ihr.1⟩⟩⟩
      · exact hmem _ (fun t ht => ihr.2.1 t (List.mem_cons_of_mem _ ht))
      · rw [List.getLast?_cons_cons, List.getLast?_cons_cons,
          List.getLast?_cons_cons]
        exact ihr.2.2

lemma labelPhase2_spec (mutate : BatchModifyBody → Option String)
    (mkBody : List String → BatchModifyBody)
    (mkMsg : Nat → Nat → String) (errPre : String) (total : Nat)
    (ht : 0 < total) :
    ∀ (chunks : List (List String)) (s : LabelOpStatus) (affected : Nat),
      affected + chunks.flatten.length ≤ total →
      s.progress ≤ 40 + affected * 60 / total →
      List.Chain' (fun a b => a.progress ≤ b.progress)
          (s :: (labelPhase2 mutate mkBody mkMsg errPre total s affected
            chunks).2.1) ∧
      (∀ t ∈ s :: (labelPhase2 mutate mkBody mkMsg errPre total s affected
            chunks).2.1,
          t.progress ≤ 100 ∧ t.done = s.done) ∧
      (s :: (labelPhase2 mutate mkBody mkMsg errPre total s affected
          chunks).2.1).getLast? =
        some (labelPhase2 mutate mkBody mkMsg errPre total s affected
          chunks).1 := by
  intro chunks
  induction chunks with
  | nil =>
    intro s affected hsum hsp
    have hdel : affected ≤ total := by
      simp only [List.flatten_nil, List.length_nil, Nat.add_zero] at hsum
      exact hsum
    have hs100 : s.progress ≤ 100 :=
      le_trans hsp (phase2_prog_le affected total hdel ht)
    refine ⟨List.chain'_singleton s, ?_, rfl⟩
    intro t htm
    simp only [labelPhase2, List.mem_singleton] at htm
    rw [htm]
    exact ⟨hs100, rfl⟩
  | cons chunk rest ih =>
    intro s affected hsum hsp
    have hflat : (chunk :: rest).flatten.length =
        chunk.length + rest.flatten.length := by
      simp [List.flatten_cons]
    have hdel : affected ≤ total := by omega
    have hs100 : s.progress ≤ 100 :=
      le_trans hsp (phase2_prog_le affected total hdel ht)
    cases hmut : mutate (mkBody chunk) with
    | some e =>
      simp only [labelPhase2, hmut]
      refine ⟨List.chain'_singleton s, ?_, rfl⟩
      intro t htm
      simp only [List.mem_singleton] at htm
      rw [htm]
      exact ⟨hs100, rfl⟩
    | none =>
      have hd2sum : affected + chunk.length + rest.flatten.length ≤ total := by
        omega
      have hd2le : affected + chunk.length ≤ total := by omega
      have hmono : 40 + affected * 60 / total ≤
          40 + (affected + chunk.length) * 60 / total := by
        have := Nat.div_le_div_right (c := total)
          (Nat.mul_le_mul_right 60 (Nat.le_add_right affected chunk.length))
        omega
      have hsp2 : s.progress ≤ 40 + (affected + chunk.length) * 60 / total :=
        le_trans hsp hmono
      have h100 : 40 + (affected + chunk.length) * 60 / total ≤ 100 :=
        phase2_prog_le _ total hd2le ht
      have ihr := ih (⟨40 + (affected + chunk.length) * 60 / total,
          mkMsg (affected + chunk.length) total,
          s.done, s.error, affected + chunk.length, s.total_senders,
          s.current_sender⟩ : LabelOpStatus)
        (affected + chunk.length) hd2sum (le_refl _)
      simp only [labelPhase2, hmut, List.cons_append, List.nil_append]
      refine ⟨?_, ?_, ?_⟩
      · exact List.chain'_cons.mpr ⟨le_refl _, List.chain'_cons.mpr ⟨hsp2,
          List.chain'_cons.mpr ⟨le_refl _, ihr.1⟩⟩⟩
      · intro t htm
        rcases List.mem_cons.mp htm with h | htm
        · rw [h]; exact ⟨hs100, rfl⟩
        rcases List.mem_cons.mp htm with h | htm
        · rw [h]; exact ⟨hs100, rfl⟩
        rcases List.mem_cons.mp htm with h | htm
        · rw [h]; exact ⟨h100, rfl⟩
        rcases List.mem_cons.mp htm with h | htm
        · rw [h]; exact ⟨h100, rfl⟩
        · exact ihr.2.1 t (List.mem_cons_of_mem _ htm)
      · rw [List.getLast?_cons_cons, List.getLast?_cons_cons,
          List.getLast?_cons_cons]
        exact ihr.2.2


lemma labelJob_trace_good (authErr : Option String)
    (fetch : String → Except String (List String))
    (mutate : BatchModifyBody → Option String)
    (mkQuery : String → String) (mkBody : List String → BatchModifyBody)
    (findingMsg emptyMsg : String) (phase2Msg : Nat → String)
    (chunkMsg : Nat → Nat → String) (errPre : String)
    (withErrsMsg successMsg : Nat → String)
    (labelId : String) (senders : List String) :
    monotoneDoneTrace LabelOpStatus.progress LabelOpStatus.done
      (labelJobTrace authErr fetch mutate mkQuery mkBody findingMsg emptyMsg
        phase2Msg chunkMsg errPre withErrsMsg successMsg labelId senders) := by
  unfold monotoneDoneTrace
  by_cases hlid : labelId = ""
  · simp only [labelJobTrace, if_pos hlid]
    refine ⟨?_, ?_, ?_⟩
    · exact List.chain'_cons.mpr ⟨le_refl _,
        List.chain'_cons.mpr ⟨le_refl _, List.chain'_singleton _⟩⟩
    · exact List.chain'_cons.mpr ⟨fun h => Bool.noConfusion h,
        List.chain'_cons.mpr ⟨fun _ => rfl, List.chain'_singleton _⟩⟩
    · intro s hs
      rw [List.getLast?_cons_cons, List.getLast?_cons_cons,
        List.getLast?_singleton] at hs
      have hse := (by simpa using hs : _ = s).symm
      rw [hse]
  · by_cases hsend : senders = []
    · simp only [labelJobTrace, if_neg hlid, if_pos hsend]
      refine ⟨?_, ?_, ?_⟩
      · exact List.chain'_cons.mpr ⟨le_refl _,
          List.chain'_cons.mpr ⟨le_refl _, List.chain'_singleton _⟩⟩
      · exact List.chain'_cons.mpr ⟨fun h => Bool.noConfusion h,
          List.chain'_cons.mpr ⟨fun _ => rfl, List.chain'_singleton _⟩⟩
      · intro s hs
        rw [List.getLast?_cons_cons, List.getLast?_cons_cons,
          List.getLast?_singleton] at hs
        have hse := (by simpa using hs : _ = s).symm
        rw [hse]
    · cases authErr with
      | some err =>
        simp only [labelJobTrace, if_neg hlid, if_neg hsend]
        refine ⟨?_, ?_, ?_⟩
        · exact List.chain'_cons.mpr ⟨le_refl _,
            List.chain'_cons.mpr ⟨le_refl _, List.chain'_singleton _⟩⟩
        · exact List.chain'_cons.mpr ⟨fun h => Bool.noConfusion h,
            List.chain'_cons.mpr ⟨fun _ => rfl, List.chain'_singleton _⟩⟩
        · intro s hs
          rw [List.getLast?_cons_cons, List.getLast?_cons_cons,
            List.getLast?_singleton] at hs
          have hse := (by simpa using hs : _ = s).symm
          rw [hse]
      | none =>
        simp only [labelJobTrace, if_neg hlid, if_neg hsend]
        have hn : 0 < senders.length := List.length_pos.mpr hsend
        have hp1 := labelPhase1_spec fetch mkQuery senders.length senders.enum
          (⟨0, findingMsg, false, none, 0, senders.length, 0⟩ : LabelOpStatus)
          (enumFrom_chain senders 0) (fun hd _ => Nat.zero_le _)
          (fun p hp => by simpa using enumFrom_lt senders 0 p hp) (Nat.zero_le 40)
        have hAfalse : ∀ t ∈ ((⟨0, "Ready", false, none, 0, 0, 0⟩ : LabelOpStatus) :: (⟨0, "Ready", false, none, 0, senders.length, 0⟩ : LabelOpStatus) :: (⟨0, findingMsg, false, none, 0, senders.length, 0⟩ : LabelOpStatus) :: (labelPhase1 fetch mkQuery senders.length (⟨0, findingMsg, false, none, 0, senders.length, 0⟩ : LabelOpStatus) senders.enum).2.1), t.done = false := by
          intro t ht
          rcases List.mem_cons.mp ht with h | ht
          · rw [h]
          rcases List.mem_cons.mp ht with h | ht
          · rw [h]
          rcases List.mem_cons.mp ht with h | ht
          · rw [h]
          · exact (hp1.2.1 t (List.mem_cons_of_mem _ ht)).2
        have hglA : ((⟨0, "Ready", false, none, 0, 0, 0⟩ : LabelOpStatus) :: (⟨0, "Ready", false, none, 0, senders.length, 0⟩ : LabelOpStatus) :: (⟨0, findingMsg, false, none, 0, senders.length, 0⟩ : LabelOpStatus) :: (labelPhase1 fetch mkQuery senders.length (⟨0, findingMsg, false, none, 0, senders.length, 0⟩ : LabelOpStatus) senders.enum).2.1).getLast? = some (labelPhase1 fetch mkQuery senders.length (⟨0, findingMsg, false, none, 0, senders.length, 0⟩ : LabelOpStatus) senders.enum).1 := by
          rw [List.getLast?_cons_cons, List.getLast?_cons_cons]
          exact hp1.2.2
        have hp1f40 : (labelPhase1 fetch mkQuery senders.length (⟨0, findingMsg, false, none, 0, senders.length, 0⟩ : LabelOpStatus) senders.enum).1.progress ≤ 40 :=
          (hp1.2.1 _ (mem_of_getLast?_eq hp1.2.2)).1
        have hp1fdone : (labelPhase1 fetch mkQuery senders.length (⟨0, findingMsg, false, none, 0, senders.length, 0⟩ : LabelOpStatus) senders.enum).1.done = false :=
          (hp1.2.1 _ (mem_of_getLast?_eq hp1.2.2)).2
        split_ifs with hids herr
        · refine ⟨?_, ?_, ?_⟩
          · refine List.Chain'.append ?_ ?_ ?_
            · exact List.chain'_cons.mpr ⟨le_refl _,
                List.chain'_cons.mpr ⟨le_refl _, hp1.1⟩⟩
            · exact List.chain'_cons.mpr ⟨le_refl _,
                List.chain'_cons.mpr ⟨le_refl _, List.chain'_singleton _⟩⟩
            · intro x hx y hy
              have hx2 : x ∈ ((⟨0, "Ready", false, none, 0, 0, 0⟩ : LabelOpStatus) :: (⟨0, "Ready", false, none, 0, senders.length, 0⟩ : LabelOpStatus) :: (⟨0, findingMsg, false, none, 0, senders.length, 0⟩ : LabelOpStatus) :: (labelPhase1 fetch mkQuery senders.length (⟨0, findingMsg, false, none, 0, senders.length, 0⟩ : LabelOpStatus) senders.enum).2.1).getLast? := hx
              rw [hglA] at hx2
              have hy2 : y ∈ some ({ (labelPhase1 fetch mkQuery senders.length (⟨0, findingMsg, false, none, 0, senders.length, 0⟩ : LabelOpStatus) senders.enum).1 with progress := 100 } : LabelOpStatus) := hy
              have hxe : x = (labelPhase1 fetch mkQuery senders.length (⟨0, findingMsg, false, none, 0, senders.length, 0⟩ : LabelOpStatus) senders.enum).1 := (by simpa using hx2 : _ = x).symm
              have hye : y = ({ (labelPhase1 fetch mkQuery senders.length (⟨0, findingMsg, false, none, 0, senders.length, 0⟩ : LabelOpStatus) senders.enum).1 with progress := 100 } : LabelOpStatus) := (by simpa using hy2 : _ = y).symm
              rw [hxe, hye]
              exact le_trans hp1f40 (show (40:Nat) ≤ 100 by omega)
          · refine List.Chain'.append ?_ ?_ ?_
            · exact chain'_done_of_false _ _ hAfalse
            · exact List.chain'_cons.mpr ⟨fun _ => rfl,
                List.chain'_cons.mpr ⟨fun _ => rfl, List.chain'_singleton _⟩⟩
            · intro x hx y hy h
              have hx2 : x ∈ ((⟨0, "Ready", false, none, 0, 0, 0⟩ : LabelOpStatus) :: (⟨0, "Ready", false, none, 0, senders.length, 0⟩ : LabelOpStatus) :: (⟨0, findingMsg, false, none, 0, senders.length, 0⟩ : LabelOpStatus) :: (labelPhase1 fetch mkQuery senders.length (⟨0, findingMsg, false, none, 0, senders.length, 0⟩ : LabelOpStatus) senders.enum).2.1).getLast? := hx
              rw [hglA] at hx2
              have hxe : x = (labelPhase1 fetch mkQuery senders.length (⟨0, findingMsg, false, none, 0, senders.length, 0⟩ : LabelOpStatus) senders.enum).1 := (by simpa using hx2 : _ = x).symm
              rw [hxe] at h
              rw [hp1fdone] at h
              exact Bool.noConfusion h
          · intro s hs
            rw [List.getLast?_append, List.getLast?_cons_cons,
              List.getLast?_cons_cons, List.getLast?_singleton] at hs
            have hse : s = ({ ({ ({ (labelPhase1 fetch mkQuery senders.length (⟨0, findingMsg, false, none, 0, senders.length, 0⟩ : LabelOpStatus) senders.enum).1 with progress := 100 } : LabelOpStatus) with done := true } : LabelOpStatus) with message := emptyMsg } : LabelOpStatus) := (by simpa using hs : _ = s).symm
            rw [hse]
        · have htpos : 0 < (labelPhase1 fetch mkQuery senders.length (⟨0, findingMsg, false, none, 0, senders.length, 0⟩ : LabelOpStatus) senders.enum).2.2.1.length := List.length_pos.mpr hids
          have hflat : (chunksOf 1000 (labelPhase1 fetch mkQuery senders.length (⟨0, findingMsg, false, none, 0, senders.length, 0⟩ : LabelOpStatus) senders.enum).2.2.1).flatten = (labelPhase1 fetch mkQuery senders.length (⟨0, findingMsg, false, none, 0, senders.length, 0⟩ : LabelOpStatus) senders.enum).2.2.1 :=
            chunksOf_flatten 999 _
          have hsum : 0 + (chunksOf 1000 (labelPhase1 fetch mkQuery senders.length (⟨0, findingMsg, false, none, 0, senders.length, 0⟩ : LabelOpStatus) senders.enum).2.2.1).flatten.length ≤ (labelPhase1 fetch mkQuery senders.length (⟨0, findingMsg, false, none, 0, senders.length, 0⟩ : LabelOpStatus) senders.enum).2.2.1.length := by
            rw [hflat]
            omega
          have hsp : ({ (labelPhase1 fetch mkQuery senders.length (⟨0, findingMsg, false, none, 0, senders.length, 0⟩ : LabelOpStatus) senders.enum).1 with message := phase2Msg (labelPhase1 fetch mkQuery senders.length (⟨0, findingMsg, false, none, 0, senders.length, 0⟩ : LabelOpStatus) senders.enum).2.2.1.length } : LabelOpStatus).progress ≤ 40 + 0 * 60 / (labelPhase1 fetch mkQuery senders.length (⟨0, findingMsg, false, none, 0, senders.length, 0⟩ : LabelOpStatus) senders.enum).2.2.1.length :=
            le_trans hp1f40 (Nat.le_add_right 40 _)
          have hp2 := labelPhase2_spec mutate mkBody chunkMsg errPre
            (labelPhase1 fetch mkQuery senders.length (⟨0, findingMsg, false, none, 0, senders.length, 0⟩ : LabelOpStatus) senders.enum).2.2.1.length htpos (chunksOf 1000 (labelPhase1 fetch mkQuery senders.length (⟨0, findingMsg, false, none, 0, senders.length, 0⟩ : LabelOpStatus) senders.enum).2.2.1) ({ (labelPhase1 fetch mkQuery senders.length (⟨0, findingMsg, false, none, 0, senders.length, 0⟩ : LabelOpStatus) senders.enum).1 with message := phase2Msg (labelPhase1 fetch mkQuery senders.length (⟨0, findingMsg, false, none, 0, senders.length, 0⟩ : LabelOpStatus) senders.enum).2.2.1.length } : LabelOpStatus) 0 hsum hsp
          have hgl2 : (((⟨0, "Ready", false, none, 0, 0, 0⟩ : LabelOpStatus) :: (⟨0, "Ready", false, none, 0, senders.length, 0⟩ : LabelOpStatus) :: (⟨0, findingMsg, false, none, 0, senders.length, 0⟩ : LabelOpStatus) :: (labelPhase1 fetch mkQuery senders.length (⟨0, findingMsg, false, none, 0, senders.length, 0⟩ : LabelOpStatus) senders.enum).2.1) ++ [({ (labelPhase1 fetch mkQuery senders.length (⟨0, findingMsg, false, none, 0, senders.length, 0⟩ : LabelOpStatus) senders.enum).1 with message := phase2Msg (labelPhase1 fetch mkQuery senders.length (⟨0, findingMsg, false, none, 0, senders.length, 0⟩ : LabelOpStatus) senders.enum).2.2.1.length } : LabelOpStatus)]).getLast? = some ({ (labelPhase1 fetch mkQuery senders.length (⟨0, findingMsg, false, none, 0, senders.length, 0⟩ : LabelOpStatus) senders.enum).1 with message := phase2Msg (labelPhase1 fetch mkQuery senders.length (⟨0, findingMsg, false, none, 0, senders.length, 0⟩ : LabelOpStatus) senders.enum).2.2.1.length } : LabelOpStatus) :=
            getLast?_append_some _ (List.getLast?_singleton _)
          have hgl3 : ((((⟨0, "Ready", false, none, 0, 0, 0⟩ : LabelOpStatus) :: (⟨0, "Ready", false, none, 0, senders.length, 0⟩ : LabelOpStatus) :: (⟨0, findingMsg, false, none, 0, senders.length, 0⟩ : LabelOpStatus) :: (labelPhase1 fetch mkQuery senders.length (⟨0, findingMsg, false, none, 0, senders.length, 0⟩ : LabelOpStatus) senders.enum).2.1) ++ [({ (labelPhase1 fetch mkQuery senders.length (⟨0, findingMsg, false, none, 0, senders.length, 0⟩ : LabelOpStatus) senders.enum).1 with message := phase2Msg (labelPhase1 fetch mkQuery senders.length (⟨0, findingMsg, false, none, 0, senders.length, 0⟩ : LabelOpStatus) senders.enum).2.2.1.length } : LabelOpStatus)]) ++ (labelPhase2 mutate mkBody chunkMsg errPre (labelPhase1 fetch mkQuery senders.length (⟨0, findingMsg, false, none, 0, senders.length, 0⟩ : LabelOpStatus) senders.enum).2.2.1.length ({ (labelPhase1 fetch mkQuery senders.length (⟨0, findingMsg, false, none, 0, senders.length, 0⟩ : LabelOpStatus) senders.enum).1 with message := phase2Msg (labelPhase1 fetch mkQuery senders.length (⟨0, findingMsg, false, none, 0, senders.length, 0⟩ : LabelOpStatus) senders.enum).2.2.1.length } : LabelOpStatus) 0 (chunksOf 1000 (labelPhase1 fetch mkQuery senders.length (⟨0, findingMsg, false, none, 0, senders.length, 0⟩ : LabelOpStatus) senders.enum).2.2.1)).2.1).getLast? = some (labelPhase2 mutate mkBody chunkMsg errPre (labelPhase1 fetch mkQuery senders.length (⟨0, findingMsg, false, none, 0, senders.length, 0⟩ : LabelOpStatus) senders.enum).2.2.1.length ({ (labelPhase1 fetch mkQuery senders.length (⟨0, findingMsg, false, none, 0, senders.length, 0⟩ : LabelOpStatus) senders.enum).1 with message := phase2Msg (labelPhase1 fetch mkQuery senders.length (⟨0, findingMsg, false, none, 0, senders.length, 0⟩ : LabelOpStatus) senders.enum).2.2.1.length } : LabelOpStatus) 0 (chunksOf 1000 (labelPhase1 fetch mkQuery senders.length (⟨0, findingMsg, false, none, 0, senders.length, 0⟩ : LabelOpStatus) senders.enum).2.2.1)).1 := by
            rw [List.getLast?_append, hgl2, ← cons_getLast?_or]
            exact hp2.2.2
          have hgl4 : (((((⟨0, "Ready", false, none, 0, 0, 0⟩ : LabelOpStatus) :: (⟨0, "Ready", false, none, 0, senders.length, 0⟩ : LabelOpStatus) :: (⟨0, findingMsg, false, none, 0, senders.length, 0⟩ : LabelOpStatus) :: (labelPhase1 fetch mkQuery senders.length (⟨0, findingMsg, false, none, 0, senders.length, 0⟩ : LabelOpStatus) senders.enum).2.1) ++ [({ (labelPhase1 fetch mkQuery senders.length (⟨0, findingMsg, false, none, 0, senders.length, 0⟩ : LabelOpStatus) senders.enum).1 with message := phase2Msg (labelPhase1 fetch mkQuery senders.length (⟨0, findingMsg, false, none, 0, senders.length, 0⟩ : LabelOpStatus) senders.enum).2.2.1.length } : LabelOpStatus)]) ++ (labelPhase2 mutate mkBody chunkMsg errPre (labelPhase1 fetch mkQuery senders.length (⟨0, findingMsg, false, none, 0, senders.length, 0⟩ : LabelOpStatus) senders.enum).2.2.1.length ({ (labelPhase1 fetch mkQuery senders.length (⟨0, findingMsg, false, none, 0, senders.length, 0⟩ : LabelOpStatus) senders.enum).1 with message := phase2Msg (labelPhase1 fetch mkQuery senders.length (⟨0, findingMsg, false, none, 0, senders.length, 0⟩ : LabelOpStatus) senders.enum).2.2.1.length } : LabelOpStatus) 0 (chunksOf 1000 (labelPhase1 fetch mkQuery senders.length (⟨0, findingMsg, false, none, 0, senders.length, 0⟩ : LabelOpStatus) senders.enum).2.2.1)).2.1) ++ [({ (labelPhase2 mutate mkBody chunkMsg errPre (labelPhase1 fetch mkQuery senders.length (⟨0, findingMsg, false, none, 0, senders.length, 0⟩ : LabelOpStatus) senders.enum).2.2.1.length ({ (labelPhase1 fetch mkQuery senders.length (⟨0, findingMsg, false, none, 0, senders.length, 0⟩ : LabelOpStatus) senders.enum).1 with message := phase2Msg (labelPhase1 fetch mkQuery senders.length (⟨0, findingMsg, false, none, 0, senders.length, 0⟩ : LabelOpStatus) senders.enum).2.2.1.length } : LabelOpStatus) 0 (chunksOf 1000 (labelPhase1 fetch mkQuery senders.length (⟨0, findingMsg, false, none, 0, senders.length, 0⟩ : LabelOpStatus) senders.enum).2.2.1)).1 with progress := 100 } : LabelOpStatus), ({ ({ (labelPhase2 mutate mkBody chunkMsg errPre (labelPhase1 fetch mkQuery senders.length (⟨0, findingMsg, false, none, 0, senders.length, 0⟩ : LabelOpStatus) senders.enum).2.2.1.length ({ (labelPhase1 fetch mkQuery senders.length (⟨0, findingMsg, false, none, 0, senders.length, 0⟩ : LabelOpStatus) senders.enum).1 with message := phase2Msg (labelPhase1 fetch mkQuery senders.length (⟨0, findingMsg, false, none, 0, senders.length, 0⟩ : LabelOpStatus) senders.enum).2.2.1.length } : LabelOpStatus) 0 (chunksOf 1000 (labelPhase1 fetch mkQuery senders.length (⟨0, findingMsg, false, none, 0, senders.length, 0⟩ : LabelOpStatus) senders.enum).2.2.1)).1 with progress := 100 } : LabelOpStatus) with done := true } : LabelOpStatus), ({ ({ ({ (labelPhase2 mutate mkBody chunkMsg errPre (labelPhase1 fetch mkQuery senders.length (⟨0, findingMsg, false, none, 0, senders.length, 0⟩ : LabelOpStatus) senders.enum).2.2.1.length ({ (labelPhase1 fetch mkQuery senders.length (⟨0, findingMsg, false, none, 0, senders.length, 0⟩ : LabelOpStatus) senders.enum).1 with message := phase2Msg (labelPhase1 fetch mkQuery senders.length (⟨0, findingMsg, false, none, 0, senders.length, 0⟩ : LabelOpStatus) senders.enum).2.2.1.length } : LabelOpStatus) 0 (chunksOf 1000 (labelPhase1 fetch mkQuery senders.length (⟨0, findingMsg, false, none, 0, senders.length, 0⟩ : LabelOpStatus) senders.enum).2.2.1)).1 with progress := 100 } : LabelOpStatus) with done := true } : LabelOpStatus) with affected_count := (labelPhase2 mutate mkBody chunkMsg errPre (labelPhase1 fetch mkQuery senders.length (⟨0, findingMsg, false, none, 0, senders.length, 0⟩ : LabelOpStatus) senders.enum).2.2.1.length ({ (labelPhase1 fetch mkQuery senders.length (⟨0, findingMsg, false, none, 0, senders.length, 0⟩ : LabelOpStatus) senders.enum).1 with message := phase2Msg (labelPhase1 fetch mkQuery senders.length (⟨0, findingMsg, false, none, 0, senders.length, 0⟩ : LabelOpStatus) senders.enum).2.2.1.length } : LabelOpStatus) 0 (chunksOf 1000 (labelPhase1 fetch mkQuery senders.length (⟨0, findingMsg, false, none, 0, senders.length, 0⟩ : LabelOpStatus) senders.enum).2.2.1)).2.2.1 } : LabelOpStatus)]).getLast? = some ({ ({ ({ (labelPhase2 mutate mkBody chunkMsg errPre (labelPhase1 fetch mkQuery senders.length (⟨0, findingMsg, false, none, 0, senders.length, 0⟩ : LabelOpStatus) senders.enum).2.2.1.length ({ (labelPhase1 fetch mkQuery senders.length (⟨0, findingMsg, false, none, 0, senders.length, 0⟩ : LabelOpStatus) senders.enum).1 with message := phase2Msg (labelPhase1 fetch mkQuery senders.length (⟨0, findingMsg, false, none, 0, senders.length, 0⟩ : LabelOpStatus) senders.enum).2.2.1.length } : LabelOpStatus) 0 (chunksOf 1000 (labelPhase1 fetch mkQuery senders.length (⟨0, findingMsg, false, none, 0, senders.length, 0⟩ : LabelOpStatus) senders.enum).2.2.1)).1 with progress := 100 } : LabelOpStatus) with done := true } : LabelOpStatus) with affected_count := (labelPhase2 mutate mkBody chunkMsg errPre (labelPhase1 fetch mkQuery senders.length (⟨0, findingMsg, false, none, 0, senders.length, 0⟩ : LabelOpStatus) senders.enum).2.2.1.length ({ (labelPhase1 fetch mkQuery senders.length (⟨0, findingMsg, false, none, 0, senders.length, 0⟩ : LabelOpStatus) senders.enum).1 with message := phase2Msg (labelPhase1 fetch mkQuery senders.length (⟨0, findingMsg, false, none, 0, senders.length, 0⟩ : LabelOpStatus) senders.enum).2.2.1.length } : LabelOpStatus) 0 (chunksOf 1000 (labelPhase1 fetch mkQuery senders.length (⟨0, findingMsg, false, none, 0, senders.length, 0⟩ : LabelOpStatus) senders.enum).2.2.1)).2.2.1 } : LabelOpStatus) :=
            getLast?_append_some _ (by
              rw [List.getLast?_cons_cons, List.getLast?_cons_cons,
                List.getLast?_singleton])
          have hp2f100 : (labelPhase2 mutate mkBody chunkMsg errPre (labelPhase1 fetch mkQuery senders.length (⟨0, findingMsg, false, none, 0, senders.length, 0⟩ : LabelOpStatus) senders.enum).2.2.1.length ({ (labelPhase1 fetch mkQuery senders.length (⟨0, findingMsg, false, none, 0, senders.length, 0⟩ : LabelOpStatus) senders.enum).1 with message := phase2Msg (labelPhase1 fetch mkQuery senders.length (⟨0, findingMsg, false, none, 0, senders.length, 0⟩ : LabelOpStatus) senders.enum).2.2.1.length } : LabelOpStatus) 0 (chunksOf 1000 (labelPhase1 fetch mkQuery senders.length (⟨0, findingMsg, false, none, 0, senders.length, 0⟩ : LabelOpStatus) senders.enum).2.2.1)).1.progress ≤ 100 :=
            (hp2.2.1 _ (mem_of_getLast?_eq hp2.2.2)).1
          have hp2fdone : (labelPhase2 mutate mkBody chunkMsg errPre (labelPhase1 fetch mkQuery senders.length (⟨0, findingMsg, false, none, 0, senders.length, 0⟩ : LabelOpStatus) senders.enum).2.2.1.length ({ (labelPhase1 fetch mkQuery senders.length (⟨0, findingMsg, false, none, 0, senders.length, 0⟩ : LabelOpStatus) senders.enum).1 with message := phase2Msg (labelPhase1 fetch mkQuery senders.length (⟨0, findingMsg, false, none, 0, senders.length, 0⟩ : LabelOpStatus) senders.enum).2.2.1.length } : LabelOpStatus) 0 (chunksOf 1000 (labelPhase1 fetch mkQuery senders.length (⟨0, findingMsg, false, none, 0, senders.length, 0⟩ : LabelOpStatus) senders.enum).2.2.1)).1.done = false := by
            rw [(hp2.2.1 _ (mem_of_getLast?_eq hp2.2.2)).2]
            exact hp1fdone
          refine ⟨?_, ?_, ?_⟩
          · refine List.Chain'.append ?_ ?_ ?_
            · refine List.Chain'.append ?_ ?_ ?_
              · refine List.Chain'.append ?_ ?_ ?_
                · refine List.Chain'.append ?_ ?_ ?_
                  · exact List.chain'_cons.mpr ⟨le_refl _,
                      List.chain'_cons.mpr ⟨le_refl _, hp1.1⟩⟩
                  · exact List.chain'_singleton _
                  · intro x hx y hy
                    have hx2 : x ∈ ((⟨0, "Ready", false, none, 0, 0, 0⟩ : LabelOpStatus) :: (⟨0, "Ready", false, none, 0, senders.length, 0⟩ : LabelOpStatus) :: (⟨0, findingMsg, false, none, 0, senders.length, 0⟩ : LabelOpStatus) :: (labelPhase1 fetch mkQuery senders.length (⟨0, findingMsg, false, none, 0, senders.length, 0⟩ : LabelOpStatus) senders.enum).2.1).getLast? := hx
                    rw [hglA] at hx2
                    have hxe : x = (labelPhase1 fetch mkQuery senders.length (⟨0, findingMsg, false, none, 0, senders.length, 0⟩ : LabelOpStatus) senders.enum).1 := (by simpa using hx2 : _ = x).symm
                    have hy2 : y ∈ some ({ (labelPhase1 fetch mkQuery senders.length (⟨0, findingMsg, false, none, 0, senders.length, 0⟩ : LabelOpStatus) senders.enum).1 with message := phase2Msg (labelPhase1 fetch mkQuery senders.length (⟨0, findingMsg, false, none, 0, senders.length, 0⟩ : LabelOpStatus) senders.enum).2.2.1.length } : LabelOpStatus) := hy
                    have hye : y = ({ (labelPhase1 fetch mkQuery senders.length (⟨0, findingMsg, false, none, 0, senders.length, 0⟩ : LabelOpStatus) senders.enum).1 with message := phase2Msg (labelPhase1 fetch mkQuery senders.length (⟨0, findingMsg, false, none, 0, senders.length, 0⟩ : LabelOpStatus) senders.enum).2.2.1.length } : LabelOpStatus) := (by simpa using hy2 : _ = y).symm
                    rw [hxe, hye]
                · exact hp2.1.tail
                · intro x hx y hy
                  have hx2 : x ∈ (((⟨0, "Ready", false, none, 0, 0, 0⟩ : LabelOpStatus) :: (⟨0, "Ready", false, none, 0, senders.length, 0⟩ : LabelOpStatus) :: (⟨0, findingMsg, false, none, 0, senders.length, 0⟩ : LabelOpStatus) :: (labelPhase1 fetch mkQuery senders.length (⟨0, findingMsg, false, none, 0, senders.length, 0⟩ : LabelOpStatus) senders.enum).2.1) ++ [({ (labelPhase1 fetch mkQuery senders.length (⟨0, findingMsg, false, none, 0, senders.length, 0⟩ : LabelOpStatus) senders.enum).1 with message := phase2Msg (labelPhase1 fetch mkQuery senders.length (⟨0, findingMsg, false, none, 0, senders.length, 0⟩ : LabelOpStatus) senders.enum).2.2.1.length } : LabelOpStatus)]).getLast? := hx
                  rw [hgl2] at hx2
                  have hxe : x = ({ (labelPhase1 fetch mkQuery senders.length (⟨0, findingMsg, false, none, 0, senders.length, 0⟩ : LabelOpStatus) senders.enum).1 with message := phase2Msg (labelPhase1 fetch mkQuery senders.length (⟨0, findingMsg, false, none, 0, senders.length, 0⟩ : LabelOpStatus) senders.enum).2.2.1.length } : LabelOpStatus) := (by simpa using hx2 : _ = x).symm
                  rw [hxe]
                  exact (List.chain'_cons'.mp hp2.1).1 y hy
              · exact List.chain'_cons.mpr ⟨le_refl _,
                  List.chain'_cons.mpr ⟨le_refl _, List.chain'_singleton _⟩⟩
              · intro x hx y hy
                have hx2 : x ∈ ((((⟨0, "Ready", false, none, 0, 0, 0⟩ : LabelOpStatus) :: (⟨0, "Ready", false, none, 0, senders.length, 0⟩ : LabelOpStatus) :: (⟨0, findingMsg, false, none, 0, senders.length, 0⟩ : LabelOpStatus) :: (labelPhase1 fetch mkQuery senders.length (⟨0, findingMsg, false, none, 0, senders.length, 0⟩ : LabelOpStatus) senders.enum).2.1) ++ [({ (labelPhase1 fetch mkQuery senders.length (⟨0, findingMsg, false, none, 0, senders.length, 0⟩ : LabelOpStatus) senders.enum).1 with message := phase2Msg (labelPhase1 fetch mkQuery senders.length (⟨0, findingMsg, false, none, 0, senders.length, 0⟩ : LabelOpStatus) senders.enum).2.2.1.length } : LabelOpStatus)]) ++ (labelPhase2 mutate mkBody chunkMsg errPre (labelPhase1 fetch mkQuery senders.length (⟨0, findingMsg, false, none, 0, senders.length, 0⟩ : LabelOpStatus) senders.enum).2.2.1.length ({ (labelPhase1 fetch mkQuery senders.length (⟨0, findingMsg, false, none, 0, senders.length, 0⟩ : LabelOpStatus) senders.enum).1 with message := phase2Msg (labelPhase1 fetch mkQuery senders.length (⟨0, findingMsg, false, none, 0, senders.length, 0⟩ : LabelOpStatus) senders.enum).2.2.1.length } : LabelOpStatus) 0 (chunksOf 1000 (labelPhase1 fetch mkQuery senders.length (⟨0, findingMsg, false, none, 0, senders.length, 0⟩ : LabelOpStatus) senders.enum).2.2.1)).2.1).getLast? := hx
                rw [hgl3] at hx2
                have hxe : x = (labelPhase2 mutate mkBody chunkMsg errPre (labelPhase1 fetch mkQuery senders.length (⟨0, findingMsg, false, none, 0, senders.length, 0⟩ : LabelOpStatus) senders.enum).2.2.1.length ({ (labelPhase1 fetch mkQuery senders.length (⟨0, findingMsg, false, none, 0, senders.length, 0⟩ : LabelOpStatus) senders.enum).1 with message := phase2Msg (labelPhase1 fetch mkQuery senders.length (⟨0, findingMsg, false, none, 0, senders.length, 0⟩ : LabelOpStatus) senders.enum).2.2.1.length } : LabelOpStatus) 0 (chunksOf 1000 (labelPhase1 fetch mkQuery senders.length (⟨0, findingMsg, false, none, 0, senders.length, 0⟩ : LabelOpStatus) senders.enum).2.2.1)).1 := (by simpa using hx2 : _ = x).symm
                have hy2 : y ∈ some ({ (labelPhase2 mutate mkBody chunkMsg errPre (labelPhase1 fetch mkQuery senders.length (⟨0, findingMsg, false, none, 0, senders.length, 0⟩ : LabelOpStatus) senders.enum).2.2.1.length ({ (labelPhase1 fetch mkQuery senders.length (⟨0, findingMsg, false, none, 0, senders.length, 0⟩ : LabelOpStatus) senders.enum).1 with message := phase2Msg (labelPhase1 fetch mkQuery senders.length (⟨0, findingMsg, false, none, 0, senders.length, 0⟩ : LabelOpStatus) senders.enum).2.2.1.length } : LabelOpStatus) 0 (chunksOf 1000 (labelPhase1 fetch mkQuery senders.length (⟨0, findingMsg, false, none, 0, senders.length, 0⟩ : LabelOpStatus) senders.enum).2.2.1)).1 with progress := 100 } : LabelOpStatus) := hy
                have hye : y = ({ (labelPhase2 mutate mkBody chunkMsg errPre (labelPhase1 fetch mkQuery senders.length (⟨0, findingMsg, false, none, 0, senders.length, 0⟩ : LabelOpStatus) senders.enum).2.2.1.length ({ (labelPhase1 fetch mkQuery senders.length (⟨0, findingMsg, false, none, 0, senders.length, 0⟩ : LabelOpStatus) senders.enum).1 with message := phase2Msg (labelPhase1 fetch mkQuery senders.length (⟨0, findingMsg, false, none, 0, senders.length, 0⟩ : LabelOpStatus) senders.enum).2.2.1.length } : LabelOpStatus) 0 (chunksOf 1000 (labelPhase1 fetch mkQuery senders.length (⟨0, findingMsg, false, none, 0, senders.length, 0⟩ : LabelOpStatus) senders.enum).2.2.1)).1 with progress := 100 } : LabelOpStatus) := (by simpa using hy2 : _ = y).symm
                rw [hxe, hye]
                exact hp2f100
            · exact List.chain'_cons.mpr ⟨le_refl _, List.chain'_singleton _⟩
            · intro x hx y hy
              have hx2 : x ∈ (((((⟨0, "Ready", false, none, 0, 0, 0⟩ : LabelOpStatus) :: (⟨0, "Ready", false, none, 0, senders.length, 0⟩ : LabelOpStatus) :: (⟨0, findingMsg, false, none, 0, senders.length, 0⟩ : LabelOpStatus) :: (labelPhase1 fetch mkQuery senders.length (⟨0, findingMsg, false, none, 0, senders.length, 0⟩ : LabelOpStatus) senders.enum).2.1) ++ [({ (labelPhase1 fetch mkQuery senders.length (⟨0, findingMsg, false, none, 0, senders.length, 0⟩ : LabelOpStatus) senders.enum).1 with message := phase2Msg (labelPhase1 fetch mkQuery senders.length (⟨0, findingMsg, false, none, 0, senders.length, 0⟩ : LabelOpStatus) senders.enum).2.2.1.length } : LabelOpStatus)]) ++ (labelPhase2 mutate mkBody chunkMsg errPre (labelPhase1 fetch mkQuery senders.length (⟨0, findingMsg, false, none, 0, senders.length, 0⟩ : LabelOpStatus) senders.enum).2.2.1.length ({ (labelPhase1 fetch mkQuery senders.length (⟨0, findingMsg, false, none, 0, senders.length, 0⟩ : LabelOpStatus) senders.enum).1 with message := phase2Msg (labelPhase1 fetch mkQuery senders.length (⟨0, findingMsg, false, none, 0, senders.length, 0⟩ : LabelOpStatus) senders.enum).2.2.1.length } : LabelOpStatus) 0 (chunksOf 1000 (labelPhase1 fetch mkQuery senders.length (⟨0, findingMsg, false, none, 0, senders.length, 0⟩ : LabelOpStatus) senders.enum).2.2.1)).2.1) ++ [({ (labelPhase2 mutate mkBody chunkMsg errPre (labelPhase1 fetch mkQuery senders.length (⟨0, findingMsg, false, none, 0, senders.length, 0⟩ : LabelOpStatus) senders.enum).2.2.1.length ({ (labelPhase1 fetch mkQuery senders.length (⟨0, findingMsg, false, none, 0, senders.length, 0⟩ : LabelOpStatus) senders.enum).1 with message := phase2Msg (labelPhase1 fetch mkQuery senders.length (⟨0, findingMsg, false, none, 0, senders.length, 0⟩ : LabelOpStatus) senders.enum).2.2.1.length } : LabelOpStatus) 0 (chunksOf 1000 (labelPhase1 fetch mkQuery senders.length (⟨0, findingMsg, false, none, 0, senders.length, 0⟩ : LabelOpStatus) senders.enum).2.2.1)).1 with progress := 100 } : LabelOpStatus), ({ ({ (labelPhase2 mutate mkBody chunkMsg errPre (labelPhase1 fetch mkQuery senders.length (⟨0, findingMsg, false, none, 0, senders.length, 0⟩ : LabelOpStatus) senders.enum).2.2.1.length ({ (labelPhase1 fetch mkQuery senders.length (⟨0, findingMsg, false, none, 0, senders.length, 0⟩ : LabelOpStatus) senders.enum).1 with message := phase2Msg (labelPhase1 fetch mkQuery senders.length (⟨0, findingMsg, false, none, 0, senders.length, 0⟩ : LabelOpStatus) senders.enum).2.2.1.length } : LabelOpStatus) 0 (chunksOf 1000 (labelPhase1 fetch mkQuery senders.length (⟨0, findingMsg, false, none, 0, senders.length, 0⟩ : LabelOpStatus) senders.enum).2.2.1)).1 with progress := 100 } : LabelOpStatus) with done := true } : LabelOpStatus), ({ ({ ({ (labelPhase2 mutate mkBody chunkMsg errPre (labelPhase1 fetch mkQuery senders.length (⟨0, findingMsg, false, none, 0, senders.length, 0⟩ : LabelOpStatus) senders.enum).2.2.1.length ({ (labelPhase1 fetch mkQuery senders.length (⟨0, findingMsg, false, none, 0, senders.length, 0⟩ : LabelOpStatus) senders.enum).1 with message := phase2Msg (labelPhase1 fetch mkQuery senders.length (⟨0, findingMsg, false, none, 0, senders.length, 0⟩ : LabelOpStatus) senders.enum).2.2.1.length } : LabelOpStatus) 0 (chunksOf 1000 (labelPhase1 fetch mkQuery senders.length (⟨0, findingMsg, false, none, 0, senders.length, 0⟩ : LabelOpStatus) senders.enum).2.2.1)).1 with progress := 100 } : LabelOpStatus) with done := true } : LabelOpStatus) with affected_count := (labelPhase2 mutate mkBody chunkMsg errPre (labelPhase1 fetch mkQuery senders.length (⟨0, findingMsg, false, none, 0, senders.length, 0⟩ : LabelOpStatus) senders.enum).2.2.1.length ({ (labelPhase1 fetch mkQuery senders.length (⟨0, findingMsg, false, none, 0, senders.length, 0⟩ : LabelOpStatus) senders.enum).1 with message := phase2Msg (labelPhase1 fetch mkQuery senders.length (⟨0, findingMsg, false, none, 0, senders.length, 0⟩ : LabelOpStatus) senders.enum).2.2.1.length } : LabelOpStatus) 0 (chunksOf 1000 (labelPhase1 fetch mkQuery senders.length (⟨0, findingMsg, false, none, 0, senders.length, 0⟩ : LabelOpStatus) senders.enum).2.2.1)).2.2.1 } : LabelOpStatus)]).getLast? := hx
              rw [hgl4] at hx2
              have hxe : x = ({ ({ ({ (labelPhase2 mutate mkBody chunkMsg errPre (labelPhase1 fetch mkQuery senders.length (⟨0, findingMsg, false, none, 0, senders.length, 0⟩ : LabelOpStatus) senders.enum).2.2.1.length ({ (labelPhase1 fetch mkQuery senders.length (⟨0, findingMsg, false, none, 0, senders.length, 0⟩ : LabelOpStatus) senders.enum).1 with message := phase2Msg (labelPhase1 fetch mkQuery senders.length (⟨0, findingMsg, false, none, 0, senders.length, 0⟩ : LabelOpStatus) senders.enum).2.2.1.length } : LabelOpStatus) 0 (chunksOf 1000 (labelPhase1 fetch mkQuery senders.length (⟨0, findingMsg, false, none, 0, senders.length, 0⟩ : LabelOpStatus) senders.enum).2.2.1)).1 with progress := 100 } : LabelOpStatus) with done := true } : LabelOpStatus) with affected_count := (labelPhase2 mutate mkBody chunkMsg errPre (labelPhase1 fetch mkQuery senders.length (⟨0, findingMsg, false, none, 0, senders.length, 0⟩ : LabelOpStatus) senders.enum).2.2.1.length ({ (labelPhase1 fetch mkQuery senders.length (⟨0, findingMsg, false, none, 0, senders.length, 0⟩ : LabelOpStatus) senders.enum).1 with message := phase2Msg (labelPhase1 fetch mkQuery senders.length (⟨0, findingMsg, false, none, 0, senders.length, 0⟩ : LabelOpStatus) senders.enum).2.2.1.length } : LabelOpStatus) 0 (chunksOf 1000 (labelPhase1 fetch mkQuery senders.length (⟨0, findingMsg, false, none, 0, senders.length, 0⟩ : LabelOpStatus) senders.enum).2.2.1)).2.2.1 } : LabelOpStatus) := (by simpa using hx2 : _ = x).symm
              have hy2 : y ∈ some ({ ({ ({ ({ (labelPhase2 mutate mkBody chunkMsg errPre (labelPhase1 fetch mkQuery senders.length (⟨0, findingMsg, false, none, 0, senders.length, 0⟩ : LabelOpStatus) senders.enum).2.2.1.length ({ (labelPhase1 fetch mkQuery senders.length (⟨0, findingMsg, false, none, 0, senders.length, 0⟩ : LabelOpStatus) senders.enum).1 with message := phase2Msg (labelPhase1 fetch mkQuery senders.length (⟨0, findingMsg, false, none, 0, senders.length, 0⟩ : LabelOpStatus) senders.enum).2.2.1.length } : LabelOpStatus) 0 (chunksOf 1000 (labelPhase1 fetch mkQuery senders.length (⟨0, findingMsg, false, none, 0, senders.length, 0⟩ : LabelOpStatus) senders.enum).2.2.1)).1 with progress := 100 } : LabelOpStatus) with done := true } : LabelOpStatus) with affected_count := (labelPhase2 mutate mkBody chunkMsg errPre (labelPhase1 fetch mkQuery senders.length (⟨0, findingMsg, false, none, 0, senders.length, 0⟩ : LabelOpStatus) senders.enum).2.2.1.length ({ (labelPhase1 fetch mkQuery senders.length (⟨0, findingMsg, false, none, 0, senders.length, 0⟩ : LabelOpStatus) senders.enum).1 with message := phase2Msg (labelPhase1 fetch mkQuery senders.length (⟨0, findingMsg, false, none, 0, senders.length, 0⟩ : LabelOpStatus) senders.enum).2.2.1.length } : LabelOpStatus) 0 (chunksOf 1000 (labelPhase1 fetch mkQuery senders.length (⟨0, findingMsg, false, none, 0, senders.length, 0⟩ : LabelOpStatus) senders.enum).2.2.1)).2.2.1 } : LabelOpStatus) with error := some ("Some errors: " ++ elide3 ((labelPhase1 fetch mkQuery senders.length (⟨0, findingMsg, false, none, 0, senders.length, 0⟩ : LabelOpStatus) senders.enum).2.2.2 ++ (labelPhase2 mutate mkBody chunkMsg errPre (labelPhase1 fetch mkQuery senders.length (⟨0, findingMsg, false, none, 0, senders.length, 0⟩ : LabelOpStatus) senders.enum).2.2.1.length ({ (labelPhase1 fetch mkQuery senders.length (⟨0, findingMsg, false, none, 0, senders.length, 0⟩ : LabelOpStatus) senders.enum).1 with message := phase2Msg (labelPhase1 fetch mkQuery senders.length (⟨0, findingMsg, false, none, 0, senders.length, 0⟩ : LabelOpStatus) senders.enum).2.2.1.length } : LabelOpStatus) 0 (chunksOf 1000 (labelPhase1 fetch mkQuery senders.length (⟨0, findingMsg, false, none, 0, senders.length, 0⟩ : LabelOpStatus) senders.enum).2.2.1)).2.2.2)) } : LabelOpStatus) := hy
              have hye : y = ({ ({ ({ ({ (labelPhase2 mutate mkBody chunkMsg errPre (labelPhase1 fetch mkQuery senders.length (⟨0, findingMsg, false, none, 0, senders.length, 0⟩ : LabelOpStatus) senders.enum).2.2.1.length ({ (labelPhase1 fetch mkQuery senders.length (⟨0, findingMsg, false, none, 0, senders.length, 0⟩ : LabelOpStatus) senders.enum).1 with message := phase2Msg (labelPhase1 fetch mkQuery senders.length (⟨0, findingMsg, false, none, 0, senders.length, 0⟩ : LabelOpStatus) senders.enum).2.2.1.length } : LabelOpStatus) 0 (chunksOf 1000 (labelPhase1 fetch mkQuery senders.length (⟨0, findingMsg, false, none, 0, senders.length, 0⟩ : LabelOpStatus) senders.enum).2.2.1)).1 with progress := 100 } : LabelOpStatus) with done := true } : LabelOpStatus) with affected_count := (labelPhase2 mutate mkBody chunkMsg errPre (labelPhase1 fetch mkQuery senders.length (⟨0, findingMsg, false, none, 0, senders.length, 0⟩ : LabelOpStatus) senders.enum).2.2.1.length ({ (labelPhase1 fetch mkQuery senders.length (⟨0, findingMsg, false, none, 0, senders.length, 0⟩ : LabelOpStatus) senders.enum).1 with message := phase2Msg (labelPhase1 fetch mkQuery senders.length (⟨0, findingMsg, false, none, 0, senders.length, 0⟩ : LabelOpStatus) senders.enum).2.2.1.length } : LabelOpStatus) 0 (chunksOf 1000 (labelPhase1 fetch mkQuery senders.length (⟨0, findingMsg, false, none, 0, senders.length, 0⟩ : LabelOpStatus) senders.enum).2.2.1)).2.2.1 } : LabelOpStatus) with error := some ("Some errors: " ++ elide3 ((labelPhase1 fetch mkQuery senders.length (⟨0, findingMsg, false, none, 0, senders.length, 0⟩ : LabelOpStatus) senders.enum).2.2.2 ++ (labelPhase2 mutate mkBody chunkMsg errPre (labelPhase1 fetch mkQuery senders.length (⟨0, findingMsg, false, none, 0, senders.length, 0⟩ : LabelOpStatus) senders.enum).2.2.1.length ({ (labelPhase1 fetch mkQuery senders.length (⟨0, findingMsg, false, none, 0, senders.length, 0⟩ : LabelOpStatus) senders.enum).1 with message := phase2Msg (labelPhase1 fetch mkQuery senders.length (⟨0, findingMsg, false, none, 0, senders.length, 0⟩ : LabelOpStatus) senders.enum).2.2.1.length } : LabelOpStatus) 0 (chunksOf 1000 (labelPhase1 fetch mkQuery senders.length (⟨0, findingMsg, false, none, 0, senders.length, 0⟩ : LabelOpStatus) senders.enum).2.2.1)).2.2.2)) } : LabelOpStatus) := (by simpa using hy2 : _ = y).symm
              rw [hxe, hye]
          · refine List.Chain'.append ?_ ?_ ?_
            · refine List.Chain'.append ?_ ?_ ?_
              · refine List.Chain'.append ?_ ?_ ?_
                · refine List.Chain'.append ?_ ?_ ?_
                  · exact chain'_done_of_false _ _ hAfalse
                  · exact List.chain'_singleton _
                  · intro x hx y hy h
                    have hx2 : x ∈ ((⟨0, "Ready", false, none, 0, 0, 0⟩ : LabelOpStatus) :: (⟨0, "Ready", false, none, 0, senders.length, 0⟩ : LabelOpStatus) :: (⟨0, findingMsg, false, none, 0, senders.length, 0⟩ : LabelOpStatus) :: (labelPhase1 fetch mkQuery senders.length (⟨0, findingMsg, false, none, 0, senders.length, 0⟩ : LabelOpStatus) senders.enum).2.1).getLast? := hx
                    rw [hglA] at hx2
                    have hxe : x = (labelPhase1 fetch mkQuery senders.length (⟨0, findingMsg, false, none, 0, senders.length, 0⟩ : LabelOpStatus) senders.enum).1 := (by simpa using hx2 : _ = x).symm
                    rw [hxe] at h
                    rw [hp1fdone] at h
                    exact Bool.noConfusion h
                · refine chain'_done_of_false _ _ ?_
                  intro t ht
                  rw [(hp2.2.1 t (List.mem_cons_of_mem _ ht)).2]
                  exact hp1fdone
                · intro x hx y hy h
                  have hx2 : x ∈ (((⟨0, "Ready", false, none, 0, 0, 0⟩ : LabelOpStatus) :: (⟨0, "Ready", false, none, 0, senders.length, 0⟩ : LabelOpStatus) :: (⟨0, findingMsg, false, none, 0, senders.length, 0⟩ : LabelOpStatus) :: (labelPhase1 fetch mkQuery senders.length (⟨0, findingMsg, false, none, 0, senders.length, 0⟩ : LabelOpStatus) senders.enum).2.1) ++ [({ (labelPhase1 fetch mkQuery senders.length (⟨0, findingMsg, false, none, 0, senders.length, 0⟩ : LabelOpStatus) senders.enum).1 with message := phase2Msg (labelPhase1 fetch mkQuery senders.length (⟨0, findingMsg, false, none, 0, senders.length, 0⟩ : LabelOpStatus) senders.enum).2.2.1.length } : LabelOpStatus)]).getLast? := hx
                  rw [hgl2] at hx2
                  have hxe : x = ({ (labelPhase1 fetch mkQuery senders.length (⟨0, findingMsg, false, none, 0, senders.length, 0⟩ : LabelOpStatus) senders.enum).1 with message := phase2Msg (labelPhase1 fetch mkQuery senders.length (⟨0, findingMsg, false, none, 0, senders.length, 0⟩ : LabelOpStatus) senders.enum).2.2.1.length } : LabelOpStatus) := (by simpa using hx2 : _ = x).symm
                  rw [hxe] at h
                  have h2 : (labelPhase1 fetch mkQuery senders.length (⟨0, findingMsg, false, none, 0, senders.length, 0⟩ : LabelOpStatus) senders.enum).1.done = true := h
                  rw [hp1fdone] at h2
                  exact Bool.noConfusion h2
              · exact List.chain'_cons.mpr ⟨fun _ => rfl,
                  List.chain'_cons.mpr ⟨fun _ => rfl, List.chain'_singleton _⟩⟩
              · intro x hx y hy h
                have hx2 : x ∈ ((((⟨0, "Ready", false, none, 0, 0, 0⟩ : LabelOpStatus) :: (⟨0, "Ready", false, none, 0, senders.length, 0⟩ : LabelOpStatus) :: (⟨0, findingMsg, false, none, 0, senders.length, 0⟩ : LabelOpStatus) :: (labelPhase1 fetch mkQuery senders.length (⟨0, findingMsg, false, none, 0, senders.length, 0⟩ : LabelOpStatus) senders.enum).2.1) ++ [({ (labelPhase1 fetch mkQuery senders.length (⟨0, findingMsg, false, none, 0, senders.length, 0⟩ : LabelOpStatus) senders.enum).1 with message := phase2Msg (labelPhase1 fetch mkQuery senders.length (⟨0, findingMsg, false, none, 0, senders.length, 0⟩ : LabelOpStatus) senders.enum).2.2.1.length } : LabelOpStatus)]) ++ (labelPhase2 mutate mkBody chunkMsg errPre (labelPhase1 fetch mkQuery senders.length (⟨0, findingMsg, false, none, 0, senders.length, 0⟩ : LabelOpStatus) senders.enum).2.2.1.length ({ (labelPhase1 fetch mkQuery senders.length (⟨0, findingMsg, false, none, 0, senders.length, 0⟩ : LabelOpStatus) senders.enum).1 with message := phase2Msg (labelPhase1 fetch mkQuery senders.length (⟨0, findingMsg, false, none, 0, senders.length, 0⟩ : LabelOpStatus) senders.enum).2.2.1.length } : LabelOpStatus) 0 (chunksOf 1000 (labelPhase1 fetch mkQuery senders.length (⟨0, findingMsg, false, none, 0, senders.length, 0⟩ : LabelOpStatus) senders.enum).2.2.1)).2.1).getLast? := hx
                rw [hgl3] at hx2
                have hxe : x = (labelPhase2 mutate mkBody chunkMsg errPre (labelPhase1 fetch mkQuery senders.length (⟨0, findingMsg, false, none, 0, senders.length, 0⟩ : LabelOpStatus) senders.enum).2.2.1.length ({ (labelPhase1 fetch mkQuery senders.length (⟨0, findingMsg, false, none, 0, senders.length, 0⟩ : LabelOpStatus) senders.enum).1 with message := phase2Msg (labelPhase1 fetch mkQuery senders.length (⟨0, findingMsg, false, none, 0, senders.length, 0⟩ : LabelOpStatus) senders.enum).2.2.1.length } : LabelOpStatus) 0 (chunksOf 1000 (labelPhase1 fetch mkQuery senders.length (⟨0, findingMsg, false, none, 0, senders.length, 0⟩ : LabelOpStatus) senders.enum).2.2.1)).1 := (by simpa using hx2 : _ = x).symm
                rw [hxe] at h
                rw [hp2fdone] at h
                exact Bool.noConfusion h
            · exact List.chain'_cons.mpr ⟨fun _ => rfl, List.chain'_singleton _⟩
            · intro x hx y hy h
              have hy2 : y ∈ some ({ ({ ({ ({ (labelPhase2 mutate mkBody chunkMsg errPre (labelPhase1 fetch mkQuery senders.length (⟨0, findingMsg, false, none, 0, senders.length, 0⟩ : LabelOpStatus) senders.enum).2.2.1.length ({ (labelPhase1 fetch mkQuery senders.length (⟨0, findingMsg, false, none, 0, senders.length, 0⟩ : LabelOpStatus) senders.enum).1 with message := phase2Msg (labelPhase1 fetch mkQuery senders.length (⟨0, findingMsg, false, none, 0, senders.length, 0⟩ : LabelOpStatus) senders.enum).2.2.1.length } : LabelOpStatus) 0 (chunksOf 1000 (labelPhase1 fetch mkQuery senders.length (⟨0, findingMsg, false, none, 0, senders.length, 0⟩ : LabelOpStatus) senders.enum).2.2.1)).1 with progress := 100 } : LabelOpStatus) with done := true } : LabelOpStatus) with affected_count := (labelPhase2 mutate mkBody chunkMsg errPre (labelPhase1 fetch mkQuery senders.length (⟨0, findingMsg, false, none, 0, senders.length, 0⟩ : LabelOpStatus) senders.enum).2.2.1.length ({ (labelPhase1 fetch mkQuery senders.length (⟨0, findingMsg, false, none, 0, senders.length, 0⟩ : LabelOpStatus) senders.enum).1 with message := phase2Msg (labelPhase1 fetch mkQuery senders.length (⟨0, findingMsg, false, none, 0, senders.length, 0⟩ : LabelOpStatus) senders.enum).2.2.1.length } : LabelOpStatus) 0 (chunksOf 1000 (labelPhase1 fetch mkQuery senders.length (⟨0, findingMsg, false, none, 0, senders.length, 0⟩ : LabelOpStatus) senders.enum).2.2.1)).2.2.1 } : LabelOpStatus) with error := some ("Some errors: " ++ elide3 ((labelPhase1 fetch mkQuery senders.length (⟨0, findingMsg, false, none, 0, senders.length, 0⟩ : LabelOpStatus) senders.enum).2.2.2 ++ (labelPhase2 mutate mkBody chunkMsg errPre (labelPhase1 fetch mkQuery senders.length (⟨0, findingMsg, false, none, 0, senders.length, 0⟩ : LabelOpStatus) senders.enum).2.2.1.length ({ (labelPhase1 fetch mkQuery senders.length (⟨0, findingMsg, false, none, 0, senders.length, 0⟩ : LabelOpStatus) senders.enum).1 with message := phase2Msg (labelPhase1 fetch mkQuery senders.length (⟨0, findingMsg, false, none, 0, senders.length, 0⟩ : LabelOpStatus) senders.enum).2.2.1.length } : LabelOpStatus) 0 (chunksOf 1000 (labelPhase1 fetch mkQuery senders.length (⟨0, findingMsg, false, none, 0, senders.length, 0⟩ : LabelOpStatus) senders.enum).2.2.1)).2.2.2)) } : LabelOpStatus) := hy
              have hye : y = ({ ({ ({ ({ (labelPhase2 mutate mkBody chunkMsg errPre (labelPhase1 fetch mkQuery senders.length (⟨0, findingMsg, false, none, 0, senders.length, 0⟩ : LabelOpStatus) senders.enum).2.2.1.length ({ (labelPhase1 fetch mkQuery senders.length (⟨0, findingMsg, false, none, 0, senders.length, 0⟩ : LabelOpStatus) senders.enum).1 with message := phase2Msg (labelPhase1 fetch mkQuery senders.length (⟨0, findingMsg, false, none, 0, senders.length, 0⟩ : LabelOpStatus) senders.enum).2.2.1.length } : LabelOpStatus) 0 (chunksOf 1000 (labelPhase1 fetch mkQuery senders.length (⟨0, findingMsg, false, none, 0, senders.length, 0⟩ : LabelOpStatus) senders.enum).2.2.1)).1 with progress := 100 } : LabelOpStatus) with done := true } : LabelOpStatus) with affected_count := (labelPhase2 mutate mkBody chunkMsg errPre (labelPhase1 fetch mkQuery senders.length (⟨0, findingMsg, false, none, 0, senders.length, 0⟩ : LabelOpStatus) senders.enum).2.2.1.length ({ (labelPhase1 fetch mkQuery senders.length (⟨0, findingMsg, false, none, 0, senders.length, 0⟩ : LabelOpStatus) senders.enum).1 with message := phase2Msg (labelPhase1 fetch mkQuery senders.length (⟨0, findingMsg, false, none, 0, senders.length, 0⟩ : LabelOpStatus) senders.enum).2.2.1.length } : LabelOpStatus) 0 (chunksOf 1000 (labelPhase1 fetch mkQuery senders.length (⟨0, findingMsg, false, none, 0, senders.length, 0⟩ : LabelOpStatus) senders.enum).2.2.1)).2.2.1 } : LabelOpStatus) with error := some ("Some errors: " ++ elide3 ((labelPhase1 fetch mkQuery senders.length (⟨0, findingMsg, false, none, 0, senders.length, 0⟩ : LabelOpStatus) senders.enum).2.2.2 ++ (labelPhase2 mutate mkBody chunkMsg errPre (labelPhase1 fetch mkQuery senders.length (⟨0, findingMsg, false, none, 0, senders.length, 0⟩ : LabelOpStatus) senders.enum).2.2.1.length ({ (labelPhase1 fetch mkQuery senders.length (⟨0, findingMsg, false, none, 0, senders.length, 0⟩ : LabelOpStatus) senders.enum).1 with message := phase2Msg (labelPhase1 fetch mkQuery senders.length (⟨0, findingMsg, false, none, 0, senders.length, 0⟩ : LabelOpStatus) senders.enum).2.2.1.length } : LabelOpStatus) 0 (chunksOf 1000 (labelPhase1 fetch mkQuery senders.length (⟨0, findingMsg, false, none, 0, senders.length, 0⟩ : LabelOpStatus) senders.enum).2.2.1)).2.2.2)) } : LabelOpStatus) := (by simpa using hy2 : _ = y).symm
              rw [hye]
          · intro s hs
            rw [List.getLast?_append] at hs
            rw [List.getLast?_cons_cons, List.getLast?_singleton] at hs
            have hse : s = ({ ({ ({ ({ ({ (labelPhase2 mutate mkBody chunkMsg errPre (labelPhase1 fetch mkQuery senders.length (⟨0, findingMsg, false, none, 0, senders.length, 0⟩ : LabelOpStatus) senders.enum).2.2.1.length ({ (labelPhase1 fetch mkQuery senders.length (⟨0, findingMsg, false, none, 0, senders.length, 0⟩ : LabelOpStatus) senders.enum).1 with message := phase2Msg (labelPhase1 fetch mkQuery senders.length (⟨0, findingMsg, false, none, 0, senders.length, 0⟩ : LabelOpStatus) senders.enum).2.2.1.length } : LabelOpStatus) 0 (chunksOf 1000 (labelPhase1 fetch mkQuery senders.length (⟨0, findingMsg, false, none, 0, senders.length, 0⟩ : LabelOpStatus) senders.enum).2.2.1)).1 with progress := 100 } : LabelOpStatus) with done := true } : LabelOpStatus) with affected_count := (labelPhase2 mutate mkBody chunkMsg errPre (labelPhase1 fetch mkQuery senders.length (⟨0, findingMsg, false, none, 0, senders.length, 0⟩ : LabelOpStatus) senders.enum).2.2.1.length ({ (labelPhase1 fetch mkQuery senders.length (⟨0, findingMsg, false, none, 0, senders.length, 0⟩ : LabelOpStatus) senders.enum).1 with message := phase2Msg (labelPhase1 fetch mkQuery senders.length (⟨0, findingMsg, false, none, 0, senders.length, 0⟩ : LabelOpStatus) senders.enum).2.2.1.length } : LabelOpStatus) 0 (chunksOf 1000 (labelPhase1 fetch mkQuery senders.length (⟨0, findingMsg, false, none, 0, senders.length, 0⟩ : LabelOpStatus) senders.enum).2.2.1)).2.2.1 } : LabelOpStatus) with error := some ("Some errors: " ++ elide3 ((labelPhase1 fetch mkQuery senders.length (⟨0, findingMsg, false, none, 0, senders.length, 0⟩ : LabelOpStatus) senders.enum).2.2.2 ++ (labelPhase2 mutate mkBody chunkMsg errPre (labelPhase1 fetch mkQuery senders.length (⟨0, findingMsg, false, none, 0, senders.length, 0⟩ : LabelOpStatus) senders.enum).2.2.1.length ({ (labelPhase1 fetch mkQuery senders.length (⟨0, findingMsg, false, none, 0, senders.length, 0⟩ : LabelOpStatus) senders.enum).1 with message := phase2Msg (labelPhase1 fetch mkQuery senders.length (⟨0, findingMsg, false, none, 0, senders.length, 0⟩ : LabelOpStatus) senders.enum).2.2.1.length } : LabelOpStatus) 0 (chunksOf 1000 (labelPhase1 fetch mkQuery senders.length (⟨0, findingMsg, false, none, 0, senders.length, 0⟩ : LabelOpStatus) senders.enum).2.2.1)).2.2.2)) } : LabelOpStatus) with message := withErrsMsg (labelPhase2 mutate mkBody chunkMsg errPre (labelPhase1 fetch mkQuery senders.length (⟨0, findingMsg, false, none, 0, senders.length, 0⟩ : LabelOpStatus) senders.enum).2.2.1.length ({ (labelPhase1 fetch mkQuery senders.length (⟨0, findingMsg, false, none, 0, senders.length, 0⟩ : LabelOpStatus) senders.enum).1 with message := phase2Msg (labelPhase1 fetch mkQuery senders.length (⟨0, findingMsg, false, none, 0, senders.length, 0⟩ : LabelOpStatus) senders.enum).2.2.1.length } : LabelOpStatus) 0 (chunksOf 1000 (labelPhase1 fetch mkQuery senders.length (⟨0, findingMsg, false, none, 0, senders.length, 0⟩ : LabelOpStatus) senders.enum).2.2.1)).2.2.1 } : LabelOpStatus) := (by simpa using hs : _ = s).symm
            rw [hse]
        · have htpos : 0 < (labelPhase1 fetch mkQuery senders.length (⟨0, findingMsg, false, none, 0, senders.length, 0⟩ : LabelOpStatus) senders.enum).2.2.1.length := List.length_pos.mpr hids
          have hflat : (chunksOf 1000 (labelPhase1 fetch mkQuery senders.length (⟨0, findingMsg, false, none, 0, senders.length, 0⟩ : LabelOpStatus) senders.enum).2.2.1).flatten = (labelPhase1 fetch mkQuery senders.length (⟨0, findingMsg, false, none, 0, senders.length, 0⟩ : LabelOpStatus) senders.enum).2.2.1 :=
            chunksOf_flatten 999 _
          have hsum : 0 + (chunksOf 1000 (labelPhase1 fetch mkQuery senders.length (⟨0, findingMsg, false, none, 0, senders.length, 0⟩ : LabelOpStatus) senders.enum).2.2.1).flatten.length ≤ (labelPhase1 fetch mkQuery senders.length (⟨0, findingMsg, false, none, 0, senders.length, 0⟩ : LabelOpStatus) senders.enum).2.2.1.length := by
            rw [hflat]
            omega
          have hsp : ({ (labelPhase1 fetch mkQuery senders.length (⟨0, findingMsg, false, none, 0, senders.length, 0⟩ : LabelOpStatus) senders.enum).1 with message := phase2Msg (labelPhase1 fetch mkQuery senders.length (⟨0, findingMsg, false, none, 0, senders.length, 0⟩ : LabelOpStatus) senders.enum).2.2.1.length } : LabelOpStatus).progress ≤ 40 + 0 * 60 / (labelPhase1 fetch mkQuery senders.length (⟨0, findingMsg, false, none, 0, senders.length, 0⟩ : LabelOpStatus) senders.enum).2.2.1.length :=
            le_trans hp1f40 (Nat.le_add_right 40 _)
          have hp2 := labelPhase2_spec mutate mkBody chunkMsg errPre
            (labelPhase1 fetch mkQuery senders.length (⟨0, findingMsg, false, none, 0, senders.length, 0⟩ : LabelOpStatus) senders.enum).2.2.1.length htpos (chunksOf 1000 (labelPhase1 fetch mkQuery senders.length (⟨0, findingMsg, false, none, 0, senders.length, 0⟩ : LabelOpStatus) senders.enum).2.2.1) ({ (labelPhase1 fetch mkQuery senders.length (⟨0, findingMsg, false, none, 0, senders.length, 0⟩ : LabelOpStatus) senders.enum).1 with message := phase2Msg (labelPhase1 fetch mkQuery senders.length (⟨0, findingMsg, false, none, 0, senders.length, 0⟩ : LabelOpStatus) senders.enum).2.2.1.length } : LabelOpStatus) 0 hsum hsp
          have hgl2 : (((⟨0, "Ready", false, none, 0, 0, 0⟩ : LabelOpStatus) :: (⟨0, "Ready", false, none, 0, senders.length, 0⟩ : LabelOpStatus) :: (⟨0, findingMsg, false, none, 0, senders.length, 0⟩ : LabelOpStatus) :: (labelPhase1 fetch mkQuery senders.length (⟨0, findingMsg, false, none, 0, senders.length, 0⟩ : LabelOpStatus) senders.enum).2.1) ++ [({ (labelPhase1 fetch mkQuery senders.length (⟨0, findingMsg, false, none, 0, senders.length, 0⟩ : LabelOpStatus) senders.enum).1 with message := phase2Msg (labelPhase1 fetch mkQuery senders.length (⟨0, findingMsg, false, none, 0, senders.length, 0⟩ : LabelOpStatus) senders.enum).2.2.1.length } : LabelOpStatus)]).getLast? = some ({ (labelPhase1 fetch mkQuery senders.length (⟨0, findingMsg, false, none, 0, senders.length, 0⟩ : LabelOpStatus) senders.enum).1 with message := phase2Msg (labelPhase1 fetch mkQuery senders.length (⟨0, findingMsg, false, none, 0, senders.length, 0⟩ : LabelOpStatus) senders.enum).2.2.1.length } : LabelOpStatus) :=
            getLast?_append_some _ (List.getLast?_singleton _)
          have hgl3 : ((((⟨0, "Ready", false, none, 0, 0, 0⟩ : LabelOpStatus) :: (⟨0, "Ready", false, none, 0, senders.length, 0⟩ : LabelOpStatus) :: (⟨0, findingMsg, false, none, 0, senders.length, 0⟩ : LabelOpStatus) :: (labelPhase1 fetch mkQuery senders.length (⟨0, findingMsg, false, none, 0, senders.length, 0⟩ : LabelOpStatus) senders.enum).2.1) ++ [({ (labelPhase1 fetch mkQuery senders.length (⟨0, findingMsg, false, none, 0, senders.length, 0⟩ : LabelOpStatus) senders.enum).1 with message := phase2Msg (labelPhase1 fetch mkQuery senders.length (⟨0, findingMsg, false, none, 0, senders.length, 0⟩ : LabelOpStatus) senders.enum).2.2.1.length } : LabelOpStatus)]) ++ (labelPhase2 mutate mkBody chunkMsg errPre (labelPhase1 fetch mkQuery senders.length (⟨0, findingMsg, false, none, 0, senders.length, 0⟩ : LabelOpStatus) senders.enum).2.2.1.length ({ (labelPhase1 fetch mkQuery senders.length (⟨0, findingMsg, false, none, 0, senders.length, 0⟩ : LabelOpStatus) senders.enum).1 with message := phase2Msg (labelPhase1 fetch mkQuery senders.length (⟨0, findingMsg, false, none, 0, senders.length, 0⟩ : LabelOpStatus) senders.enum).2.2.1.length } : LabelOpStatus) 0 (chunksOf 1000 (labelPhase1 fetch mkQuery senders.length (⟨0, findingMsg, false, none, 0, senders.length, 0⟩ : LabelOpStatus) senders.enum).2.2.1)).2.1).getLast? = some (labelPhase2 mutate mkBody chunkMsg errPre (labelPhase1 fetch mkQuery senders.length (⟨0, findingMsg, false, none, 0, senders.length, 0⟩ : LabelOpStatus) senders.enum).2.2.1.length ({ (labelPhase1 fetch mkQuery senders.length (⟨0, findingMsg, false, none, 0, senders.length, 0⟩ : LabelOpStatus) senders.enum).1 with message := phase2Msg (labelPhase1 fetch mkQuery senders.length (⟨0, findingMsg, false, none, 0, senders.length, 0⟩ : LabelOpStatus) senders.enum).2.2.1.length } : LabelOpStatus) 0 (chunksOf 1000 (labelPhase1 fetch mkQuery senders.length (⟨0, findingMsg, false, none, 0, senders.length, 0⟩ : LabelOpStatus) senders.enum).2.2.1)).1 := by
            rw [List.getLast?_append, hgl2, ← cons_getLast?_or]
            exact hp2.2.2
          have hgl4 : (((((⟨0, "Ready", false, none, 0, 0, 0⟩ : LabelOpStatus) :: (⟨0, "Ready", false, none, 0, senders.length, 0⟩ : LabelOpStatus) :: (⟨0, findingMsg, false, none, 0, senders.length, 0⟩ : LabelOpStatus) :: (labelPhase1 fetch mkQuery senders.length (⟨0, findingMsg, false, none, 0, senders.length, 0⟩ : LabelOpStatus) senders.enum).2.1) ++ [({ (labelPhase1 fetch mkQuery senders.length (⟨0, findingMsg, false, none, 0, senders.length, 0⟩ : LabelOpStatus) senders.enum).1 with message := phase2Msg (labelPhase1 fetch mkQuery senders.length (⟨0, findingMsg, false, none, 0, senders.length, 0⟩ : LabelOpStatus) senders.enum).2.2.1.length } : LabelOpStatus)]) ++ (labelPhase2 mutate mkBody chunkMsg errPre (labelPhase1 fetch mkQuery senders.length (⟨0, findingMsg, false, none, 0, senders.length, 0⟩ : LabelOpStatus) senders.enum).2.2.1.length ({ (labelPhase1 fetch mkQuery senders.length (⟨0, findingMsg, false, none, 0, senders.length, 0⟩ : LabelOpStatus) senders.enum).1 with message := phase2Msg (labelPhase1 fetch mkQuery senders.length (⟨0, findingMsg, false, none, 0, senders.length, 0⟩ : LabelOpStatus) senders.enum).2.2.1.length } : LabelOpStatus) 0 (chunksOf 1000 (labelPhase1 fetch mkQuery senders.length (⟨0, findingMsg, false, none, 0, senders.length, 0⟩ : LabelOpStatus) senders.enum).2.2.1)).2.1) ++ [({ (labelPhase2 mutate mkBody chunkMsg errPre (labelPhase1 fetch mkQuery senders.length (⟨0, findingMsg, false, none, 0, senders.length, 0⟩ : LabelOpStatus) senders.enum).2.2.1.length ({ (labelPhase1 fetch mkQuery senders.length (⟨0, findingMsg, false, none, 0, senders.length, 0⟩ : LabelOpStatus) senders.enum).1 with message := phase2Msg (labelPhase1 fetch mkQuery senders.length (⟨0, findingMsg, false, none, 0, senders.length, 0⟩ : LabelOpStatus) senders.enum).2.2.1.length } : LabelOpStatus) 0 (chunksOf 1000 (labelPhase1 fetch mkQuery senders.length (⟨0, findingMsg, false, none, 0, senders.length, 0⟩ : LabelOpStatus) senders.enum).2.2.1)).1 with progress := 100 } : LabelOpStatus), ({ ({ (labelPhase2 mutate mkBody chunkMsg errPre (labelPhase1 fetch mkQuery senders.length (⟨0, findingMsg, false, none, 0, senders.length, 0⟩ : LabelOpStatus) senders.enum).2.2.1.length ({ (labelPhase1 fetch mkQuery senders.length (⟨0, findingMsg, false, none, 0, senders.length, 0⟩ : LabelOpStatus) senders.enum).1 with message := phase2Msg (labelPhase1 fetch mkQuery senders.length (⟨0, findingMsg, false, none, 0, senders.length, 0⟩ : LabelOpStatus) senders.enum).2.2.1.length } : LabelOpStatus) 0 (chunksOf 1000 (labelPhase1 fetch mkQuery senders.length (⟨0, findingMsg, false, none, 0, senders.length, 0⟩ : LabelOpStatus) senders.enum).2.2.1)).1 with progress := 100 } : LabelOpStatus) with done := true } : LabelOpStatus), ({ ({ ({ (labelPhase2 mutate mkBody chunkMsg errPre (labelPhase1 fetch mkQuery senders.length (⟨0, findingMsg, false, none, 0, senders.length, 0⟩ : LabelOpStatus) senders.enum).2.2.1.length ({ (labelPhase1 fetch mkQuery senders.length (⟨0, findingMsg, false, none, 0, senders.length, 0⟩ : LabelOpStatus) senders.enum).1 with message := phase2Msg (labelPhase1 fetch mkQuery senders.length (⟨0, findingMsg, false, none, 0, senders.length, 0⟩ : LabelOpStatus) senders.enum).2.2.1.length } : LabelOpStatus) 0 (chunksOf 1000 (labelPhase1 fetch mkQuery senders.length (⟨0, findingMsg, false, none, 0, senders.length, 0⟩ : LabelOpStatus) senders.enum).2.2.1)).1 with progress := 100 } : LabelOpStatus) with done := true } : LabelOpStatus) with affected_count := (labelPhase2 mutate mkBody chunkMsg errPre (labelPhase1 fetch mkQuery senders.length (⟨0, findingMsg, false, none, 0, senders.length, 0⟩ : LabelOpStatus) senders.enum).2.2.1.length ({ (labelPhase1 fetch mkQuery senders.length (⟨0, findingMsg, false, none, 0, senders.length, 0⟩ : LabelOpStatus) senders.enum).1 with message := phase2Msg (labelPhase1 fetch mkQuery senders.length (⟨0, findingMsg, false, none, 0, senders.length, 0⟩ : LabelOpStatus) senders.enum).2.2.1.length } : LabelOpStatus) 0 (chunksOf 1000 (labelPhase1 fetch mkQuery senders.length (⟨0, findingMsg, false, none, 0, senders.length, 0⟩ : LabelOpStatus) senders.enum).2.2.1)).2.2.1 } : LabelOpStatus)]).getLast? = some ({ ({ ({ (labelPhase2 mutate mkBody chunkMsg errPre (labelPhase1 fetch mkQuery senders.length (⟨0, findingMsg, false, none, 0, senders.length, 0⟩ : LabelOpStatus) senders.enum).2.2.1.length ({ (labelPhase1 fetch mkQuery senders.length (⟨0, findingMsg, false, none, 0, senders.length, 0⟩ : LabelOpStatus) senders.enum).1 with message := phase2Msg (labelPhase1 fetch mkQuery senders.length (⟨0, findingMsg, false, none, 0, senders.length, 0⟩ : LabelOpStatus) senders.enum).2.2.1.length } : LabelOpStatus) 0 (chunksOf 1000 (labelPhase1 fetch mkQuery senders.length (⟨0, findingMsg, false, none, 0, senders.length, 0⟩ : LabelOpStatus) senders.enum).2.2.1)).1 with progress := 100 } : LabelOpStatus) with done := true } : LabelOpStatus) with affected_count := (labelPhase2 mutate mkBody chunkMsg errPre (labelPhase1 fetch mkQuery senders.length (⟨0, findingMsg, false, none, 0, senders.length, 0⟩ : LabelOpStatus) senders.enum).2.2.1.length ({ (labelPhase1 fetch mkQuery senders.length (⟨0, findingMsg, false, none, 0, senders.length, 0⟩ : LabelOpStatus) senders.enum).1 with message := phase2Msg (labelPhase1 fetch mkQuery senders.length (⟨0, findingMsg, false, none, 0, senders.length, 0⟩ : LabelOpStatus) senders.enum).2.2.1.length } : LabelOpStatus) 0 (chunksOf 1000 (labelPhase1 fetch mkQuery senders.length (⟨0, findingMsg, false, none, 0, senders.length, 0⟩ : LabelOpStatus) senders.enum).2.2.1)).2.2.1 } : LabelOpStatus) :=
            getLast?_append_some _ (by
              rw [List.getLast?_cons_cons, List.getLast?_cons_cons,
                List.getLast?_singleton])
          have hp2f100 : (labelPhase2 mutate mkBody chunkMsg errPre (labelPhase1 fetch mkQuery senders.length (⟨0, findingMsg, false, none, 0, senders.length, 0⟩ : LabelOpStatus) senders.enum).2.2.1.length ({ (labelPhase1 fetch mkQuery senders.length (⟨0, findingMsg, false, none, 0, senders.length, 0⟩ : LabelOpStatus) senders.enum).1 with message := phase2Msg (labelPhase1 fetch mkQuery senders.length (⟨0, findingMsg, false, none, 0, senders.length, 0⟩ : LabelOpStatus) senders.enum).2.2.1.length } : LabelOpStatus) 0 (chunksOf 1000 (labelPhase1 fetch mkQuery senders.length (⟨0, findingMsg, false, none, 0, senders.length, 0⟩ : LabelOpStatus) senders.enum).2.2.1)).1.progress ≤ 100 :=
            (hp2.2.1 _ (mem_of_getLast?_eq hp2.2.2)).1
          have hp2fdone : (labelPhase2 mutate mkBody chunkMsg errPre (labelPhase1 fetch mkQuery senders.length (⟨0, findingMsg, false, none, 0, senders.length, 0⟩ : LabelOpStatus) senders.enum).2.2.1.length ({ (labelPhase1 fetch mkQuery senders.length (⟨0, findingMsg, false, none, 0, senders.length, 0⟩ : LabelOpStatus) senders.enum).1 with message := phase2Msg (labelPhase1 fetch mkQuery senders.length (⟨0, findingMsg, false, none, 0, senders.length, 0⟩ : LabelOpStatus) senders.enum).2.2.1.length } : LabelOpStatus) 0 (chunksOf 1000 (labelPhase1 fetch mkQuery senders.length (⟨0, findingMsg, false, none, 0, senders.length, 0⟩ : LabelOpStatus) senders.enum).2.2.1)).1.done = false := by
            rw [(hp2.2.1 _ (mem_of_getLast?_eq hp2.2.2)).2]
            exact hp1fdone
          refine ⟨?_, ?_, ?_⟩
          · refine List.Chain'.append ?_ ?_ ?_
            · refine List.Chain'.append ?_ ?_ ?_
              · refine List.Chain'.append ?_ ?_ ?_
                · refine List.Chain'.append ?_ ?_ ?_
                  · exact List.chain'_cons.mpr ⟨le_refl _,
                      List.chain'_cons.mpr ⟨le_refl _, hp1.1⟩⟩
                  · exact List.chain'_singleton _
                  · intro x hx y hy
                    have hx2 : x ∈ ((⟨0, "Ready", false, none, 0, 0, 0⟩ : LabelOpStatus) :: (⟨0, "Ready", false, none, 0, senders.length, 0⟩ : LabelOpStatus) :: (⟨0, findingMsg, false, none, 0, senders.length, 0⟩ : LabelOpStatus) :: (labelPhase1 fetch mkQuery senders.length (⟨0, findingMsg, false, none, 0, senders.length, 0⟩ : LabelOpStatus) senders.enum).2.1).getLast? := hx
                    rw [hglA] at hx2
                    have hxe : x = (labelPhase1 fetch mkQuery senders.length (⟨0, findingMsg, false, none, 0, senders.length, 0⟩ : LabelOpStatus) senders.enum).1 := (by simpa using hx2 : _ = x).symm
                    have hy2 : y ∈ some ({ (labelPhase1 fetch mkQuery senders.length (⟨0, findingMsg, false, none, 0, senders.length, 0⟩ : LabelOpStatus) senders.enum).1 with message := phase2Msg (labelPhase1 fetch mkQuery senders.length (⟨0, findingMsg, false, none, 0, senders.length, 0⟩ : LabelOpStatus) senders.enum).2.2.1.length } : LabelOpStatus) := hy
                    have hye : y = ({ (labelPhase1 fetch mkQuery senders.length (⟨0, findingMsg, false, none, 0, senders.length, 0⟩ : LabelOpStatus) senders.enum).1 with message := phase2Msg (labelPhase1 fetch mkQuery senders.length (⟨0, findingMsg, false, none, 0, senders.length, 0⟩ : LabelOpStatus) senders.enum).2.2.1.length } : LabelOpStatus) := (by simpa using hy2 : _ = y).symm
                    rw [hxe, hye]
                · exact hp2.1.tail
                · intro x hx y hy
                  have hx2 : x ∈ (((⟨0, "Ready", false, none, 0, 0, 0⟩ : LabelOpStatus) :: (⟨0, "Ready", false, none, 0, senders.length, 0⟩ : LabelOpStatus) :: (⟨0, findingMsg, false, none, 0, senders.length, 0⟩ : LabelOpStatus) :: (labelPhase1 fetch mkQuery senders.length (⟨0, findingMsg, false, none, 0, senders.length, 0⟩ : LabelOpStatus) senders.enum).2.1) ++ [({ (labelPhase1 fetch mkQuery senders.length (⟨0, findingMsg, false, none, 0, senders.length, 0⟩ : LabelOpStatus) senders.enum).1 with message := phase2Msg (labelPhase1 fetch mkQuery senders.length (⟨0, findingMsg, false, none, 0, senders.length, 0⟩ : LabelOpStatus) senders.enum).2.2.1.length } : LabelOpStatus)]).getLast? := hx
                  rw [hgl2] at hx2
                  have hxe : x = ({ (labelPhase1 fetch mkQuery senders.length (⟨0, findingMsg, false, none, 0, senders.length, 0⟩ : LabelOpStatus) senders.enum).1 with message := phase2Msg (labelPhase1 fetch mkQuery senders.length (⟨0, findingMsg, false, none, 0, senders.length, 0⟩ : LabelOpStatus) senders.enum).2.2.1.length } : LabelOpStatus) := (by simpa using hx2 : _ = x).symm
                  rw [hxe]
                  exact (List.chain'_cons'.mp hp2.1).1 y hy
              · exact List.chain'_cons.mpr ⟨le_refl _,
                  List.chain'_cons.mpr ⟨le_refl _, List.chain'_singleton _⟩⟩
              · intro x hx y hy
                have hx2 : x ∈ ((((⟨0, "Ready", false, none, 0, 0, 0⟩ : LabelOpStatus) :: (⟨0, "Ready", false, none, 0, senders.length, 0⟩ : LabelOpStatus) :: (⟨0, findingMsg, false, none, 0, senders.length, 0⟩ : LabelOpStatus) :: (labelPhase1 fetch mkQuery senders.length (⟨0, findingMsg, false, none, 0, senders.length, 0⟩ : LabelOpStatus) senders.enum).2.1) ++ [({ (labelPhase1 fetch mkQuery senders.length (⟨0, findingMsg, false, none, 0, senders.length, 0⟩ : LabelOpStatus) senders.enum).1 with message := phase2Msg (labelPhase1 fetch mkQuery senders.length (⟨0, findingMsg, false, none, 0, senders.length, 0⟩ : LabelOpStatus) senders.enum).2.2.1.length } : LabelOpStatus)]) ++ (labelPhase2 mutate mkBody chunkMsg errPre (labelPhase1 fetch mkQuery senders.length (⟨0, findingMsg, false, none, 0, senders.length, 0⟩ : LabelOpStatus) senders.enum).2.2.1.length ({ (labelPhase1 fetch mkQuery senders.length (⟨0, findingMsg, false, none, 0, senders.length, 0⟩ : LabelOpStatus) senders.enum).1 with message := phase2Msg (labelPhase1 fetch mkQuery senders.length (⟨0, findingMsg, false, none, 0, senders.length, 0⟩ : LabelOpStatus) senders.enum).2.2.1.length } : LabelOpStatus) 0 (chunksOf 1000 (labelPhase1 fetch mkQuery senders.length (⟨0, findingMsg, false, none, 0, senders.length, 0⟩ : LabelOpStatus) senders.enum).2.2.1)).2.1).getLast? := hx
                rw [hgl3] at hx2
                have hxe : x = (labelPhase2 mutate mkBody chunkMsg errPre (labelPhase1 fetch mkQuery senders.length (⟨0, findingMsg, false, none, 0, senders.length, 0⟩ : LabelOpStatus) senders.enum).2.2.1.length ({ (labelPhase1 fetch mkQuery senders.length (⟨0, findingMsg, false, none, 0, senders.length, 0⟩ : LabelOpStatus) senders.enum).1 with message := phase2Msg (labelPhase1 fetch mkQuery senders.length (⟨0, findingMsg, false, none, 0, senders.length, 0⟩ : LabelOpStatus) senders.enum).2.2.1.length } : LabelOpStatus) 0 (chunksOf 1000 (labelPhase1 fetch mkQuery senders.length (⟨0, findingMsg, false, none, 0, senders.length, 0⟩ : LabelOpStatus) senders.enum).2.2.1)).1 := (by simpa using hx2 : _ = x).symm
                have hy2 : y ∈ some ({ (labelPhase2 mutate mkBody chunkMsg errPre (labelPhase1 fetch mkQuery senders.length (⟨0, findingMsg, false, none, 0, senders.length, 0⟩ : LabelOpStatus) senders.enum).2.2.1.length ({ (labelPhase1 fetch mkQuery senders.length (⟨0, findingMsg, false, none, 0, senders.length, 0⟩ : LabelOpStatus) senders.enum).1 with message := phase2Msg (labelPhase1 fetch mkQuery senders.length (⟨0, findingMsg, false, none, 0, senders.length, 0⟩ : LabelOpStatus) senders.enum).2.2.1.length } : LabelOpStatus) 0 (chunksOf 1000 (labelPhase1 fetch mkQuery senders.length (⟨0, findingMsg, false, none, 0, senders.length, 0⟩ : LabelOpStatus) senders.enum).2.2.1)).1 with progress := 100 } : LabelOpStatus) := hy
                have hye : y = ({ (labelPhase2 mutate mkBody chunkMsg errPre (labelPhase1 fetch mkQuery senders.length (⟨0, findingMsg, false, none, 0, senders.length, 0⟩ : LabelOpStatus) senders.enum).2.2.1.length ({ (labelPhase1 fetch mkQuery senders.length (⟨0, findingMsg, false, none, 0, senders.length, 0⟩ : LabelOpStatus) senders.enum).1 with message := phase2Msg (labelPhase1 fetch mkQuery senders.length (⟨0, findingMsg, false, none, 0, senders.length, 0⟩ : LabelOpStatus) senders.enum).2.2.1.length } : LabelOpStatus) 0 (chunksOf 1000 (labelPhase1 fetch mkQuery senders.length (⟨0, findingMsg, false, none, 0, senders.length, 0⟩ : LabelOpStatus) senders.enum).2.2.1)).1 with progress := 100 } : LabelOpStatus) := (by simpa using hy2 : _ = y).symm
                rw [hxe, hye]
                exact hp2f100
            · exact List.chain'_singleton _
            · intro x hx y hy
              have hx2 : x ∈ (((((⟨0, "Ready", false, none, 0, 0, 0⟩ : LabelOpStatus) :: (⟨0, "Ready", false, none, 0, senders.length, 0⟩ : LabelOpStatus) :: (⟨0, findingMsg, false, none, 0, senders.length, 0⟩ : LabelOpStatus) :: (labelPhase1 fetch mkQuery senders.length (⟨0, findingMsg, false, none, 0, senders.length, 0⟩ : LabelOpStatus) senders.enum).2.1) ++ [({ (labelPhase1 fetch mkQuery senders.length (⟨0, findingMsg, false, none, 0, senders.length, 0⟩ : LabelOpStatus) senders.enum).1 with message := phase2Msg (labelPhase1 fetch mkQuery senders.length (⟨0, findingMsg, false, none, 0, senders.length, 0⟩ : LabelOpStatus) senders.enum).2.2.1.length } : LabelOpStatus)]) ++ (labelPhase2 mutate mkBody chunkMsg errPre (labelPhase1 fetch mkQuery senders.length (⟨0, findingMsg, false, none, 0, senders.length, 0⟩ : LabelOpStatus) senders.enum).2.2.1.length ({ (labelPhase1 fetch mkQuery senders.length (⟨0, findingMsg, false, none, 0, senders.length, 0⟩ : LabelOpStatus) senders.enum).1 with message := phase2Msg (labelPhase1 fetch mkQuery senders.length (⟨0, findingMsg, false, none, 0, senders.length, 0⟩ : LabelOpStatus) senders.enum).2.2.1.length } : LabelOpStatus) 0 (chunksOf 1000 (labelPhase1 fetch mkQuery senders.length (⟨0, findingMsg, false, none, 0, senders.length, 0⟩ : LabelOpStatus) senders.enum).2.2.1)).2.1) ++ [({ (labelPhase2 mutate mkBody chunkMsg errPre (labelPhase1 fetch mkQuery senders.length (⟨0, findingMsg, false, none, 0, senders.length, 0⟩ : LabelOpStatus) senders.enum).2.2.1.length ({ (labelPhase1 fetch mkQuery senders.length (⟨0, findingMsg, false, none, 0, senders.length, 0⟩ : LabelOpStatus) senders.enum).1 with message := phase2Msg (labelPhase1 fetch mkQuery senders.length (⟨0, findingMsg, false, none, 0, senders.length, 0⟩ : LabelOpStatus) senders.enum).2.2.1.length } : LabelOpStatus) 0 (chunksOf 1000 (labelPhase1 fetch mkQuery senders.length (⟨0, findingMsg, false, none, 0, senders.length, 0⟩ : LabelOpStatus) senders.enum).2.2.1)).1 with progress := 100 } : LabelOpStatus), ({ ({ (labelPhase2 mutate mkBody chunkMsg errPre (labelPhase1 fetch mkQuery senders.length (⟨0, findingMsg, false, none, 0, senders.length, 0⟩ : LabelOpStatus) senders.enum).2.2.1.length ({ (labelPhase1 fetch mkQuery senders.length (⟨0, findingMsg, false, none, 0, senders.length, 0⟩ : LabelOpStatus) senders.enum).1 with message := phase2Msg (labelPhase1 fetch mkQuery senders.length (⟨0, findingMsg, false, none, 0, senders.length, 0⟩ : LabelOpStatus) senders.enum).2.2.1.length } : LabelOpStatus) 0 (chunksOf 1000 (labelPhase1 fetch mkQuery senders.length (⟨0, findingMsg, false, none, 0, senders.length, 0⟩ : LabelOpStatus) senders.enum).2.2.1)).1 with progress := 100 } : LabelOpStatus) with done := true } : LabelOpStatus), ({ ({ ({ (labelPhase2 mutate mkBody chunkMsg errPre (labelPhase1 fetch mkQuery senders.length (⟨0, findingMsg, false, none, 0, senders.length, 0⟩ : LabelOpStatus) senders.enum).2.2.1.length ({ (labelPhase1 fetch mkQuery senders.length (⟨0, findingMsg, false, none, 0, senders.length, 0⟩ : LabelOpStatus) senders.enum).1 with message := phase2Msg (labelPhase1 fetch mkQuery senders.length (⟨0, findingMsg, false, none, 0, senders.length, 0⟩ : LabelOpStatus) senders.enum).2.2.1.length } : LabelOpStatus) 0 (chunksOf 1000 (labelPhase1 fetch mkQuery senders.length (⟨0, findingMsg, false, none, 0, senders.length, 0⟩ : LabelOpStatus) senders.enum).2.2.1)).1 with progress := 100 } : LabelOpStatus) with done := true } : LabelOpStatus) with affected_count := (labelPhase2 mutate mkBody chunkMsg errPre (labelPhase1 fetch mkQuery senders.length (⟨0, findingMsg, false, none, 0, senders.length, 0⟩ : LabelOpStatus) senders.enum).2.2.1.length ({ (labelPhase1 fetch mkQuery senders.length (⟨0, findingMsg, false, none, 0, senders.length, 0⟩ : LabelOpStatus) senders.enum).1 with message := phase2Msg (labelPhase1 fetch mkQuery senders.length (⟨0, findingMsg, false, none, 0, senders.length, 0⟩ : LabelOpStatus) senders.enum).2.2.1.length } : LabelOpStatus) 0 (chunksOf 1000 (labelPhase1 fetch mkQuery senders.length (⟨0, findingMsg, false, none, 0, senders.length, 0⟩ : LabelOpStatus) senders.enum).2.2.1)).2.2.1 } : LabelOpStatus)]).getLast? := hx
              rw [hgl4] at hx2
              have hxe : x = ({ ({ ({ (labelPhase2 mutate mkBody chunkMsg errPre (labelPhase1 fetch mkQuery senders.length (⟨0, findingMsg, false, none, 0, senders.length, 0⟩ : LabelOpStatus) senders.enum).2.2.1.length ({ (labelPhase1 fetch mkQuery senders.length (⟨0, findingMsg, false, none, 0, senders.length, 0⟩ : LabelOpStatus) senders.enum).1 with message := phase2Msg (labelPhase1 fetch mkQuery senders.length (⟨0, findingMsg, false, none, 0, senders.length, 0⟩ : LabelOpStatus) senders.enum).2.2.1.length } : LabelOpStatus) 0 (chunksOf 1000 (labelPhase1 fetch mkQuery senders.length (⟨0, findingMsg, false, none, 0, senders.length, 0⟩ : LabelOpStatus) senders.enum).2.2.1)).1 with progress := 100 } : LabelOpStatus) with done := true } : LabelOpStatus) with affected_count := (labelPhase2 mutate mkBody chunkMsg errPre (labelPhase1 fetch mkQuery senders.length (⟨0, findingMsg, false, none, 0, senders.length, 0⟩ : LabelOpStatus) senders.enum).2.2.1.length ({ (labelPhase1 fetch mkQuery senders.length (⟨0, findingMsg, false, none, 0, senders.length, 0⟩ : LabelOpStatus) senders.enum).1 with message := phase2Msg (labelPhase1 fetch mkQuery senders.length (⟨0, findingMsg, false, none, 0, senders.length, 0⟩ : LabelOpStatus) senders.enum).2.2.1.length } : LabelOpStatus) 0 (chunksOf 1000 (labelPhase1 fetch mkQuery senders.length (⟨0, findingMsg, false, none, 0, senders.length, 0⟩ : LabelOpStatus) senders.enum).2.2.1)).2.2.1 } : LabelOpStatus) := (by simpa using hx2 : _ = x).symm
              have hy2 : y ∈ some ({ ({ ({ ({ (labelPhase2 mutate mkBody chunkMsg errPre (labelPhase1 fetch mkQuery senders.length (⟨0, findingMsg, false, none, 0, senders.length, 0⟩ : LabelOpStatus) senders.enum).2.2.1.length ({ (labelPhase1 fetch mkQuery senders.length (⟨0, findingMsg, false, none, 0, senders.length, 0⟩ : LabelOpStatus) senders.enum).1 with message := phase2Msg (labelPhase1 fetch mkQuery senders.length (⟨0, findingMsg, false, none, 0, senders.length, 0⟩ : LabelOpStatus) senders.enum).2.2.1.length } : LabelOpStatus) 0 (chunksOf 1000 (labelPhase1 fetch mkQuery senders.length (⟨0, findingMsg, false, none, 0, senders.length, 0⟩ : LabelOpStatus) senders.enum).2.2.1)).1 with progress := 100 } : LabelOpStatus) with done := true } : LabelOpStatus) with affected_count := (labelPhase2 mutate mkBody chunkMsg errPre (labelPhase1 fetch mkQuery senders.length (⟨0, findingMsg, false, none, 0, senders.length, 0⟩ : LabelOpStatus) senders.enum).2.2.1.length ({ (labelPhase1 fetch mkQuery senders.length (⟨0, findingMsg, false, none, 0, senders.length, 0⟩ : LabelOpStatus) senders.enum).1 with message := phase2Msg (labelPhase1 fetch mkQuery senders.length (⟨0, findingMsg, false, none, 0, senders.length, 0⟩ : LabelOpStatus) senders.enum).2.2.1.length } : LabelOpStatus) 0 (chunksOf 1000 (labelPhase1 fetch mkQuery senders.length (⟨0, findingMsg, false, none, 0, senders.length, 0⟩ : LabelOpStatus) senders.enum).2.2.1)).2.2.1 } : LabelOpStatus) with message := successMsg (labelPhase2 mutate mkBody chunkMsg errPre (labelPhase1 fetch mkQuery senders.length (⟨0, findingMsg, false, none, 0, senders.length, 0⟩ : LabelOpStatus) senders.enum).2.2.1.length ({ (labelPhase1 fetch mkQuery senders.length (⟨0, findingMsg, false, none, 0, senders.length, 0⟩ : LabelOpStatus) senders.enum).1 with message := phase2Msg (labelPhase1 fetch mkQuery senders.length (⟨0, findingMsg, false, none, 0, senders.length, 0⟩ : LabelOpStatus) senders.enum).2.2.1.length } : LabelOpStatus) 0 (chunksOf 1000 (labelPhase1 fetch mkQuery senders.length (⟨0, findingMsg, false, none, 0, senders.length, 0⟩ : LabelOpStatus) senders.enum).2.2.1)).2.2.1 } : LabelOpStatus) := hy
              have hye : y = ({ ({ ({ ({ (labelPhase2 mutate mkBody chunkMsg errPre (labelPhase1 fetch mkQuery senders.length (⟨0, findingMsg, false, none, 0, senders.length, 0⟩ : LabelOpStatus) senders.enum).2.2.1.length ({ (labelPhase1 fetch mkQuery senders.length (⟨0, findingMsg, false, none, 0, senders.length, 0⟩ : LabelOpStatus) senders.enum).1 with message := phase2Msg (labelPhase1 fetch mkQuery senders.length (⟨0, findingMsg, false, none, 0, senders.length, 0⟩ : LabelOpStatus) senders.enum).2.2.1.length } : LabelOpStatus) 0 (chunksOf 1000 (labelPhase1 fetch mkQuery senders.length (⟨0, findingMsg, false, none, 0, senders.length, 0⟩ : LabelOpStatus) senders.enum).2.2.1)).1 with progress := 100 } : LabelOpStatus) with done := true } : LabelOpStatus) with affected_count := (labelPhase2 mutate mkBody chunkMsg errPre (labelPhase1 fetch mkQuery senders.length (⟨0, findingMsg, false, none, 0, senders.length, 0⟩ : LabelOpStatus) senders.enum).2.2.1.length ({ (labelPhase1 fetch mkQuery senders.length (⟨0, findingMsg, false, none, 0, senders.length, 0⟩ : LabelOpStatus) senders.enum).1 with message := phase2Msg (labelPhase1 fetch mkQuery senders.length (⟨0, findingMsg, false, none, 0, senders.length, 0⟩ : LabelOpStatus) senders.enum).2.2.1.length } : LabelOpStatus) 0 (chunksOf 1000 (labelPhase1 fetch mkQuery senders.length (⟨0, findingMsg, false, none, 0, senders.length, 0⟩ : LabelOpStatus) senders.enum).2.2.1)).2.2.1 } : LabelOpStatus) with message := successMsg (labelPhase2 mutate mkBody chunkMsg errPre (labelPhase1 fetch mkQuery senders.length (⟨0, findingMsg, false, none, 0, senders.length, 0⟩ : LabelOpStatus) senders.enum).2.2.1.length ({ (labelPhase1 fetch mkQuery senders.length (⟨0, findingMsg, false, none, 0, senders.length, 0⟩ : LabelOpStatus) senders.enum).1 with message := phase2Msg (labelPhase1 fetch mkQuery senders.length (⟨0, findingMsg, false, none, 0, senders.length, 0⟩ : LabelOpStatus) senders.enum).2.2.1.length } : LabelOpStatus) 0 (chunksOf 1000 (labelPhase1 fetch mkQuery senders.length (⟨0, findingMsg, false, none, 0, senders.length, 0⟩ : LabelOpStatus) senders.enum).2.2.1)).2.2.1 } : LabelOpStatus) := (by simpa using hy2 : _ = y).symm
              rw [hxe, hye]
          · refine List.Chain'.append ?_ ?_ ?_
            · refine List.Chain'.append ?_ ?_ ?_
              · refine List.Chain'.append ?_ ?_ ?_
                · refine List.Chain'.append ?_ ?_ ?_
                  · exact chain'_done_of_false _ _ hAfalse
                  · exact List.chain'_singleton _
                  · intro x hx y hy h
                    have hx2 : x ∈ ((⟨0, "Ready", false, none, 0, 0, 0⟩ : LabelOpStatus) :: (⟨0, "Ready", false, none, 0, senders.length, 0⟩ : LabelOpStatus) :: (⟨0, findingMsg, false, none, 0, senders.length, 0⟩ : LabelOpStatus) :: (labelPhase1 fetch mkQuery senders.length (⟨0, findingMsg, false, none, 0, senders.length, 0⟩ : LabelOpStatus) senders.enum).2.1).getLast? := hx
                    rw [hglA] at hx2
                    have hxe : x = (labelPhase1 fetch mkQuery senders.length (⟨0, findingMsg, false, none, 0, senders.length, 0⟩ : LabelOpStatus) senders.enum).1 := (by simpa using hx2 : _ = x).symm
                    rw [hxe] at h
                    rw [hp1fdone] at h
                    exact Bool.noConfusion h
                · refine chain'_done_of_false _ _ ?_
                  intro t ht
                  rw [(hp2.2.1 t (List.mem_cons_of_mem _ ht)).2]
                  exact hp1fdone
                · intro x hx y hy h
                  have hx2 : x ∈ (((⟨0, "Ready", false, none, 0, 0, 0⟩ : LabelOpStatus) :: (⟨0, "Ready", false, none, 0, senders.length, 0⟩ : LabelOpStatus) :: (⟨0, findingMsg, false, none, 0, senders.length, 0⟩ : LabelOpStatus) :: (labelPhase1 fetch mkQuery senders.length (⟨0, findingMsg, false, none, 0, senders.length, 0⟩ : LabelOpStatus) senders.enum).2.1) ++ [({ (labelPhase1 fetch mkQuery senders.length (⟨0, findingMsg, false, none, 0, senders.length, 0⟩ : LabelOpStatus) senders.enum).1 with message := phase2Msg (labelPhase1 fetch mkQuery senders.length (⟨0, findingMsg, false, none, 0, senders.length, 0⟩ : LabelOpStatus) senders.enum).2.2.1.length } : LabelOpStatus)]).getLast? := hx
                  rw [hgl2] at hx2
                  have hxe : x = ({ (labelPhase1 fetch mkQuery senders.length (⟨0, findingMsg, false, none, 0, senders.length, 0⟩ : LabelOpStatus) senders.enum).1 with message := phase2Msg (labelPhase1 fetch mkQuery senders.length (⟨0, findingMsg, false, none, 0, senders.length, 0⟩ : LabelOpStatus) senders.enum).2.2.1.length } : LabelOpStatus) := (by simpa using hx2 : _ = x).symm
                  rw [hxe] at h
                  have h2 : (labelPhase1 fetch mkQuery senders.length (⟨0, findingMsg, false, none, 0, senders.length, 0⟩ : LabelOpStatus) senders.enum).1.done = true := h
                  rw [hp1fdone] at h2
                  exact Bool.noConfusion h2
              · exact List.chain'_cons.mpr ⟨fun _ => rfl,
                  List.chain'_cons.mpr ⟨fun _ => rfl, List.chain'_singleton _⟩⟩
              · intro x hx y hy h
                have hx2 : x ∈ ((((⟨0, "Ready", false, none, 0, 0, 0⟩ : LabelOpStatus) :: (⟨0, "Ready", false, none, 0, senders.length, 0⟩ : LabelOpStatus) :: (⟨0, findingMsg, false, none, 0, senders.length, 0⟩ : LabelOpStatus) :: (labelPhase1 fetch mkQuery senders.length (⟨0, findingMsg, false, none, 0, senders.length, 0⟩ : LabelOpStatus) senders.enum).2.1) ++ [({ (labelPhase1 fetch mkQuery senders.length (⟨0, findingMsg, false, none, 0, senders.length, 0⟩ : LabelOpStatus) senders.enum).1 with message := phase2Msg (labelPhase1 fetch mkQuery senders.length (⟨0, findingMsg, false, none, 0, senders.length, 0⟩ : LabelOpStatus) senders.enum).2.2.1.length } : LabelOpStatus)]) ++ (labelPhase2 mutate mkBody chunkMsg errPre (labelPhase1 fetch mkQuery senders.length (⟨0, findingMsg, false, none, 0, senders.length, 0⟩ : LabelOpStatus) senders.enum).2.2.1.length ({ (labelPhase1 fetch mkQuery senders.length (⟨0, findingMsg, false, none, 0, senders.length, 0⟩ : LabelOpStatus) senders.enum).1 with message := phase2Msg (labelPhase1 fetch mkQuery senders.length (⟨0, findingMsg, false, none, 0, senders.length, 0⟩ : LabelOpStatus) senders.enum).2.2.1.length } : LabelOpStatus) 0 (chunksOf 1000 (labelPhase1 fetch mkQuery senders.length (⟨0, findingMsg, false, none, 0, senders.length, 0⟩ : LabelOpStatus) senders.enum).2.2.1)).2.1).getLast? := hx
                rw [hgl3] at hx2
                have hxe : x = (labelPhase2 mutate mkBody chunkMsg errPre (labelPhase1 fetch mkQuery senders.length (⟨0, findingMsg, false, none, 0, senders.length, 0⟩ : LabelOpStatus) senders.enum).2.2.1.length ({ (labelPhase1 fetch mkQuery senders.length (⟨0, findingMsg, false, none, 0, senders.length, 0⟩ : LabelOpStatus) senders.enum).1 with message := phase2Msg (labelPhase1 fetch mkQuery senders.length (⟨0, findingMsg, false, none, 0, senders.length, 0⟩ : LabelOpStatus) senders.enum).2.2.1.length } : LabelOpStatus) 0 (chunksOf 1000 (labelPhase1 fetch mkQuery senders.length (⟨0, findingMsg, false, none, 0, senders.length, 0⟩ : LabelOpStatus) senders.enum).2.2.1)).1 := (by simpa using hx2 : _ = x).symm
                rw [hxe] at h
                rw [hp2fdone] at h
                exact Bool.noConfusion h
            · exact List.chain'_singleton _
            · intro x hx y hy h
              have hy2 : y ∈ some ({ ({ ({ ({ (labelPhase2 mutate mkBody chunkMsg errPre (labelPhase1 fetch mkQuery senders.length (⟨0, findingMsg, false, none, 0, senders.length, 0⟩ : LabelOpStatus) senders.enum).2.2.1.length ({ (labelPhase1 fetch mkQuery senders.length (⟨0, findingMsg, false, none, 0, senders.length, 0⟩ : LabelOpStatus) senders.enum).1 with message := phase2Msg (labelPhase1 fetch mkQuery senders.length (⟨0, findingMsg, false, none, 0, senders.length, 0⟩ : LabelOpStatus) senders.enum).2.2.1.length } : LabelOpStatus) 0 (chunksOf 1000 (labelPhase1 fetch mkQuery senders.length (⟨0, findingMsg, false, none, 0, senders.length, 0⟩ : LabelOpStatus) senders.enum).2.2.1)).1 with progress := 100 } : LabelOpStatus) with done := true } : LabelOpStatus) with affected_count := (labelPhase2 mutate mkBody chunkMsg errPre (labelPhase1 fetch mkQuery senders.length (⟨0, findingMsg, false, none, 0, senders.length, 0⟩ : LabelOpStatus) senders.enum).2.2.1.length ({ (labelPhase1 fetch mkQuery senders.length (⟨0, findingMsg, false, none, 0, senders.length, 0⟩ : LabelOpStatus) senders.enum).1 with message := phase2Msg (labelPhase1 fetch mkQuery senders.length (⟨0, findingMsg, false, none, 0, senders.length, 0⟩ : LabelOpStatus) senders.enum).2.2.1.length } : LabelOpStatus) 0 (chunksOf 1000 (labelPhase1 fetch mkQuery senders.length (⟨0, findingMsg, false, none, 0, senders.length, 0⟩ : LabelOpStatus) senders.enum).2.2.1)).2.2.1 } : LabelOpStatus) with message := successMsg (labelPhase2 mutate mkBody chunkMsg errPre (labelPhase1 fetch mkQuery senders.length (⟨0, findingMsg, false, none, 0, senders.length, 0⟩ : LabelOpStatus) senders.enum).2.2.1.length ({ (labelPhase1 fetch mkQuery senders.length (⟨0, findingMsg, false, none, 0, senders.length, 0⟩ : LabelOpStatus) senders.enum).1 with message := phase2Msg (labelPhase1 fetch mkQuery senders.length (⟨0, findingMsg, false, none, 0, senders.length, 0⟩ : LabelOpStatus) senders.enum).2.2.1.length } : LabelOpStatus) 0 (chunksOf 1000 (labelPhase1 fetch mkQuery senders.length (⟨0, findingMsg, false, none, 0, senders.length, 0⟩ : LabelOpStatus) senders.enum).2.2.1)).2.2.1 } : LabelOpStatus) := hy
              have hye : y = ({ ({ ({ ({ (labelPhase2 mutate mkBody chunkMsg errPre (labelPhase1 fetch mkQuery senders.length (⟨0, findingMsg, false, none, 0, senders.length, 0⟩ : LabelOpStatus) senders.enum).2.2.1.length ({ (labelPhase1 fetch mkQuery senders.length (⟨0, findingMsg, false, none, 0, senders.length, 0⟩ : LabelOpStatus) senders.enum).1 with message := phase2Msg (labelPhase1 fetch mkQuery senders.length (⟨0, findingMsg, false, none, 0, senders.length, 0⟩ : LabelOpStatus) senders.enum).2.2.1.length } : LabelOpStatus) 0 (chunksOf 1000 (labelPhase1 fetch mkQuery senders.length (⟨0, findingMsg, false, none, 0, senders.length, 0⟩ : LabelOpStatus) senders.enum).2.2.1)).1 with progress := 100 } : LabelOpStatus) with done := true } : LabelOpStatus) with affected_count := (labelPhase2 mutate mkBody chunkMsg errPre (labelPhase1 fetch mkQuery senders.length (⟨0, findingMsg, false, none, 0, senders.length, 0⟩ : LabelOpStatus) senders.enum).2.2.1.length ({ (labelPhase1 fetch mkQuery senders.length (⟨0, findingMsg, false, none, 0, senders.length, 0⟩ : LabelOpStatus) senders.enum).1 with message := phase2Msg (labelPhase1 fetch mkQuery senders.length (⟨0, findingMsg, false, none, 0, senders.length, 0⟩ : LabelOpStatus) senders.enum).2.2.1.length } : LabelOpStatus) 0 (chunksOf 1000 (labelPhase1 fetch mkQuery senders.length (⟨0, findingMsg, false, none, 0, senders.length, 0⟩ : LabelOpStatus) senders.enum).2.2.1)).2.2.1 } : LabelOpStatus) with message := successMsg (labelPhase2 mutate mkBody chunkMsg errPre (labelPhase1 fetch mkQuery senders.length (⟨0, findingMsg, false, none, 0, senders.length, 0⟩ : LabelOpStatus) senders.enum).2.2.1.length ({ (labelPhase1 fetch mkQuery senders.length (⟨0, findingMsg, false, none, 0, senders.length, 0⟩ : LabelOpStatus) senders.enum).1 with message := phase2Msg (labelPhase1 fetch mkQuery senders.length (⟨0, findingMsg, false, none, 0, senders.length, 0⟩ : LabelOpStatus) senders.enum).2.2.1.length } : LabelOpStatus) 0 (chunksOf 1000 (labelPhase1 fetch mkQuery senders.length (⟨0, findingMsg, false, none, 0, senders.length, 0⟩ : LabelOpStatus) senders.enum).2.2.1)).2.2.1 } : LabelOpStatus) := (by simpa using hy2 : _ = y).symm
              rw [hye]
          · intro s hs
            rw [List.getLast?_append] at hs
            rw [List.getLast?_singleton] at hs
            have hse : s = ({ ({ ({ ({ (labelPhase2 mutate mkBody chunkMsg errPre (labelPhase1 fetch mkQuery senders.length (⟨0, findingMsg, false, none, 0, senders.length, 0⟩ : LabelOpStatus) senders.enum).2.2.1.length ({ (labelPhase1 fetch mkQuery senders.length (⟨0, findingMsg, false, none, 0, senders.length, 0⟩ : LabelOpStatus) senders.enum).1 with message := phase2Msg (labelPhase1 fetch mkQuery senders.length (⟨0, findingMsg, false, none, 0, senders.length, 0⟩ : LabelOpStatus) senders.enum).2.2.1.length } : LabelOpStatus) 0 (chunksOf 1000 (labelPhase1 fetch mkQuery senders.length (⟨0, findingMsg, false, none, 0, senders.length, 0⟩ : LabelOpStatus) senders.enum).2.2.1)).1 with progress := 100 } : LabelOpStatus) with done := true } : LabelOpStatus) with affected_count := (labelPhase2 mutate mkBody chunkMsg errPre (labelPhase1 fetch mkQuery senders.length (⟨0, findingMsg, false, none, 0, senders.length, 0⟩ : LabelOpStatus) senders.enum).2.2.1.length ({ (labelPhase1 fetch mkQuery senders.length (⟨0, findingMsg, false, none, 0, senders.length, 0⟩ : LabelOpStatus) senders.enum).1 with message := phase2Msg (labelPhase1 fetch mkQuery senders.length (⟨0, findingMsg, false, none, 0, senders.length, 0⟩ : LabelOpStatus) senders.enum).2.2.1.length } : LabelOpStatus) 0 (chunksOf 1000 (labelPhase1 fetch mkQuery senders.length (⟨0, findingMsg, false, none, 0, senders.length, 0⟩ : LabelOpStatus) senders.enum).2.2.1)).2.2.1 } : LabelOpStatus) with message := successMsg (labelPhase2 mutate mkBody chunkMsg errPre (labelPhase1 fetch mkQuery senders.length (⟨0, findingMsg, false, none, 0, senders.length, 0⟩ : LabelOpStatus) senders.enum).2.2.1.length ({ (labelPhase1 fetch mkQuery senders.length (⟨0, findingMsg, false, none, 0, senders.length, 0⟩ : LabelOpStatus) senders.enum).1 with message := phase2Msg (labelPhase1 fetch mkQuery senders.length (⟨0, findingMsg, false, none, 0, senders.length, 0⟩ : LabelOpStatus) senders.enum).2.2.1.length } : LabelOpStatus) 0 (chunksOf 1000 (labelPhase1 fetch mkQuery senders.length (⟨0, findingMsg, false, none, 0, senders.length, 0⟩ : LabelOpStatus) senders.enum).2.2.1)).2.2.1 } : LabelOpStatus) := (by simpa using hs : _ = s).symm
            rw [hse]

/-- C2 (amended): for the three two-phase mutation jobs (bulk delete,
apply-label, remove-label), over the sequence of writes to the status
slot the progress percent is non-decreasing, done is never unset once
set, and the job's final write leaves done == true (so in the final
state progress == 100 implies done == true).  The claim's stronger
clause — that every intermediate state with progress == 100 already has
done == true — fails, because each completion block writes progress
:= 100 strictly before done := true (see the counterexample). -/
theorem C2_two_phase_progress (authErr : Option String)
    (fetch : String → Except String (List String))
    (mutate : BatchModifyBody → Option String)
    (labelId : String) (senders : List String) :
    monotoneDoneTrace DeleteBulkStatus.progress DeleteBulkStatus.done
      (delete_emails_bulk_background authErr fetch mutate senders) ∧
    monotoneDoneTrace LabelOpStatus.progress LabelOpStatus.done
      (apply_label_to_senders_background authErr fetch mutate labelId senders) ∧
    monotoneDoneTrace LabelOpStatus.progress LabelOpStatus.done
      (remove_label_from_senders_background authErr fetch mutate labelId
        senders) :=
  ⟨db_trace_good authErr fetch mutate senders,
   labelJob_trace_good authErr fetch mutate
     (fun sender => "from:" ++ sender)
     (fun chunk => ⟨chunk, [labelId], []⟩)
     "Finding emails to label..."
     "No emails found to label"
     (fun total => "Applying label to " ++ toString total ++ " emails...")
     (fun d total =>
       "Labeled " ++ toString d ++ "/" ++ toString total ++ " emails...")
     "Batch label error: "
     (fun d => "Labeled " ++ toString d ++ " emails with some errors")
     (fun d => "Successfully labeled " ++ toString d ++ " emails")
     labelId senders,
   labelJob_trace_good authErr fetch mutate
     (fun sender => "from:" ++ sender ++ " label:" ++ labelId)
     (fun chunk => ⟨chunk, [], [labelId]⟩)
     "Finding emails to unlabel..."
     "No emails found with this label"
     (fun total => "Removing label from " ++ toString total ++ " emails...")
     (fun d total =>
       "Unlabeled " ++ toString d ++ "/" ++ toString total ++ " emails...")
     "Batch unlabel error: "
     (fun d => "Unlabeled " ++ toString d ++ " emails with some errors")
     (fun d => "Successfully removed label from " ++ toString d ++ " emails")
     labelId senders⟩

/-- C2 witness: a one-sender bulk delete against an obliging transport
ends in the state with progress 100 and done true; the final-write
clause of the theorem applied to that concrete trace. -/
theorem C2_two_phase_progress_witness :
    (delete_emails_bulk_background none (fun _ => Except.ok ["m1"])
        (fun _ => none) ["a@b.com"]).getLast? =
      some (⟨100, "Successfully deleted 1 emails", true, none, 1, 1, 1⟩ :
        DeleteBulkStatus) ∧
    DeleteBulkStatus.done
      (⟨100, "Successfully deleted 1 emails", true, none, 1, 1, 1⟩ :
        DeleteBulkStatus) = true :=
  ⟨by decide,
   (C2_two_phase_progress none (fun _ => Except.ok ["m1"]) (fun _ => none)
     "L1" ["a@b.com"]).1.2.2 _
     (show _ = some _ by decide)⟩

/-- C2 counterexample: in the same concrete bulk-delete run, the ninth
write (the phase-2 progress update of the last chunk) leaves the status
slot at progress 100 with done still false, so a state in which progress
equals 100 does not have done == true. -/
theorem C2_counterexample :
    ((delete_emails_bulk_background none (fun _ => Except.ok ["m1"])
      (fun _ => none) ["a@b.com"])[8]?).map
        (fun s => (s.progress, s.done)) = some (100, false) := by
  decide

theorem debsFinish_deleted_pos (mutate : BatchModifyBody → Option String)
    (sender : String) (cache : List SenderRow) (ids : List String) :
    0 < (debsFinish mutate sender cache ids).1.deleted →
    (debsFinish mutate sender cache ids).2 =
      cache.filter (fun r => r.email ≠ sender) := by
  unfold debsFinish
  cases ids with
  | nil =>
    intro hpos
    exact absurd hpos (Nat.lt_irrefl 0)
  | cons a as =>
    cases ht : trashChunks mutate (chunksOf 100 (a :: as)) 0 with
    | error e =>
      intro hpos
      exact absurd hpos (Nat.lt_irrefl 0)
    | ok d =>
      intro _
      rfl

/-- C5 (amended): the two-phase background bulk delete leaves the
delete-scan ResultCache untouched; only delete_emails_by_sender removes
the acted-on sender key from the cache, and it does so exactly on the
fully successful path (some messages actually trashed). -/
theorem C5_cache_pruning :
    (∀ (authErr : Option String)
        (fetch : String → Except String (List String))
        (mutate : BatchModifyBody → Option String)
        (senders : List String) (cache : List SenderRow),
      (deleteBulkRun authErr fetch mutate senders cache).2 = cache) ∧
    (∀ (authErr : Option String)
        (fetch : String → Except String (List String))
        (mutate : BatchModifyBody → Option String)
        (sender : String) (cache : List SenderRow),
      0 < (delete_emails_by_sender authErr fetch mutate sender cache).1.deleted →
      ∀ r ∈ (delete_emails_by_sender authErr fetch mutate sender cache).2,
        r.email ≠ sender) := by
  refine ⟨fun _ _ _ _ _ => rfl, ?_⟩
  intro authErr fetch mutate sender cache
  unfold delete_emails_by_sender
  by_cases hs : sender = ""
  · rw [if_pos hs]
    intro hpos
    exact absurd hpos (Nat.lt_irrefl 0)
  · rw [if_neg hs]
    cases authErr with
    | some e =>
      intro hpos
      exact absurd hpos (Nat.lt_irrefl 0)
    | none =>
      cases hf : fetch ("from:" ++ sender) with
      | error e =>
        intro hpos
        exact absurd hpos (Nat.lt_irrefl 0)
      | ok ids =>
        intro hpos r hr
        have hpos2 : 0 < (debsFinish mutate sender cache ids).1.deleted := hpos
        have hr2 : r ∈ (debsFinish mutate sender cache ids).2 := hr
        rw [debsFinish_deleted_pos mutate sender cache ids hpos2] at hr2
        simp only [List.mem_filter] at hr2
        exact of_decide_eq_true hr2.2

/-- C5 witness: deleting one sender with one message succeeds, and the
other cached row that survives is not the deleted sender. -/
theorem C5_cache_pruning_witness :
    0 < (delete_emails_by_sender none (fun _ => Except.ok ["m1"])
        (fun _ => none) "promo@shop.com"
        [⟨1, "Promo", "promo@shop.com", [], none, none, ["m1"], 10⟩,
         ⟨1, "News", "news@site.com", [], none, none, ["m2"], 5⟩]).1.deleted ∧
    (⟨1, "News", "news@site.com", [], none, none, ["m2"], 5⟩ : SenderRow) ∈
      (delete_emails_by_sender none (fun _ => Except.ok ["m1"])
        (fun _ => none) "promo@shop.com"
        [⟨1, "Promo", "promo@shop.com", [], none, none, ["m1"], 10⟩,
         ⟨1, "News", "news@site.com", [], none, none, ["m2"], 5⟩]).2 ∧
    (⟨1, "News", "news@site.com", [], none, none, ["m2"], 5⟩ :
      SenderRow).email ≠ "promo@shop.com" :=
  ⟨by decide, by decide,
   C5_cache_pruning.2 none (fun _ => Except.ok ["m1"]) (fun _ => none)
     "promo@shop.com"
     [⟨1, "Promo", "promo@shop.com", [], none, none, ["m1"], 10⟩,
      ⟨1, "News", "news@site.com", [], none, none, ["m2"], 5⟩]
     (by decide) _ (by decide)⟩

/-- C5 counterexample: a successful run of the two-phase background bulk
delete (final deleted_count 1, done true) leaves the trashed sender's
row sitting in the delete-scan cache: the job never touches
state.delete_scan_results. -/
theorem C5_counterexample :
    (deleteBulkRun none (fun _ => Except.ok ["m1"]) (fun _ => none)
        ["promo@shop.com"]
        [⟨1, "Promo", "promo@shop.com", [], none, none, ["m1"], 10⟩]).2 =
      [⟨1, "Promo", "promo@shop.com", [], none, none, ["m1"], 10⟩] ∧
    ((deleteBulkRun none (fun _ => Except.ok ["m1"]) (fun _ => none)
        ["promo@shop.com"]
        [⟨1, "Promo", "promo@shop.com", [], none, none, ["m1"], 10⟩]).1.getLast?).map
      (fun s => (s.deleted_count, s.done)) = some (1, true) ∧
    (⟨1, "Promo", "promo@shop.com", [], none, none, ["m1"], 10⟩ :
      SenderRow).email = "promo@shop.com" :=
  ⟨rfl, by decide, rfl⟩

/-- C6 (amended): get_scan_status hands back a freshly allocated copy —
mutating the copy leaves the stored slot unchanged, and a later worker
write to the slot is invisible through the copy — but
get_delete_bulk_status returns the slot's own dict (no .copy()), a live
reference. -/
theorem C6_status_snapshots (m : Mem) (k : String) (v : PyVal)
    (hfresh : m.fresh ≠ m.scanAddr) :
    ((dictWrite (get_scan_status_ref m).2 (get_scan_status_ref m).1 k v).mem
        m.scanAddr = m.mem m.scanAddr) ∧
    ((dictWrite (get_scan_status_ref m).2 m.scanAddr k v).mem
        (get_scan_status_ref m).1 = m.mem m.scanAddr) ∧
    (get_delete_bulk_status_ref m).1 = m.deleteBulkAddr := by
  have h1 : m.scanAddr ≠ m.fresh := fun h => hfresh h.symm
  refine ⟨?_, ?_, rfl⟩
  · simp [dictWrite, get_scan_status_ref, h1]
  · simp [dictWrite, get_scan_status_ref, h1, hfresh]

/-- C6 witness: the copy semantics of get_scan_status checked on the
process-start heap, where the fresh address differs from the slot. -/
theorem C6_status_snapshots_witness :
    initMem.fresh ≠ initMem.scanAddr ∧
    (dictWrite (get_scan_status_ref initMem).2 (get_scan_status_ref initMem).1
        "progress" (PyVal.vInt 55)).mem initMem.scanAddr =
      initMem.mem initMem.scanAddr :=
  ⟨by decide,
   (C6_status_snapshots initMem "progress" (PyVal.vInt 55) (by decide)).1⟩

/-- C6 counterexample: mutating the structure returned by
get_delete_bulk_status changes the stored status — the getter returns the
live dict, not a copy, so the claim fails for the delete-bulk kind. -/
theorem C6_counterexample :
    (dictWrite (get_delete_bulk_status_ref initMem).2
        (get_delete_bulk_status_ref initMem).1 "progress"
        (PyVal.vInt 55)).mem initMem.deleteBulkAddr ≠
      initMem.mem initMem.deleteBulkAddr := by
  decide

/-- C7 (code bug): both archive_emails_background and
mark_important_background bind the (service, error) pair returned by
get_gmail_service without unpacking it, so on any auth failure with at
least one sender the job makes zero mutation calls but finishes with the
AttributeError text in the error field — never the auth provider's
message (for instance the sign-in-in-progress message) verbatim, whatever
that message was. -/
theorem C7_auth_error_not_surfaced (e sender : String) (rest : List String) :
    ((archive_emails_background (none, some e) (sender :: rest)).1.getLast?).map
        (fun s => (s.done, s.error)) = some (true, some tupleAttrErrorMsg) ∧
    (archive_emails_background (none, some e) (sender :: rest)).2 = 0 ∧
    ((mark_important_background (none, some e) (sender :: rest) true).1.getLast?).map
        (fun s => (s.done, s.error)) = some (true, some tupleAttrErrorMsg) ∧
    (mark_important_background (none, some e) (sender :: rest) true).2 = 0 ∧
    tupleAttrErrorMsg ≠
      "Sign-in already in progress. Please complete the authorization in your browser." :=
  ⟨rfl, rfl, rfl, rfl, by decide⟩

/-- C8 (code bug): AppState.__init__ creates the scan, mark-read,
delete-scan, delete-bulk and download slots in their Ready zero-state,
but the label-operation, archive and important slots do not exist at
process start (reading them raises AttributeError); they come into being
only when reset_download first runs. -/
theorem C8_missing_status_slots :
    initAppState.scan_status = basicReady ∧
    initAppState.mark_read_status = markReadReady ∧
    initAppState.delete_scan_status = basicReady ∧
    initAppState.delete_bulk_status = deleteBulkReady ∧
    initAppState.download_status = downloadReady ∧
    initAppState.label_operation_status = none ∧
    initAppState.archive_status = none ∧
    initAppState.important_status = none ∧
    get_label_operation_status initAppState = none ∧
    (AppState.reset_download initAppState).label_operation_status =
      some labelOpReady ∧
    (AppState.reset_download initAppState).archive_status =
      some archiveReady ∧
    (AppState.reset_download initAppState).important_status =
      some importantReady :=
  ⟨rfl, rfl, rfl, rfl, rfl, rfl, rfl, rfl, rfl, rfl, rfl, rfl⟩

/-- C9: unsubscribe_single issues a network request only when the link's
scheme is http(s) and its hostname resolves to an IP that is neither
private, loopback, link-local nor unspecified; an empty link, a mailto
link or a link rejected by _validate_unsafe_url yields a failure result
with zero requests. -/
theorem C9_ssrf_guard (dns : String → DnsAnswer)
    (postResp getResp : Except String Nat) (domain link : String) :
    ((unsubscribe_single dns postResp getResp domain link).2 ≠ 0 →
      ((pyUrlSchemeHost link).1 = "http" ∨ (pyUrlSchemeHost link).1 = "https") ∧
      ∃ host, (pyUrlSchemeHost link).2 = some host ∧
        ∃ ipStr flags, dns host = DnsAnswer.resolved ipStr flags ∧
          flags.is_private = false ∧ flags.is_loopback = false ∧
          flags.is_link_local = false ∧ flags.is_unspecified = false) ∧
    ((link = "" ∨ ("mailto:".data).isPrefixOf link.data = true ∨
        (∃ e, validate_unsafe_url dns link = Except.error e)) →
      (unsubscribe_single dns postResp getResp domain link).1.success = false ∧
      (unsubscribe_single dns postResp getResp domain link).2 = 0) := by
  constructor
  · intro hreq
    by_cases hl : link = ""
    · exact absurd (by simp [unsubscribe_single, hl]) hreq
    · by_cases hm : ("mailto:".data).isPrefixOf link.data = true
      · exact absurd (by simp [unsubscribe_single, hl, hm]) hreq
      · cases hv : validate_unsafe_url dns link with
        | error e =>
          exact absurd (by simp [unsubscribe_single, hl, hm, hv]) hreq
        | ok u =>
          unfold validate_unsafe_url at hv
          by_cases hsch : (pyUrlSchemeHost link).1 = "http" ∨
              (pyUrlSchemeHost link).1 = "https"
          · rw [if_neg (not_not_intro hsch)] at hv
            cases hh : (pyUrlSchemeHost link).2 with
            | none =>
              rw [hh] at hv
              simp at hv
            | some host =>
              rw [hh] at hv
              have hv2 : (match dns host with
                  | DnsAnswer.unresolved =>
                    Except.error ("Could not resolve hostname: " ++ host)
                  | DnsAnswer.badIp s =>
                    Except.error ("Invalid IP address resolved: " ++ s)
                  | DnsAnswer.resolved s flags =>
                    if flags.is_private || flags.is_loopback ||
                        flags.is_link_local || flags.is_unspecified then
                      Except.error ("Blocked restricted IP: " ++ s)
                    else Except.ok link) = Except.ok u := hv
              cases hd : dns host with
              | unresolved =>
                rw [hd] at hv2
                simp at hv2
              | badIp s =>
                rw [hd] at hv2
                simp at hv2
              | resolved s flags =>
                rw [hd] at hv2
                have hv3 : (if flags.is_private || flags.is_loopback ||
                      flags.is_link_local || flags.is_unspecified then
                    Except.error ("Blocked restricted IP: " ++ s)
                  else Except.ok link) = Except.ok u := hv2
                by_cases hfl : (flags.is_private || flags.is_loopback ||
                    flags.is_link_local || flags.is_unspecified) = true
                · rw [if_pos hfl] at hv3
                  simp at hv3
                · simp only [Bool.or_eq_true, not_or, Bool.not_eq_true] at hfl
                  exact ⟨hsch, host, rfl, s, flags, hd,
                    hfl.1.1.1, hfl.1.1.2, hfl.1.2, hfl.2⟩
          · rw [if_pos hsch] at hv
            simp at hv
  · intro hdisj
    by_cases hl : link = ""
    · constructor
      · simp [unsubscribe_single, hl]
      · simp [unsubscribe_single, hl]
    · by_cases hm : ("mailto:".data).isPrefixOf link.data = true
      · constructor
        · simp [unsubscribe_single, hl, hm]
        · simp [unsubscribe_single, hl, hm]
      · rcases hdisj with hl2 | hm2 | ⟨e, hv⟩
        · exact absurd hl2 hl
        · exact absurd hm2 hm
        · constructor
          · simp [unsubscribe_single, hl, hm, hv]
          · simp [unsubscribe_single, hl, hm, hv]

/-- C9 witness: a mailto link makes no request and fails; a private-range
host is blocked by validation and makes no request. -/
theorem C9_ssrf_guard_witness :
    (("mailto:".data).isPrefixOf ("mailto:a@b.com").data = true ∧
      (unsubscribe_single (fun _ => DnsAnswer.unresolved)
        (Except.error "x") (Except.error "x") "shop.com"
        "mailto:a@b.com").1.success = false ∧
      (unsubscribe_single (fun _ => DnsAnswer.unresolved)
        (Except.error "x") (Except.error "x") "shop.com"
        "mailto:a@b.com").2 = 0) ∧
    (validate_unsafe_url
        (fun _ => DnsAnswer.resolved "10.0.0.5" ⟨true, false, false, false⟩)
        "http://internal.corp/u" =
      Except.error "Blocked restricted IP: 10.0.0.5" ∧
      (unsubscribe_single
        (fun _ => DnsAnswer.resolved "10.0.0.5" ⟨true, false, false, false⟩)
        (Except.ok 200) (Except.ok 200) "internal.corp"
        "http://internal.corp/u").2 = 0) :=
  ⟨⟨by decide,
    (C9_ssrf_guard (fun _ => DnsAnswer.unresolved) (Except.error "x")
      (Except.error "x") "shop.com" "mailto:a@b.com").2
      (Or.inr (Or.inl (by decide))) |>.1,
    (C9_ssrf_guard (fun _ => DnsAnswer.unresolved) (Except.error "x")
      (Except.error "x") "shop.com" "mailto:a@b.com").2
      (Or.inr (Or.inl (by decide))) |>.2⟩,
   ⟨rfl,
    (C9_ssrf_guard
      (fun _ => DnsAnswer.resolved "10.0.0.5" ⟨true, false, false, false⟩)
      (Except.ok 200) (Except.ok 200) "internal.corp"
      "http://internal.corp/u").2
      (Or.inr (Or.inr ⟨"Blocked restricted IP: 10.0.0.5", rfl⟩)) |>.2⟩⟩

/-- C10: get_unread_count returns an integer count when the single page
has no nextPageToken (and at most 500 ids can come back from one page of
maxResults=500, reflected by the hypothesis), the string count ++ "+"
when a token exists, and count 0 with the error populated on auth or
transport failure. -/
theorem C10_unread_count (authErr : Option String)
    (resp : Except String (List String × Option String)) :
    (∀ e, authErr = some e →
      get_unread_count authErr resp = ⟨CountVal.ofNat 0, some e⟩) ∧
    (authErr = none → ∀ e, resp = Except.error e →
      get_unread_count authErr resp = ⟨CountVal.ofNat 0, some e⟩) ∧
    (authErr = none → ∀ msgs, resp = Except.ok (msgs, none) →
      msgs.length ≤ 500 →
      get_unread_count authErr resp = ⟨CountVal.ofNat msgs.length, none⟩ ∧
      msgs.length ≤ 500) ∧
    (authErr = none → ∀ msgs tok, resp = Except.ok (msgs, some tok) →
      get_unread_count authErr resp =
        ⟨CountVal.ofStr (toString msgs.length ++ "+"), none⟩) := by
  refine ⟨?_, ?_, ?_, ?_⟩
  · intro e he
    rw [he]
    rfl
  · intro ha e he
    rw [ha, he]
    rfl
  · intro ha msgs hr hlen
    rw [ha, hr]
    exact ⟨rfl, hlen⟩
  · intro ha msgs tok hr
    rw [ha, hr]
    rfl

/-- C10 witness: two unread ids without a token give the integer 2; with
a token they give the string "2+". -/
theorem C10_unread_count_witness :
    (["a", "b"] : List String).length ≤ 500 ∧
    get_unread_count none (Except.ok (["a", "b"], none)) =
      ⟨CountVal.ofNat 2, none⟩ ∧
    get_unread_count none (Except.ok (["a", "b"], some "t")) =
      ⟨CountVal.ofStr "2+", none⟩ :=
  ⟨by decide,
   ((C10_unread_count none (Except.ok (["a", "b"], none))).2.2.1 rfl
     ["a", "b"] rfl (by decide)).1,
   (C10_unread_count none (Except.ok (["a", "b"], some "t"))).2.2.2 rfl
     ["a", "b"] "t" rfl⟩
